import Mathlib

/-! Sketcher GUI commands (`src/Mod/Sketcher/Gui/Command.cpp`).

A shallow embedding of the command handlers of the sketch workbench.  Every
handler is a function from the state of its host (selection, active document,
attach engine, modal dialogs) to the sequence of calls it makes on that host.
Vectors are lists, pointers to document objects are the objects themselves
(compared by `id`), C++ `int` is `Int` (the `+= baseGeometry` of the merge
loop is reduced to 32 bits by `toInt32`), and an access outside a vector ends
the run with `Outcome.undefined`.
-/

set_option autoImplicit false

namespace Sketcher

/-- Constants of `Sketcher::GeoEnum` (declared in `Mod/Sketcher/App/GeoEnum.h`,
which is not part of this file): the ids of the undefined geometry and of the
two sketch axes.  They are parameters of the embedding. -/
structure GeoEnum where
  GeoUndef : Int
  HAxis : Int
  VAxis : Int
  deriving DecidableEq, Repr

/-- Values the constants have in `GeoEnum.cpp`, used for concrete runs. -/
def GeoEnum.values : GeoEnum := { GeoUndef := -2000, HAxis := -1, VAxis := -2 }

/-- The fields of `Sketcher::Constraint` this file reads and writes are the
three geometry references; `rest` stands for every other field. -/
structure Constraint where
  First : Int
  Second : Int
  Third : Int
  rest : Nat
  deriving DecidableEq, Repr

end Sketcher

namespace Part

/-- A `Part::Geometry*`: the handlers only move these around. -/
structure Geometry where
  tag : Nat
  deriving DecidableEq, Repr

end Part

namespace Base

/-- A C++ `double`, carried as its bit pattern: the handlers copy doubles and
never compute with them. -/
structure Double where
  bits : Nat
  deriving DecidableEq, Repr

structure Vector3d where
  x : Double
  y : Double
  z : Double
  deriving DecidableEq, Repr

/-- The quaternion read as `r[0] .. r[3]`. -/
structure Rotation where
  q0 : Double
  q1 : Double
  q2 : Double
  q3 : Double
  deriving DecidableEq, Repr

structure Placement where
  getPosition : Vector3d
  getRotation : Rotation
  deriving DecidableEq, Repr

/-- The default `Base::Placement()`: position 0, rotation (0, 0, 0, 1). -/
def Placement.identity : Placement :=
  { getPosition := { x := ⟨0⟩, y := ⟨0⟩, z := ⟨0⟩ }
    getRotation := { q0 := ⟨0⟩, q1 := ⟨0⟩, q2 := ⟨0⟩, q3 := ⟨0x3FF0000000000000⟩ } }

end Base

namespace Sketcher

/-- The properties of a `Sketcher::SketchObject` the handlers touch. -/
structure SketchObject where
  Geometry : List Part.Geometry
  Constraints : List Constraint
  Placement : Base.Placement
  deriving DecidableEq, Repr

/-- The same vector `Geometry.getValues()` holds. -/
def SketchObject.getInternalGeometry (s : SketchObject) : List Part.Geometry :=
  s.Geometry

/-- Modelled from the spec: `SketchObject::addGeometry(const std::vector<Part::Geometry*>&)`
lives in `Mod/Sketcher/App/SketchObject.cpp`; it appends to the sketch and
returns the index of the last element (count - 1). -/
def SketchObject.addGeometry (s : SketchObject) (geoList : List Part.Geometry) :
    SketchObject × Int :=
  ({ s with Geometry := s.Geometry ++ geoList },
   ((s.Geometry ++ geoList).length : Int) - 1)

/-- Modelled from the spec: `SketchObject::addConstraints` lives in
`Mod/Sketcher/App/SketchObject.cpp`; it appends to the constraint list and
returns count - 1. -/
def SketchObject.addConstraints (s : SketchObject) (cs : List Constraint) :
    SketchObject × Int :=
  ({ s with Constraints := s.Constraints ++ cs },
   ((s.Constraints ++ cs).length : Int) - 1)

/-- Modelled from the spec: `SketchObject::addCopyOfConstraints` lives in
`Mod/Sketcher/App/SketchObject.cpp`; it appends copies of the constraints of
`orig` and returns the index of the last element (count - 1). -/
def SketchObject.addCopyOfConstraints (s : SketchObject) (orig : SketchObject) :
    SketchObject × Int :=
  ({ s with Constraints := s.Constraints ++ orig.Constraints },
   ((s.Constraints ++ orig.Constraints).length : Int) - 1)

/-- The sketch `addObject('Sketcher::SketchObject', name)` puts in the document
and `new Sketcher::SketchObject()` builds: no geometry, no constraints, the
identity placement. -/
def SketchObject.new : SketchObject :=
  { Geometry := [], Constraints := [], Placement := Base.Placement.identity }

end Sketcher

namespace Base

/-- The part of the class hierarchy behind `getClassTypeId()` the handlers
filter on: `SketchObject` derives from `Part2DObject`, that from
`Part::Feature`, that from `App::DocumentObject`. -/
inductive TypeId where
  | SketchObject
  | Part2DObject
  | Feature
  | DocumentObject
  deriving DecidableEq, Repr

/-- Modelled from the spec: `Base::Type::isDerivedFrom` is not in this file;
a type is derived from itself and from every class above it. -/
def TypeId.isDerivedFrom : TypeId → TypeId → Bool
  | _, .DocumentObject => true
  | .SketchObject, .Feature => true
  | .Part2DObject, .Feature => true
  | .Feature, .Feature => true
  | .SketchObject, .Part2DObject => true
  | .Part2DObject, .Part2DObject => true
  | .SketchObject, .SketchObject => true
  | _, _ => false

end Base

namespace Attacher

/-- An `Attacher::eMapMode`, as the integer value of the enumerator. -/
abbrev eMapMode := Nat

/-- The members of `Attacher::SuggestResult::eSuggestResult` the switch of
`SuggestAutoMapMode` names. -/
inductive eSuggestResult where
  | srOK
  | srLinkBroken
  | srUnexpectedError
  | srNoModesFit
  | srIncompatibleGeometry
  deriving DecidableEq, Repr

/-- What `AttachEngine3D::suggestMapModes` leaves in its argument. -/
structure SuggestResult where
  message : eSuggestResult
  allApplicableModes : List eMapMode
  bestFitMode : eMapMode
  deriving DecidableEq, Repr

end Attacher

namespace App

/-- An `App::DocumentObject*`.  `id` is the address; the other fields are the
properties and queries the handlers use (`sketch` is what a
`static_cast<Sketcher::SketchObject*>` reaches). -/
structure DocumentObject where
  id : Nat
  typeId : Base.TypeId
  NameInDocument : String
  Label : String
  OutListRecursive : List Nat
  Group : Option String
  MapMode : Attacher.eMapMode
  Support : Bool
  sketch : Sketcher.SketchObject
  deriving DecidableEq, Repr

/-- An `App::Document`: its objects, in document order. -/
structure Document where
  objects : List DocumentObject
  deriving DecidableEq, Repr

/-- Modelled from the spec: `Document::getObjectsOfType` is not in this file;
it returns the objects whose type derives from the given one. -/
def Document.getObjectsOfType (doc : Document) (ty : Base.TypeId) : List DocumentObject :=
  doc.objects.filter (fun o => o.typeId.isDerivedFrom ty)

/-- The three queries made on the `App::PropertyLinkSubList` that
`getAsPropertyLinkSubList` fills from the selection. -/
structure PropertyLinkSubList where
  getSubValues : List String
  getPyReprString : String
  getValue : Option DocumentObject
  deriving DecidableEq, Repr

end App

namespace Sketcher

inductive PointPos where
  | none
  | start
  | end_
  | mid
  deriving DecidableEq, Repr

end Sketcher

namespace Gui

/-- An entry of `getSelectionEx()`: `getObject()` may be null. -/
structure SelectionObject where
  FeatName : String
  getObject : Option App.DocumentObject
  deriving DecidableEq, Repr

/-- An entry of `getSelectionEx(nullptr, typeId)`: the object exists and is of
the requested type. -/
structure TypedSelectionObject where
  FeatName : String
  getObject : App.DocumentObject
  deriving DecidableEq, Repr

/-- Modelled from the spec: `SelectionSingleton::getSelectionEx(doc, typeId)`
is not in this file; it keeps the selected objects whose type derives from
`typeId`, in selection order. -/
def getSelectionExOfType (sel : List SelectionObject) (ty : Base.TypeId) :
    List TypedSelectionObject :=
  sel.filterMap (fun s =>
    match s.getObject with
    | some o =>
      if o.typeId.isDerivedFrom ty then some { FeatName := s.FeatName, getObject := o } else none
    | none => none)

/-- First argument of `doCommand`. -/
inductive DoCmd_Type where
  | Doc
  | Gui
  deriving DecidableEq, Repr

/-- The Python statements the handlers format, one constructor per format
string, with the values substituted for its `%s` and `%f`. -/
inductive Script where
  /-- Source: `App.activeDocument().addObject('Sketcher::SketchObject', '%s')` -/
  | addObject (FeatName : String)
  /-- Source: `App.activeDocument().%s.MapMode = "%s"`, or `MapMode = "%s"` on an object -/
  | MapMode (obj : String) (modeName : String)
  /-- Source: `App.activeDocument().%s.Support = %s`, or `Support = %s` on an object -/
  | Support (obj : String) (supportString : String)
  /-- Source: `Support = None` on an object -/
  | SupportNone (obj : String)
  /-- Source: `... .Placement = App.Placement(App.Vector(%f, %f, %f), App.Rotation(%f, %f, %f, %f))` -/
  | Placement (obj : String) (p : Base.Vector3d) (r : Base.Rotation)
  /-- Source: `App.activeDocument().ActiveObject.Placement = App.activeDocument().%s.Placement` -/
  | PlacementOf (src : String)
  /-- Source: `App.activeDocument().recompute()` and `App.ActiveDocument.recompute()` -/
  | recompute
  /-- Source: `Gui.activeDocument().setEdit('%s')` -/
  | setEdit (obj : String)
  /-- Source: `Gui.activeDocument().resetEdit()` -/
  | resetEdit
  /-- Source: `App.activeDocument().%s.addObject(App.activeDocument().%s)` -/
  | groupAddObject (grp : String) (FeatName : String)
  deriving DecidableEq, Repr

/-- A call a handler makes on its host. -/
inductive Event where
  /-- Source: `QMessageBox::warning(parent, title, text)` -/
  | warning (title : String) (text : String)
  /-- Source: `QMessageBox::question(parent, title, text, Yes|No)` -/
  | question (title : String) (text : String)
  /-- Source: `QInputDialog::getItem(parent, title, label, items, current, false, &ok, ...)` -/
  | getItem (title : String) (label : String) (items : List String) (current : Int)
  /-- Source: `SketchOrientationDialog::exec()` -/
  | execSketchOrientationDialog
  /-- Source: `SketchMirrorDialog::exec()` -/
  | execSketchMirrorDialog
  /-- Source: `Gui::Control().showDialog(new TaskSketcherValidation(Obj))` -/
  | showTaskSketcherValidation (Obj : Nat)
  /-- Source: `Support.setValue(nullptr)` on the sketch -/
  | SupportSetNull (Obj : Nat)
  | openCommand (name : String)
  | commitCommand
  | doCommand (type : DoCmd_Type) (script : Script)
  /-- Source: `Gui::cmdAppObjectArgs(obj, ...)` -/
  | cmdAppObjectArgs (script : Script)
  deriving DecidableEq, Repr

/-- What `QInputDialog::getItem` gives back: the text and `ok`. -/
structure ItemReply where
  text : String
  ok : Bool
  deriving DecidableEq, Repr

/-- Source: `QMessageBox::StandardButton`, the two offered by the question box. -/
inductive StandardButton where
  | Yes
  | No
  deriving DecidableEq, Repr

/-- Source: `QStringList::indexOf`: position of the first equal item, or -1. -/
def indexOf : List String → String → Int
  | [], _ => -1
  | x :: rest, text =>
    if x = text then 0
    else
      let k := indexOf rest text
      if k = -1 then -1 else k + 1

end Gui

namespace SketcherGui

/-- State of a `SketchOrientationDialog` after `exec()`. -/
structure SketchOrientationDialog where
  accepted : Bool
  Pos : Base.Placement
  DirType : Int
  deriving DecidableEq, Repr

/-- State of a `SketchMirrorDialog` after `exec()`. -/
structure SketchMirrorDialog where
  accepted : Bool
  RefGeoid : Int
  RefPosid : Sketcher.PointPos
  deriving DecidableEq, Repr

/-- Exceptions thrown in this file. -/
inductive Exception where
  | ExceptionWrongInput (ErrMsg : String)
  | ValueError (msg : String)
  deriving DecidableEq, Repr

/-- How a handler ends. -/
inductive Outcome where
  /-- it returned -/
  | returned
  /-- an exception left it -/
  | threw (e : Exception)
  /-- an `assert` failed (builds without `NDEBUG`) -/
  | aborted
  /-- it read outside a vector or through a null pointer -/
  | undefined
  deriving DecidableEq, Repr

/-- A run of a handler: the calls it made, in order, and how it ended.
`created` holds, for the handlers that fill sketches through the
`SketchObject` interface, the new sketches by name. -/
structure Run where
  trace : List Gui.Event
  outcome : Outcome
  created : List (String × Sketcher.SketchObject) := []
  deriving DecidableEq, Repr

/-- Everything outside this file a handler consults. -/
structure Host where
  /-- whether the build defines `NDEBUG` (then `assert` does nothing) -/
  NDEBUG : Bool
  /-- Source: `Sketcher::GeoEnum` -/
  geoEnum : Sketcher.GeoEnum
  /-- Source: `Attacher::mmDeactivated` -/
  mmDeactivated : Attacher.eMapMode
  /-- Source: `Attacher::mmDummy_NumberOfModes` -/
  mmDummy_NumberOfModes : Attacher.eMapMode
  /-- Source: `AttachEngine::getModeName` -/
  getModeName : Attacher.eMapMode → String
  /-- Source: `Gui::Selection().getSelectionEx()` -/
  selection : List Gui.SelectionObject
  /-- what `Gui::Selection().getAsPropertyLinkSubList` fills in -/
  support : App.PropertyLinkSubList
  /-- what `AttachEngine3D::suggestMapModes` answers for that support -/
  sugr : Attacher.SuggestResult
  /-- Source: `App::GetApplication().getActiveDocument()` -/
  activeDocument : Option App.Document
  /-- Source: `getUniqueObjectName(base)` once the command has added `n` objects -/
  getUniqueObjectName : String → Nat → String
  /-- Source: `QInputDialog::getItem`, by title, label, items and current index -/
  getItem : String → String → List String → Int → Gui.ItemReply
  /-- answer to the question box of `CmdSketcherReorientSketch` -/
  question : Gui.StandardButton
  orientationDialog : SketchOrientationDialog
  mirrorDialog : SketchMirrorDialog
  /-- Source: `SketchObject::addSymmetric(geoIdList, refgeoid, refposid)` on a sketch:
  the geometry and the constraints it appends -/
  addSymmetric : Sketcher.SketchObject → List Int → Int → Sketcher.PointPos →
    List Part.Geometry × List Sketcher.Constraint

/-- Source: `Gui::Selection().hasSelection()`. -/
def Host.hasSelection (h : Host) : Bool :=
  !h.selection.isEmpty

/-- Source: `getSelection().getSelectionEx(nullptr, Sketcher::SketchObject::getClassTypeId())`. -/
def Host.sketchSelection (h : Host) : List Gui.TypedSelectionObject :=
  Gui.getSelectionExOfType h.selection Base.TypeId.SketchObject

end SketcherGui

namespace SketcherGui

open Sketcher

/-! ## Index shifting of `CmdSketcherMergeSketches::activated` (lines 881-912) -/

/-- The value a 32-bit `int` holds for the mathematical result `x` of an
addition: `x` itself inside `[-2^31, 2^31)`, and `x` reduced modulo `2^32` into
that range outside it. -/
def toInt32 (x : Int) : Int :=
  (x + 2147483648) % 4294967296 - 2147483648

/-- One of the three `if (... != GeoUndef && ... != HAxis && ... != VAxis)
... += baseGeometry;` statements, on one reference; the sum is an `int`. -/
def mergeShiftRef (ge : GeoEnum) (baseGeometry : Int) (r : Int) : Int :=
  if r ≠ ge.GeoUndef ∧ r ≠ ge.HAxis ∧ r ≠ ge.VAxis then toInt32 (r + baseGeometry) else r

/-- The body of the inner loop, on the constraint it reads. -/
def mergeShiftConstraint (ge : GeoEnum) (baseGeometry : Int) (c : Constraint) : Constraint :=
  { c with
    First := mergeShiftRef ge baseGeometry c.First
    Second := mergeShiftRef ge baseGeometry c.Second
    Third := mergeShiftRef ge baseGeometry c.Third }

/-- Result of the inner loop: the constraint vector after the loop and the
indices `i + baseConstraints` it read, in order. -/
structure LoopResult where
  Constraints : List Constraint
  reads : List Int
  deriving DecidableEq, Repr

/-- The loop `for (int i=0; i<=(addedConstraints-baseConstraints); i++)`:
`todo` counts the iterations left, `i` is the loop variable.  Reading
`getValues()[i+baseConstraints]` outside the vector gives `none`. -/
def mergeInnerLoop (ge : GeoEnum) (baseGeometry baseConstraints : Int) :
    Nat → Int → List Constraint → List Int → Option LoopResult
  | 0, _, cs, reads => some { Constraints := cs, reads := reads }
  | todo + 1, i, cs, reads =>
    let idx := i + baseConstraints
    if 0 ≤ idx ∧ idx < cs.length then
      match cs.get? idx.toNat with
      | none => none
      | some constraint =>
        mergeInnerLoop ge baseGeometry baseConstraints todo (i + 1)
          (cs.set idx.toNat (mergeShiftConstraint ge baseGeometry constraint))
          (reads ++ [idx])
    else none

/-- The variables that live across iterations of the loop over the selection. -/
structure MergeState where
  mergesketch : SketchObject
  baseGeometry : Int
  baseConstraints : Int
  reads : List Int
  deriving DecidableEq, Repr

/-- One iteration of the loop over the selection (lines 885-911). -/
def mergeStep (ge : GeoEnum) (st : MergeState) (Obj : SketchObject) : Option MergeState :=
  let r1 := st.mergesketch.addGeometry Obj.getInternalGeometry
  let addedGeometries := r1.2
  let r2 := r1.1.addCopyOfConstraints Obj
  let addedConstraints := r2.2
  match mergeInnerLoop ge st.baseGeometry st.baseConstraints
      (addedConstraints - st.baseConstraints + 1).toNat 0 r2.1.Constraints [] with
  | none => none
  | some res =>
    some { mergesketch := { r2.1 with Constraints := res.Constraints }
           baseGeometry := addedGeometries + 1
           baseConstraints := addedConstraints + 1
           reads := st.reads ++ res.reads }

/-- The loop over the selection, from a given state. -/
def mergeLoop (ge : GeoEnum) : MergeState → List SketchObject → Option MergeState
  | st, [] => some st
  | st, Obj :: rest =>
    match mergeStep ge st Obj with
    | none => none
    | some st1 => mergeLoop ge st1 rest

/-- Lines 879-912: the new sketch, `baseGeometry = 0`, `baseConstraints = 0`,
then the loop. -/
def mergeSketches (ge : GeoEnum) (sel : List SketchObject) : Option MergeState :=
  mergeLoop ge
    { mergesketch := SketchObject.new, baseGeometry := 0, baseConstraints := 0, reads := [] }
    sel

/-- The merged constraint list in the words of the claim: the constraints of
the sources in selection order, those of a source shifted by the number of
geometries of the sources before it (`off`). -/
def mergedConstraintsSpec (ge : GeoEnum) : Int → List SketchObject → List Constraint
  | _, [] => []
  | off, S :: rest =>
    S.Constraints.map (mergeShiftConstraint ge off)
      ++ mergedConstraintsSpec ge (off + S.Geometry.length) rest

/-- Number of geometries of the sources before the `k`-th: `n_0 + ... + n_{k-1}`. -/
def geometryBefore : List SketchObject → Nat → Int
  | [], _ => 0
  | _ :: _, 0 => 0
  | S :: rest, k + 1 => (S.Geometry.length : Int) + geometryBefore rest k

/-- Number of constraints of the sources before the `k`-th. -/
def constraintsBefore : List SketchObject → Nat → Nat
  | [], _ => 0
  | _ :: _, 0 => 0
  | S :: rest, k + 1 => S.Constraints.length + constraintsBefore rest k

/-- What holds of the loop variables between two iterations of the loop over
the selection. -/
def MergeInv (st : MergeState) : Prop :=
  st.baseGeometry = (st.mergesketch.Geometry.length : Int)
    ∧ st.baseConstraints = (st.mergesketch.Constraints.length : Int)
    ∧ st.reads = (List.range st.mergesketch.Constraints.length).map Int.ofNat

/-! ## `SuggestAutoMapMode` (lines 87-134) -/

/-- What `SuggestAutoMapMode` returns and writes through its pointers. -/
structure SuggestOut where
  bestFitMode : Attacher.eMapMode
  msg : Attacher.eSuggestResult
  msg_str : String
  allmodes : List Attacher.eMapMode
  deriving DecidableEq, Repr

/-- Source: `str.substr(0,4)`. -/
def substr04 (s : String) : String :=
  String.mk (s.data.take 4)

/-- Source: `SuggestAutoMapMode(&msgid, &msg_str, &validModes)` with `msg_str` empty
on entry, as at both call sites.  `getSubValues()[0]` on an empty vector gives
`none`. -/
def SuggestAutoMapMode (h : Host) : Option SuggestOut :=
  let tmpSupport := h.support
  let sugr := h.sugr
  let out (msg_str : String) : SuggestOut :=
    { bestFitMode := sugr.bestFitMode, msg := sugr.message, msg_str := msg_str,
      allmodes := sugr.allApplicableModes }
  match sugr.message with
  | .srOK => some (out "")
  | .srNoModesFit =>
    some (out "There are no modes that accept the selected set of subelements")
  | .srLinkBroken => some (out "Broken link to support subelements")
  | .srUnexpectedError => some (out "Unexpected error")
  | .srIncompatibleGeometry =>
    match tmpSupport.getSubValues with
    | [] => none
    | sub0 :: _ =>
      if substr04 sub0 = "Face" then some (out "Face is non-planar")
      else some (out
        "Selected shapes are of wrong form (e.g., a curved edge where a straight one is needed)")

/-- Source: `validModes[k]` for an `int` index. -/
def modeAt (validModes : List Attacher.eMapMode) (k : Int) : Option Attacher.eMapMode :=
  if 0 ≤ k then validModes.get? k.toNat else none

/-! ## `CmdSketcherNewSketch::activated` (lines 153-253) -/

/-- The loop of lines 177-181 from a given `items` and `iSugg`. -/
def newSketchItems (getModeName : Attacher.eMapMode → String) (mapmode : Attacher.eMapMode) :
    List Attacher.eMapMode → List String × Int → List String × Int
  | [], st => st
  | m :: rest, (items, iSugg) =>
    let items1 := items ++ [getModeName m]
    let iSugg1 := if m = mapmode then (items1.length : Int) - 1 else iSugg
    newSketchItems getModeName mapmode rest (items1, iSugg1)

/-- Lines 211-229, the attached path, when `mapmode` is in range or `assert`
does nothing: transaction, new sketch, `MapMode` (when in range), `Support`,
recompute, edit, and the group of the support object when it has one. -/
def attachedPath (h : Host) (mapmode : Attacher.eMapMode) : List Gui.Event :=
  let supportString := h.support.getPyReprString
  let FeatName := h.getUniqueObjectName "Sketch" 0
  [Gui.Event.openCommand "Create a new sketch on a face",
    Gui.Event.doCommand .Doc (.addObject FeatName)]
    ++ (if mapmode < h.mmDummy_NumberOfModes then
          [Gui.Event.doCommand .Gui (.MapMode FeatName (h.getModeName mapmode))]
        else [])
    ++ [Gui.Event.doCommand .Gui (.Support FeatName supportString),
        Gui.Event.doCommand .Gui .recompute,
        Gui.Event.doCommand .Gui (.setEdit FeatName)]
    ++ (match h.support.getValue with
        | some part =>
          match part.Group with
          | some grp => [Gui.Event.doCommand .Doc (.groupAddObject grp FeatName)]
          | none => []
        | none => [])

/-- Lines 233-250, the orientation path once the dialog is accepted. -/
def orientationPath (h : Host) : List Gui.Event :=
  let Dlg := h.orientationDialog
  let p := Dlg.Pos.getPosition
  let r := Dlg.Pos.getRotation
  let FeatName := h.getUniqueObjectName "Sketch" 0
  [Gui.Event.execSketchOrientationDialog,
    Gui.Event.openCommand "Create a new sketch",
    Gui.Event.doCommand .Doc (.addObject FeatName),
    Gui.Event.doCommand .Doc (.Placement FeatName p r),
    Gui.Event.doCommand .Doc (.MapMode FeatName (h.getModeName h.mmDeactivated)),
    Gui.Event.doCommand .Gui (.setEdit FeatName)]

/-- Lines 199-251: what follows once `bAttach` and `mapmode` are settled;
`pre` are the calls made before.  With `mapmode` out of range the `assert(0)`
of line 216 ends the run unless `NDEBUG` is defined. -/
def newSketchCreate (h : Host) (pre : List Gui.Event) (bAttach : Bool)
    (mapmode : Attacher.eMapMode) : Run :=
  if bAttach then
    if mapmode < h.mmDummy_NumberOfModes ∨ h.NDEBUG then
      { trace := pre ++ attachedPath h mapmode, outcome := .returned }
    else
      { trace := pre ++ [Gui.Event.openCommand "Create a new sketch on a face",
          Gui.Event.doCommand .Doc (.addObject (h.getUniqueObjectName "Sketch" 0))],
        outcome := .aborted }
  else
    if h.orientationDialog.accepted = false then
      { trace := pre ++ [Gui.Event.execSketchOrientationDialog], outcome := .returned }
    else { trace := pre ++ orientationPath h, outcome := .returned }

/-- The items and the preselected index of the attachment dialog of
`CmdSketcherNewSketch` (lines 172-181), for the suggested mode and the modes
the engine gave. -/
def newSketchDialog (h : Host) (mapmode : Attacher.eMapMode)
    (allmodes : List Attacher.eMapMode) : List String × Int :=
  newSketchItems h.getModeName mapmode (h.mmDeactivated :: allmodes) (["Don't attach"], 0)

/-- The attachment dialog of `CmdSketcherNewSketch` as a call. -/
def newSketchDialogEvent (h : Host) (mapmode : Attacher.eMapMode)
    (allmodes : List Attacher.eMapMode) : Gui.Event :=
  Gui.Event.getItem "Sketch attachment"
    "Select the method to attach this sketch to selected object"
    (newSketchDialog h mapmode allmodes).1 (newSketchDialog h mapmode allmodes).2

/-- What the attachment dialog of `CmdSketcherNewSketch` gives back. -/
def newSketchReply (h : Host) (mapmode : Attacher.eMapMode)
    (allmodes : List Attacher.eMapMode) : Gui.ItemReply :=
  h.getItem "Sketch attachment" "Select the method to attach this sketch to selected object"
    (newSketchDialog h mapmode allmodes).1 (newSketchDialog h mapmode allmodes).2

def CmdSketcherNewSketch.activated (h : Host) : Run :=
  if h.hasSelection then
    match SuggestAutoMapMode h with
    | none => { trace := [], outcome := .undefined }
    | some so =>
      let bAttach : Bool := so.msg = .srOK
      if so.msg ≠ .srOK ∧ so.msg ≠ .srNoModesFit then
        { trace := [Gui.Event.warning "Sketch mapping"
            ("Can't map the sketch to selected object. " ++ so.msg_str ++ ".")],
          outcome := .returned }
      else if so.allmodes.length > 1 then
        let validModes := h.mmDeactivated :: so.allmodes
        let items := (newSketchDialog h so.bestFitMode so.allmodes).1
        let reply := newSketchReply h so.bestFitMode so.allmodes
        let ev := newSketchDialogEvent h so.bestFitMode so.allmodes
        if reply.ok = false then { trace := [ev], outcome := .returned }
        else
          let index := Gui.indexOf items reply.text
          if index = 0 then newSketchCreate h [ev] false h.mmDeactivated
          else
            match modeAt validModes (index - 1) with
            | none => { trace := [ev], outcome := .undefined }
            | some mapmode => newSketchCreate h [ev] true mapmode
      else newSketchCreate h [] bAttach so.bestFitMode
  else newSketchCreate h [] false h.mmDeactivated

/-- The index `items.indexOf(text)` of the item picked in the attachment
dialog of `CmdSketcherNewSketch`. -/
def newSketchPicked (h : Host) : Int :=
  Gui.indexOf (newSketchDialog h h.sugr.bestFitMode h.sugr.allApplicableModes).1
    (newSketchReply h h.sugr.bestFitMode h.sugr.allApplicableModes).text

/-- The condition of the claim for the attached path: something is selected
and either the engine reported at most one applicable mode and `srOK`, or it
reported more than one and the item picked is not item 0. -/
def attachCondition (h : Host) : Prop :=
  h.hasSelection = true
    ∧ ((h.sugr.allApplicableModes.length ≤ 1 ∧ h.sugr.message = .srOK)
        ∨ (1 < h.sugr.allApplicableModes.length ∧ newSketchPicked h ≠ 0))

/-! ## `CmdSketcherReorientSketch::activated` (lines 380-485) -/

/-- Lines 395-484, after the support question; `pre` are the calls made
before. -/
def reorientPlace (h : Host) (pre : List Gui.Event) (sketch : App.DocumentObject) : Run :=
  let Dlg := h.orientationDialog
  if Dlg.accepted = false then
    { trace := pre ++ [Gui.Event.execSketchOrientationDialog], outcome := .returned }
  else
    let p := Dlg.Pos.getPosition
    let r := Dlg.Pos.getRotation
    { trace := pre ++ [Gui.Event.execSketchOrientationDialog,
        Gui.Event.openCommand "Reorient sketch",
        Gui.Event.cmdAppObjectArgs (.Placement sketch.NameInDocument p r),
        Gui.Event.doCommand .Gui (.setEdit sketch.NameInDocument)],
      outcome := .returned }

def CmdSketcherReorientSketch.activated (h : Host) : Run :=
  match h.sketchSelection with
  | [] => { trace := [], outcome := .undefined }
  | front :: _ =>
    let sketch := front.getObject
    if sketch.Support then
      let q := Gui.Event.question "Sketch has support"
        "Sketch with a support face cannot be reoriented.\nDo you want to detach it from the support?"
      if h.question = .No then { trace := [q], outcome := .returned }
      else reorientPlace h [q, Gui.Event.SupportSetNull sketch.id] sketch
    else reorientPlace h [] sketch

/-! ## `CmdSketcherValidateSketch::activated` (lines 716-729) -/

def CmdSketcherValidateSketch.activated (h : Host) : Run :=
  let selection := h.sketchSelection
  if selection.length ≠ 1 then
    { trace := [Gui.Event.warning "Wrong selection" "Select only one sketch."],
      outcome := .returned }
  else
    match selection with
    | [] => { trace := [], outcome := .undefined }
    | s0 :: _ =>
      { trace := [Gui.Event.showTaskSketcherValidation s0.getObject.id], outcome := .returned }

/-! ## `CmdSketcherMapSketch::activated` (lines 508-654) -/

/-- Source: `items.back().append(s)`. -/
def appendBack : List String → String → List String
  | [], _ => []
  | [x], s => [x ++ s]
  | x :: y :: rest, s => x :: appendBack (y :: rest) s

/-- The variables the loop of lines 584-601 updates. -/
structure MapItems where
  items : List String
  iSugg : Int
  iCurr : Int
  deriving DecidableEq, Repr

/-- The loop of lines 584-601 from a given state. -/
def mapSketchItems (getModeName : Attacher.eMapMode → String)
    (curMapMode suggMapMode : Attacher.eMapMode) (bCurIncompatible : Bool) :
    List Attacher.eMapMode → MapItems → MapItems
  | [], st => st
  | m :: rest, st =>
    let items1 := st.items ++ [getModeName m]
    let st1 : MapItems :=
      if m = curMapMode then
        { items := appendBack items1
            (if bCurIncompatible then " (incompatible with selection)" else " (current)")
          iSugg := st.iSugg
          iCurr := (items1.length : Int) - 1 }
      else { items := items1, iSugg := st.iSugg, iCurr := st.iCurr }
    let st2 : MapItems :=
      if m = suggMapMode then
        if (st1.items.length : Int) - 1 = 1 then
          { items := st1.items, iSugg := 0, iCurr := st1.iCurr }
        else
          { items := appendBack st1.items " (suggested)"
            iSugg := (st1.items.length : Int) - 1
            iCurr := st1.iCurr }
      else st1
    mapSketchItems getModeName curMapMode suggMapMode bCurIncompatible rest st2

/-- Source: `sketches[index]` for an `int` index. -/
def objectAt (sketches : List App.DocumentObject) (index : Int) : Option App.DocumentObject :=
  if 0 ≤ index then sketches.get? index.toNat else none

/-- The message of the exception of line 552. -/
def circularMsg : String :=
  "Some of the selected objects depend on the sketch to be mapped. Circular dependencies are not allowed."

/-- The loop of lines 544-555: `none` when it runs to its end, otherwise how
it is left. -/
def checkCircular (NDEBUG : Bool) (sketch : App.DocumentObject) :
    List Gui.SelectionObject → Option Outcome
  | [] => none
  | s :: rest =>
    match s.getObject with
    | none =>
      if NDEBUG then
        some (.threw (.ValueError "Unexpected null pointer in CmdSketcherMapSketch::activated"))
      else some .aborted
    | some part =>
      if sketch.id ∈ part.OutListRecursive then
        some (.threw (.ExceptionWrongInput circularMsg))
      else checkCircular NDEBUG sketch rest

/-- Source: `bCurIncompatible` of lines 567-572. -/
def curIncompatible (so : SuggestOut) (sketch : App.DocumentObject) : Bool :=
  if sketch.MapMode ∈ so.allmodes then false else true

/-- Source: `validModes` after lines 575-577. -/
def mapSketchModes (h : Host) (so : SuggestOut) (sketch : App.DocumentObject) :
    List Attacher.eMapMode :=
  (h.mmDeactivated :: so.allmodes)
    ++ (if curIncompatible so sketch then [sketch.MapMode] else [])

/-- The state after the loop of lines 580-601. -/
def mapSketchDialog (h : Host) (so : SuggestOut) (sketch : App.DocumentObject) : MapItems :=
  mapSketchItems h.getModeName sketch.MapMode so.bestFitMode (curIncompatible so sketch)
    (mapSketchModes h so sketch) { items := ["Don't attach"], iSugg := 0, iCurr := 0 }

/-- The prompt of the attachment dialog (lines 605-611). -/
def attachmentLabel (bCurIncompatible : Bool) : String :=
  if bCurIncompatible then
    "Current attachment mode is incompatible with the new selection.\nSelect the method to attach this sketch to selected objects."
  else "Select the method to attach this sketch to selected objects."

/-- The preselected index of the attachment dialog (line 613). -/
def attachmentCurrent (bCurIncompatible : Bool) (st : MapItems) : Int :=
  if bCurIncompatible then st.iSugg else st.iCurr

/-- Lines 557-646: the attachment dialog and the action, for the chosen
sketch; `pre` are the calls made before. -/
def mapSketchAttach (h : Host) (so : SuggestOut) (pre : List Gui.Event)
    (sketch : App.DocumentObject) : Run :=
  let bCurIncompatible := curIncompatible so sketch
  let validModes := mapSketchModes h so sketch
  let st := mapSketchDialog h so sketch
  let label := attachmentLabel bCurIncompatible
  let current := attachmentCurrent bCurIncompatible st
  let ev := Gui.Event.getItem "Sketch attachment" label st.items current
  let reply := h.getItem "Sketch attachment" label st.items current
  if reply.ok = false then { trace := pre ++ [ev], outcome := .returned }
  else
    let index := Gui.indexOf st.items reply.text
    if index = 0 then
      { trace := pre ++ [ev, Gui.Event.openCommand "Detach sketch",
          Gui.Event.cmdAppObjectArgs
            (.MapMode sketch.NameInDocument (h.getModeName h.mmDeactivated)),
          Gui.Event.cmdAppObjectArgs (.SupportNone sketch.NameInDocument),
          Gui.Event.commitCommand,
          Gui.Event.doCommand .Gui .recompute],
        outcome := .returned }
    else
      match modeAt validModes (index - 1) with
      | none => { trace := pre ++ [ev], outcome := .undefined }
      | some suggMapMode =>
        let supportString := h.support.getPyReprString
        { trace := pre ++ [ev, Gui.Event.openCommand "Attach sketch",
            Gui.Event.cmdAppObjectArgs
              (.MapMode sketch.NameInDocument (h.getModeName suggMapMode)),
            Gui.Event.cmdAppObjectArgs (.Support sketch.NameInDocument supportString),
            Gui.Event.commitCommand,
            Gui.Event.doCommand .Gui .recompute],
          outcome := .returned }

/-- The `try` block of lines 512-646 after the call of `SuggestAutoMapMode`. -/
def mapSketchTry (h : Host) (so : SuggestOut) : Run :=
  match h.activeDocument with
  | none => { trace := [], outcome := .undefined }
  | some doc =>
    let sketches := doc.getObjectsOfType Base.TypeId.Part2DObject
    if sketches.isEmpty then
      { trace := [Gui.Event.warning "No sketch found" "The document doesn't have a sketch"],
        outcome := .returned }
    else
      let items := sketches.map (fun o => o.Label)
      let ev := Gui.Event.getItem "Select sketch" "Select a sketch from the list" items 0
      let reply := h.getItem "Select sketch" "Select a sketch from the list" items 0
      if reply.ok = false then { trace := [ev], outcome := .returned }
      else
        let index := Gui.indexOf items reply.text
        match objectAt sketches index with
        | none => { trace := [ev], outcome := .undefined }
        | some sketch =>
          match checkCircular h.NDEBUG sketch h.selection with
          | some out => { trace := [ev], outcome := out }
          | none => mapSketchAttach h so [ev] sketch

/-- The handler `catch (ExceptionWrongInput &e)` of lines 647-653. -/
def catchWrongInput (msg_str : String) (r : Run) : Run :=
  match r.outcome with
  | .threw (.ExceptionWrongInput ErrMsg) =>
    { trace := r.trace ++ [Gui.Event.warning "Map sketch"
        ("Can't map a sketch to support:\n" ++ (if ErrMsg.length ≠ 0 then ErrMsg else msg_str))],
      outcome := .returned }
  | _ => r

def CmdSketcherMapSketch.activated (h : Host) : Run :=
  match SuggestAutoMapMode h with
  | none => { trace := [], outcome := .undefined }
  | some so => catchWrongInput so.msg_str (mapSketchTry h so)

/-! ## `CmdSketcherMirrorSketch::activated` (lines 755-838) -/

/-- One of the three `if (... != GeoUndef || ... == HAxis || ... == VAxis)
... -= (addedGeometries + 1);` statements, on one reference. -/
def mirrorShiftRef (ge : GeoEnum) (addedGeometries : Int) (r : Int) : Int :=
  if r ≠ ge.GeoUndef ∨ r = ge.HAxis ∨ r = ge.VAxis then r - (addedGeometries + 1) else r

/-- The body of the loop of lines 813-830, on one constraint. -/
def mirrorShiftConstraint (ge : GeoEnum) (addedGeometries : Int) (c : Constraint) :
    Constraint :=
  { c with
    First := mirrorShiftRef ge addedGeometries c.First
    Second := mirrorShiftRef ge addedGeometries c.Second
    Third := mirrorShiftRef ge addedGeometries c.Third }

/-- The vector `std::vector<T>(v.begin() + off, v.end())`; `none` when the
iterator `v.begin() + off` is outside `[begin, end]`. -/
def sliceFrom {α : Type} (v : List α) (off : Int) : Option (List α) :=
  if 0 ≤ off ∧ off ≤ (v.length : Int) then some (v.drop off.toNat) else none

/-- The vectors of one iteration of the loop over the selection. -/
structure MirrorResult where
  addedGeometries : Int
  addedConstraints : Int
  tempgeo : List Part.Geometry
  tempconstr : List Constraint
  mirrorgeo : List Part.Geometry
  mirrorconstr : List Constraint
  mirrorsketch : SketchObject
  deriving DecidableEq, Repr

/-- Lines 795-833 for one selected sketch `Obj`: `mirrorconstr` is the vector
after the loop of lines 813-830. -/
def mirrorOne (h : Host) (Obj : SketchObject) (refgeoid : Int) (refposid : PointPos) :
    Option MirrorResult :=
  let tempsketch := SketchObject.new
  let r1 := tempsketch.addGeometry Obj.getInternalGeometry
  let addedGeometries := r1.2
  let r2 := r1.1.addConstraints Obj.Constraints
  let addedConstraints := r2.2
  let geoIdList := (List.range (addedGeometries + 1).toNat).map Int.ofNat
  let sym := h.addSymmetric r2.1 geoIdList refgeoid refposid
  let tempgeo := r2.1.Geometry ++ sym.1
  let tempconstr := r2.1.Constraints ++ sym.2
  match sliceFrom tempgeo (addedGeometries + 1), sliceFrom tempconstr (addedConstraints + 1) with
  | some mirrorgeo, some mirrorconstr0 =>
    let mirrorconstr := mirrorconstr0.map (mirrorShiftConstraint h.geoEnum addedGeometries)
    let mirrorsketch := ((SketchObject.new.addGeometry mirrorgeo).1.addConstraints mirrorconstr).1
    some { addedGeometries := addedGeometries, addedConstraints := addedConstraints,
           tempgeo := tempgeo, tempconstr := tempconstr, mirrorgeo := mirrorgeo,
           mirrorconstr := mirrorconstr, mirrorsketch := mirrorsketch }
  | _, _ => none

/-- The loop of lines 779-835; `n` counts the objects added so far. -/
def mirrorLoop (h : Host) (refgeoid : Int) (refposid : PointPos) :
    Nat → List Gui.TypedSelectionObject → Run → Run
  | _, [], acc => acc
  | n, it :: rest, acc =>
    let FeatName := h.getUniqueObjectName "MirroredSketch" n
    let Obj := it.getObject.sketch
    let pl := Obj.Placement
    let p := pl.getPosition
    let r := pl.getRotation
    let trace1 := acc.trace ++ [Gui.Event.doCommand .Doc (.addObject FeatName),
      Gui.Event.doCommand .Doc (.Placement FeatName p r)]
    match mirrorOne h Obj refgeoid refposid with
    | none => { trace := trace1, outcome := .undefined, created := acc.created }
    | some res =>
      mirrorLoop h refgeoid refposid (n + 1) rest
        { trace := trace1, outcome := .returned,
          created := acc.created ++ [(FeatName, res.mirrorsketch)] }

def CmdSketcherMirrorSketch.activated (h : Host) : Run :=
  let selection := h.sketchSelection
  if selection.isEmpty then
    { trace := [Gui.Event.warning "Wrong selection" "Select one or more sketches."],
      outcome := .returned }
  else
    let smd := h.mirrorDialog
    if smd.accepted = false then
      { trace := [Gui.Event.execSketchMirrorDialog], outcome := .returned }
    else
      let refgeoid := smd.RefGeoid
      let refposid := smd.RefPosid
      let t0 := [Gui.Event.execSketchMirrorDialog,
        Gui.Event.openCommand "Create a mirrored sketch for each selected sketch"]
      match h.activeDocument with
      | none =>
        { trace := t0 ++ [Gui.Event.doCommand .Doc
            (.addObject (h.getUniqueObjectName "MirroredSketch" 0))],
          outcome := .undefined }
      | some _ =>
        let r := mirrorLoop h refgeoid refposid 0 selection { trace := t0, outcome := .returned }
        match r.outcome with
        | .returned =>
          { trace := r.trace ++ [Gui.Event.doCommand .Gui .recompute], outcome := .returned,
            created := r.created }
        | _ => r

/-- The commands of the loop over the selection in the words of the claim:
for each selected sketch, in order, an `addObject` for a new name and right
after it a `Placement` with the position and rotation of that sketch. -/
def mirrorCommands (h : Host) : Nat → List Gui.TypedSelectionObject → List Gui.Event
  | _, [] => []
  | n, it :: rest =>
    Gui.Event.doCommand .Doc (.addObject (h.getUniqueObjectName "MirroredSketch" n))
      :: Gui.Event.doCommand .Doc
          (.Placement (h.getUniqueObjectName "MirroredSketch" n)
            it.getObject.sketch.Placement.getPosition
            it.getObject.sketch.Placement.getRotation)
      :: mirrorCommands h (n + 1) rest

/-! ## `CmdSketcherMergeSketches::activated` (lines 860-919) -/

def CmdSketcherMergeSketches.activated (h : Host) : Run :=
  let selection := h.sketchSelection
  if selection.length < 2 then
    { trace := [Gui.Event.warning "Wrong selection" "Select at least two sketches."],
      outcome := .returned }
  else
    let FeatName := h.getUniqueObjectName "Sketch" 0
    let t0 := [Gui.Event.openCommand "Merge sketches",
      Gui.Event.doCommand .Doc (.addObject FeatName)]
    match h.activeDocument with
    | none => { trace := t0, outcome := .undefined }
    | some _ =>
      match mergeSketches h.geoEnum (selection.map (fun it => it.getObject.sketch)) with
      | none => { trace := t0, outcome := .undefined }
      | some st =>
        match selection with
        | [] => { trace := t0, outcome := .undefined }
        | front :: _ =>
          { trace := t0 ++ [Gui.Event.doCommand .Doc (.PlacementOf front.FeatName),
              Gui.Event.doCommand .Doc .recompute],
            outcome := .returned,
            created := [(FeatName, st.mergesketch)] }

/-! ## Reading a trace -/

/-- The script of a `doCommand` or `cmdAppObjectArgs` call. -/
def scriptOf : Gui.Event → Option Gui.Script
  | .doCommand _ s => some s
  | .cmdAppObjectArgs s => some s
  | _ => none

def isWarning : Gui.Event → Bool
  | .warning _ _ => true
  | _ => false

def isOpenCommand : Gui.Event → Bool
  | .openCommand _ => true
  | _ => false

/-- A modal dialog other than a warning box. -/
def isDialog : Gui.Event → Bool
  | .getItem _ _ _ _ => true
  | .execSketchOrientationDialog => true
  | .execSketchMirrorDialog => true
  | .question _ _ => true
  | _ => false

/-- Source: `addObject('Sketcher::SketchObject', name)` on the document. -/
def isAddObject (e : Gui.Event) : Bool :=
  match scriptOf e with
  | some (.addObject _) => true
  | _ => false

def isPlacement (e : Gui.Event) : Bool :=
  match scriptOf e with
  | some (.Placement _ _ _) => true
  | some (.PlacementOf _) => true
  | _ => false

def isMapMode (e : Gui.Event) : Bool :=
  match scriptOf e with
  | some (.MapMode _ _) => true
  | _ => false

/-- An assignment to `Support` (a support or `None`). -/
def isSupport (e : Gui.Event) : Bool :=
  match scriptOf e with
  | some (.Support _ _) => true
  | some (.SupportNone _) => true
  | _ => false

def isRecompute (e : Gui.Event) : Bool :=
  match scriptOf e with
  | some .recompute => true
  | _ => false

/-- Source: `App.activeDocument().<group>.addObject(...)` of line 226, the
`addObject` on the group of the support object. -/
def isGroupAddObject (e : Gui.Event) : Bool :=
  match scriptOf e with
  | some (.groupAddObject _ _) => true
  | _ => false

/-- The mutation commands: `addObject` (on the document or on a group), and
the assignments to `Placement`, `MapMode` and `Support`. -/
def isMutation (e : Gui.Event) : Bool :=
  isAddObject e || isGroupAddObject e || isPlacement e || isMapMode e || isSupport e

/-- Every mutation command of the trace has a recompute command later in the
trace, that is: a recompute follows the last mutation. -/
def recomputeFollows : List Gui.Event → Bool
  | [] => true
  | e :: rest => (!isMutation e || rest.any isRecompute) && recomputeFollows rest

/-! ## Concrete hosts -/

/-- Mode names for the concrete runs. -/
def demoModeName : Attacher.eMapMode → String
  | 0 => "Deactivated"
  | 1 => "Translate"
  | 2 => "ObjectXY"
  | 3 => "FlatFace"
  | _ => "Other"

/-- A sketch with `n` geometries tagged from `t` on, the given constraints. -/
def demoSketch (t n : Nat) (cs : List Constraint) : SketchObject :=
  { Geometry := (List.range n).map (fun i => { tag := t + i })
    Constraints := cs
    Placement :=
      { getPosition := { x := ⟨t⟩, y := ⟨t + 1⟩, z := ⟨t + 2⟩ }
        getRotation := { q0 := ⟨0⟩, q1 := ⟨0⟩, q2 := ⟨0⟩, q3 := ⟨0x3FF0000000000000⟩ } } }

/-- A document object of the given type around a sketch. -/
def demoObject (id : Nat) (ty : Base.TypeId) (name : String) (out : List Nat)
    (s : SketchObject) : App.DocumentObject :=
  { id := id, typeId := ty, NameInDocument := name, Label := name, OutListRecursive := out,
    Group := none, MapMode := 0, Support := false, sketch := s }

/-- The sketch `Sketch` of the concrete runs: two geometries, one constraint
between them. -/
def demoSketchA : App.DocumentObject :=
  demoObject 1 .SketchObject "Sketch" []
    (demoSketch 10 2 [{ First := 0, Second := 1, Third := -2000, rest := 7 }])

/-- The sketch `Sketch001` of the concrete runs: one geometry, constrained
to the horizontal axis. -/
def demoSketchB : App.DocumentObject :=
  demoObject 2 .SketchObject "Sketch001" []
    (demoSketch 20 1 [{ First := 0, Second := -1, Third := -2000, rest := 8 }])

/-- A solid `Pad` built on `Sketch` (its out-list holds the sketch). -/
def demoPad : App.DocumentObject :=
  demoObject 3 .Feature "Pad" [1] (demoSketch 0 0 [])

/-- A solid `Box` that depends on nothing. -/
def demoBox : App.DocumentObject :=
  demoObject 4 .Feature "Box" [] (demoSketch 0 0 [])

/-- A host with nothing selected, an empty document, an engine that answers
`srOK` with no mode, and dialogs that are cancelled.  `addSymmetric` appends
one geometry and one constraint between the horizontal axis and the new
geometry of index `|Geometry|`. -/
def demoHost : Host :=
  { NDEBUG := true
    geoEnum := GeoEnum.values
    mmDeactivated := 0
    mmDummy_NumberOfModes := 4
    getModeName := demoModeName
    selection := []
    support := { getSubValues := [], getPyReprString := "None", getValue := none }
    sugr := { message := .srOK, allApplicableModes := [], bestFitMode := 0 }
    activeDocument := some { objects := [] }
    getUniqueObjectName := fun base n => base ++ String.mk (List.replicate n 'I')
    getItem := fun _ _ _ _ => { text := "", ok := false }
    question := .No
    orientationDialog := { accepted := false, Pos := Base.Placement.identity, DirType := 0 }
    mirrorDialog := { accepted := false, RefGeoid := -1, RefPosid := .none }
    addSymmetric := fun s _ _ _ =>
      ([{ tag := 99 }],
       [{ First := -1, Second := s.Geometry.length, Third := -2000, rest := 9 }]) }

/-- Selection entry for an object. -/
def demoSel (o : App.DocumentObject) : Gui.SelectionObject :=
  { FeatName := o.NameInDocument, getObject := some o }

/-- The document of the concrete runs. -/
def demoDocument : App.Document :=
  { objects := [demoSketchA, demoSketchB, demoPad, demoBox] }

/-- The first dialog of `CmdSketcherMapSketch`, listing the labels of the
sketches of the document. -/
def selectSketchEvent (doc : App.Document) : Gui.Event :=
  Gui.Event.getItem "Select sketch" "Select a sketch from the list"
    ((doc.getObjectsOfType Base.TypeId.Part2DObject).map (fun o => o.Label)) 0

/-- The sketch the user chose in the first dialog of `CmdSketcherMapSketch`:
`sketches[items.indexOf(text)]`, when the dialog was accepted. -/
def chosenSketch (h : Host) (doc : App.Document) : Option App.DocumentObject :=
  let sketches := doc.getObjectsOfType Base.TypeId.Part2DObject
  let items := sketches.map (fun o => o.Label)
  let reply := h.getItem "Select sketch" "Select a sketch from the list" items 0
  if reply.ok = false then none else objectAt sketches (Gui.indexOf items reply.text)

/-- A host where `Pad` is selected after an entry whose object is null, the
document holds the sketches and the user picks `Sketch`. -/
def demoHostNullFirst : Host :=
  { demoHost with
    selection := [{ FeatName := "Gone", getObject := none }, demoSel demoPad]
    activeDocument := some demoDocument
    getItem := fun _ _ _ _ => { text := "Sketch", ok := true } }

/-- A host where `Box` and `Pad` are selected, the document holds the sketches
and the user picks `Sketch`. -/
def demoHostPad : Host :=
  { demoHost with
    selection := [demoSel demoBox, demoSel demoPad]
    activeDocument := some demoDocument
    getItem := fun _ _ _ _ => { text := "Sketch", ok := true } }

/-- A host where `Box` is selected, the engine offers modes 3 and 2 and
suggests 3, the document holds the sketches and the user picks `Sketch` in the
first dialog and `FlatFace` in the second. -/
def demoHostBox : Host :=
  { demoHost with
    selection := [demoSel demoBox]
    support := { getSubValues := ["Face1"], getPyReprString := "[(App.getDocument('D').getObject('Box'),['Face1'])]",
                 getValue := some demoBox }
    sugr := { message := .srOK, allApplicableModes := [3, 2], bestFitMode := 3 }
    activeDocument := some demoDocument
    getItem := fun title _ _ _ =>
      if title = "Select sketch" then { text := "Sketch", ok := true }
      else { text := "FlatFace (suggested)", ok := true } }

/-- A host where a face of `Box` is selected and the engine answers
`srIncompatibleGeometry`. -/
def demoHostFace : Host :=
  { demoHostBox with
    sugr := { message := .srIncompatibleGeometry, allApplicableModes := [], bestFitMode := 0 } }

/-- A host where a face of `Box` is selected and the engine answers `srOK`
with the single mode 3. -/
def demoHostOneMode : Host :=
  { demoHostBox with
    sugr := { message := .srOK, allApplicableModes := [3], bestFitMode := 3 } }

/-- A host where `Sketch`, `Box` and `Sketch001` are selected, in this order,
and the mirror dialog is accepted. -/
def demoHostTwoSketches : Host :=
  { demoHost with
    selection := [demoSel demoSketchA, demoSel demoBox, demoSel demoSketchB]
    activeDocument := some demoDocument
    mirrorDialog := { accepted := true, RefGeoid := -1, RefPosid := .none } }

/-- A host with nothing selected where the orientation dialog is accepted. -/
def demoHostOrient : Host :=
  { demoHost with
    orientationDialog := { accepted := true, Pos := Base.Placement.identity, DirType := 0 } }

/-- A host where `Sketch` is selected and the orientation dialog is accepted. -/
def demoHostReorient : Host :=
  { demoHostOrient with
    selection := [demoSel demoSketchA]
    activeDocument := some demoDocument }

/-- The solid `Box` as a member of the group `Group`. -/
def demoBoxGrouped : App.DocumentObject :=
  { demoBox with Group := some "Group" }

/-- A host where a face of `Box` is selected, `Box` belongs to the group
`Group`, and the engine answers `srOK` with the single mode 3. -/
def demoHostGrouped : Host :=
  { demoHostOneMode with
    selection := [demoSel demoBoxGrouped]
    support := { getSubValues := ["Face1"], getPyReprString := "[(App.getDocument('D').getObject('Box'),['Face1'])]",
                 getValue := some demoBoxGrouped } }

/-- The geometry and the constraints `addSymmetric` appends to the temporary
sketch in the iteration of `CmdSketcherMirrorSketch` for `Obj` (line 804): the
temporary sketch then holds the geometry and the constraints of `Obj`, and
`geoIdList` is `0 .. addedGeometries`. -/
def mirrorAppended (h : Host) (Obj : SketchObject) (refgeoid : Int) (refposid : PointPos) :
    List Part.Geometry × List Constraint :=
  h.addSymmetric
    { Geometry := Obj.Geometry, Constraints := Obj.Constraints,
      Placement := Base.Placement.identity }
    ((List.range Obj.Geometry.length).map Int.ofNat) refgeoid refposid

/-! ## `CmdSketcherGrid` (lines 1073-1180) -/

/-- The properties of a `SketcherGui::ViewProviderSketch` the grid command and
its menu touch. -/
structure ViewProviderSketch where
  ShowGrid : Bool
  GridSnap : Bool
  GridAuto : Bool
  GridSize : Base.Double
  deriving DecidableEq, Repr

/-- The two icons of `CmdSketcherGrid::updateIcon`, by theme name. -/
inductive GridIcon where
  | Sketcher_GridToggle
  | Sketcher_GridToggle_Deactivated
  deriving DecidableEq, Repr

/-- A `Gui::Document`: `getInEdit()` seen through
`dynamic_cast<SketcherGui::ViewProviderSketch*>` (`none` when nothing is in
edit or it is no sketch view). -/
structure GuiDocument where
  getInEdit : Option ViewProviderSketch
  deriving DecidableEq, Repr

/-- What `CmdSketcherGrid` reads and writes: the build flag, the active GUI
document and the icon of the action of the command. -/
structure GridGui where
  NDEBUG : Bool
  getActiveGuiDocument : Option GuiDocument
  icon : GridIcon
  deriving DecidableEq, Repr

/-- The sketch view in edit, when there is one. -/
def GridGui.sketchView (g : GridGui) : Option ViewProviderSketch :=
  match g.getActiveGuiDocument with
  | some doc => doc.getInEdit
  | none => none

def CmdSketcherGrid.updateIcon (value : Bool) (g : GridGui) : GridGui :=
  { g with icon := if value then .Sketcher_GridToggle else .Sketcher_GridToggle_Deactivated }

/-- With a failing `assert` the run is aborted; where `NDEBUG` removes the
`assert`, the null pointer is used. -/
def CmdSketcherGrid.activated (g : GridGui) : Outcome × GridGui :=
  match g.getActiveGuiDocument with
  | none => (if g.NDEBUG then .undefined else .aborted, g)
  | some doc =>
    match doc.getInEdit with
    | none => (if g.NDEBUG then .undefined else .aborted, g)
    | some sketchView =>
      let value := sketchView.ShowGrid
      let sketchView1 : ViewProviderSketch := { sketchView with ShowGrid := !value }
      let doc1 : GuiDocument := { doc with getInEdit := some sketchView1 }
      let g1 : GridGui := { g with getActiveGuiDocument := some doc1 }
      (.returned, CmdSketcherGrid.updateIcon (!value) g1)

/-- A state with a sketch in edit whose grid is hidden. -/
def demoGridGui : GridGui :=
  { NDEBUG := true
    getActiveGuiDocument := some ⟨some ⟨false, true, false, ⟨10⟩⟩⟩
    icon := .Sketcher_GridToggle_Deactivated }

/-! ## The items of the attachment dialog of `CmdSketcherMapSketch`, item by item -/

/-- The suffix of line 588-591 for the current mode. -/
def curSuffix (bCurIncompatible : Bool) : String :=
  if bCurIncompatible then " (incompatible with selection)" else " (current)"

/-- The text the loop of lines 584-601 leaves in the item it pushes at
position `pos` of `items` for the mode `m`: the name of the mode, then the
suffix of the current mode when `m` is the current mode, then ` (suggested)`
when `m` is the suggested mode and `pos` is not 1. -/
def mapItemText (getModeName : Attacher.eMapMode → String)
    (curMapMode suggMapMode : Attacher.eMapMode) (bCurIncompatible : Bool) (pos : Nat)
    (m : Attacher.eMapMode) : String :=
  let s1 := if m = curMapMode then getModeName m ++ curSuffix bCurIncompatible else getModeName m
  if m = suggMapMode ∧ pos ≠ 1 then s1 ++ " (suggested)" else s1

/-- The texts of the items pushed for a list of modes, the first at position
`pos`. -/
def mapItemTexts (getModeName : Attacher.eMapMode → String)
    (curMapMode suggMapMode : Attacher.eMapMode) (bCurIncompatible : Bool) :
    Nat → List Attacher.eMapMode → List String
  | _, [] => []
  | pos, m :: rest =>
    mapItemText getModeName curMapMode suggMapMode bCurIncompatible pos m
      :: mapItemTexts getModeName curMapMode suggMapMode bCurIncompatible (pos + 1) rest

/-- A host where a face of `Box` is selected, the engine offers modes 3 and 2
and suggests 3, and the user picks `FlatFace` in the attachment dialog of
`CmdSketcherNewSketch`. -/
def demoHostPickFlatFace : Host :=
  { demoHostBox with getItem := fun _ _ _ _ => { text := "FlatFace", ok := true } }

/-- A host where `Box` is selected, no mode fits (the engine answers
`srNoModesFit`, no applicable mode, best fit `mmDeactivated`), and the user
picks the unattached sketch `Sketch` in the first dialog of
`CmdSketcherMapSketch` and cancels the second. -/
def demoHostNoFit : Host :=
  { demoHostBox with
    sugr := { message := .srNoModesFit, allApplicableModes := [], bestFitMode := 0 }
    getItem := fun title _ _ _ =>
      if title = "Select sketch" then { text := "Sketch", ok := true }
      else { text := "", ok := false } }

/-- A host where `Sketch` is selected and every dialog is cancelled. -/
def demoHostSketchSelected : Host :=
  { demoHost with
    selection := [demoSel demoSketchA]
    activeDocument := some demoDocument }

end SketcherGui

namespace Gui

/-- Modelled from the spec: `SelectionSingleton::countObjectsOfType` is not in
this file; it is the number of selected objects of the given type, subtypes
included. -/
def countObjectsOfType (sel : List SelectionObject) (ty : Base.TypeId) : Nat :=
  (sel.filter (fun s =>
    match s.getObject with
    | some o => o.typeId.isDerivedFrom ty
    | none => false)).length

/-- Modelled from the spec: `Gui::SelectionFilter` is not in this file; the
filter `SELECT <type> COUNT 1` resolves the selection against the type and the
count 1: `match()` holds when exactly one object of the type is selected, and
`Result[0]` is then the selection of that type. -/
def selectionFilterCount1 (sel : List SelectionObject) (ty : Base.TypeId) :
    Option (List TypedSelectionObject) :=
  if (getSelectionExOfType sel ty).length = 1 then some (getSelectionExOfType sel ty) else none

end Gui

namespace App

/-- Modelled from the spec: `Document::countObjectsOfType` is not in this
file; it is the number of objects of the document of the given type, subtypes
included. -/
def Document.countObjectsOfType (doc : Document) (ty : Base.TypeId) : Nat :=
  (doc.getObjectsOfType ty).length

end App

namespace SketcherGui

/-! ## `isActive` of the commands, and `CmdSketcherEditSketch::activated` -/

/-- Lines 277-286. -/
def CmdSketcherEditSketch.activated (h : Host) : Run :=
  match Gui.selectionFilterCount1 h.selection Base.TypeId.SketchObject with
  | some (Sketch :: _) =>
    { trace := [Gui.Event.doCommand .Gui (.setEdit Sketch.getObject.NameInDocument)],
      outcome := .returned }
  | some [] => { trace := [], outcome := .undefined }
  | none => { trace := [], outcome := .returned }

def CmdSketcherEditSketch.isActive (h : Host) : Bool :=
  Gui.countObjectsOfType h.selection Base.TypeId.SketchObject == 1

def CmdSketcherReorientSketch.isActive (h : Host) : Bool :=
  Gui.countObjectsOfType h.selection Base.TypeId.SketchObject == 1

/-- Lines 731-736; `activeDialog` is whether `Gui::Control().activeDialog()`
is non-null. -/
def CmdSketcherValidateSketch.isActive (activeDialog : Bool) (h : Host) : Bool :=
  if activeDialog then false
  else Gui.countObjectsOfType h.selection Base.TypeId.SketchObject == 1

def CmdSketcherMirrorSketch.isActive (h : Host) : Bool :=
  decide (Gui.countObjectsOfType h.selection Base.TypeId.SketchObject > 0)

def CmdSketcherMergeSketches.isActive (h : Host) : Bool :=
  decide (Gui.countObjectsOfType h.selection Base.TypeId.SketchObject > 1)

/-- Lines 656-665; `Base::Type::fromName("Sketcher::SketchObject")` is the
type of sketch objects. -/
def CmdSketcherMapSketch.isActive (h : Host) : Bool :=
  match h.activeDocument with
  | some doc =>
    if doc.countObjectsOfType Base.TypeId.SketchObject > 0 ∧ ¬ h.selection.isEmpty then true
    else false
  | none => false

end SketcherGui

/-! # Properties -/

namespace SketcherGui

open Sketcher

theorem mergeInnerLoop_append (ge : GeoEnum) (bg bc : Int) :
    ∀ (xs pre : List Constraint) (i : Int) (reads : List Int),
      i + bc = (pre.length : Int) →
      mergeInnerLoop ge bg bc xs.length i (pre ++ xs) reads
        = some { Constraints := pre ++ xs.map (mergeShiftConstraint ge bg)
                 reads := reads ++ (List.range' pre.length xs.length).map Int.ofNat } := by
  intro xs
  induction xs with
  | nil => intro pre i reads _; simp [mergeInnerLoop]
  | cons x xs ih =>
    intro pre i reads h
    have hidx : (i + bc).toNat = pre.length := by omega
    have hlt : i + bc < ((pre ++ x :: xs).length : Int) := by
      simp only [List.length_append, List.length_cons]; push_cast; omega
    have hget : (pre ++ x :: xs).get? pre.length = some x := by
      rw [List.get?_eq_getElem?, List.getElem?_append_right (le_refl _)]; simp
    have hset : (pre ++ x :: xs).set pre.length (mergeShiftConstraint ge bg x)
        = (pre ++ [mergeShiftConstraint ge bg x]) ++ xs := by simp
    have h0 : 0 ≤ i + bc := by omega
    simp only [List.length_cons, mergeInnerLoop, h0, hlt, and_self, if_true, hidx, hget, hset]
    rw [ih (pre ++ [mergeShiftConstraint ge bg x]) (i + 1) (reads ++ [i + bc])
      (by simp only [List.length_append, List.length_singleton]; push_cast; omega)]
    simp [List.range'_succ, h]

end SketcherGui

namespace SketcherGui

open Sketcher

theorem mergeStep_eq (ge : GeoEnum) (st : MergeState) (Obj : SketchObject)
    (hC : st.baseConstraints = (st.mergesketch.Constraints.length : Int)) :
    mergeStep ge st Obj = some
      { mergesketch :=
          { Geometry := st.mergesketch.Geometry ++ Obj.Geometry
            Constraints := st.mergesketch.Constraints
              ++ Obj.Constraints.map (mergeShiftConstraint ge st.baseGeometry)
            Placement := st.mergesketch.Placement }
        baseGeometry := ((st.mergesketch.Geometry ++ Obj.Geometry).length : Int) - 1 + 1
        baseConstraints := ((st.mergesketch.Constraints ++ Obj.Constraints).length : Int) - 1 + 1
        reads := st.reads
          ++ (List.range' st.mergesketch.Constraints.length Obj.Constraints.length).map
              Int.ofNat } := by
  have htodo : (((st.mergesketch.Constraints ++ Obj.Constraints).length : Int) - 1
      - st.baseConstraints + 1).toNat = Obj.Constraints.length := by
    rw [hC, List.length_append]; push_cast; omega
  simp only [mergeStep, SketchObject.addGeometry, SketchObject.addCopyOfConstraints,
    SketchObject.getInternalGeometry, htodo]
  rw [mergeInnerLoop_append ge st.baseGeometry st.baseConstraints Obj.Constraints
    st.mergesketch.Constraints 0 [] (by omega)]
  simp

theorem mergeStep_inv (ge : GeoEnum) (st st1 : MergeState) (Obj : SketchObject)
    (hinv : MergeInv st) (h : mergeStep ge st Obj = some st1) : MergeInv st1 := by
  obtain ⟨_, hC, hR⟩ := hinv
  rw [mergeStep_eq ge st Obj hC] at h
  injection h with h
  subst h
  refine ⟨by simp, by simp, ?_⟩
  simp only [hR, List.length_append, List.length_map]
  rw [List.range_eq_range', List.range_eq_range', ← List.map_append]
  congr 1
  have := List.range'_append 0 st.mergesketch.Constraints.length Obj.Constraints.length 1
  simpa [Nat.add_comm] using this

end SketcherGui

namespace SketcherGui

open Sketcher

theorem mergeLoop_spec (ge : GeoEnum) :
    ∀ (sel : List SketchObject) (st : MergeState), MergeInv st →
      ∃ st1, mergeLoop ge st sel = some st1 ∧ MergeInv st1
        ∧ st1.mergesketch.Constraints
            = st.mergesketch.Constraints ++ mergedConstraintsSpec ge st.baseGeometry sel := by
  intro sel
  induction sel with
  | nil => intro st hinv; exact ⟨st, rfl, hinv, by simp [mergedConstraintsSpec]⟩
  | cons Obj rest ih =>
    intro st hinv
    have hstep := mergeStep_eq ge st Obj hinv.2.1
    obtain ⟨st2, hloop, hinv2, hcs⟩ := ih _ (mergeStep_inv ge st _ Obj hinv hstep)
    refine ⟨st2, ?_, hinv2, ?_⟩
    · simp only [mergeLoop, hstep]; exact hloop
    · rw [hcs]
      simp only [mergedConstraintsSpec, List.append_assoc, List.length_append]
      rw [hinv.1]; push_cast
      rw [show (st.mergesketch.Geometry.length : Int) + Obj.Geometry.length - 1 + 1
        = st.mergesketch.Geometry.length + Obj.Geometry.length by omega]

theorem mergedConstraintsSpec_get (ge : GeoEnum) :
    ∀ (sel : List SketchObject) (off : Int) (k j : Nat) (S : SketchObject) (c : Constraint),
      sel[k]? = some S → S.Constraints[j]? = some c →
      (mergedConstraintsSpec ge off sel)[constraintsBefore sel k + j]?
        = some (mergeShiftConstraint ge (off + geometryBefore sel k) c) := by
  intro sel
  induction sel with
  | nil => intro off k j S c h; simp at h
  | cons T rest ih =>
    intro off k j S c hS hc
    cases k with
    | zero =>
      simp only [List.getElem?_cons_zero, Option.some.injEq] at hS
      subst hS
      have hj : j < T.Constraints.length := by
        by_contra hcon
        rw [List.getElem?_eq_none (by omega)] at hc
        exact Option.noConfusion hc
      simp only [constraintsBefore, geometryBefore, mergedConstraintsSpec, Nat.zero_add,
        add_zero]
      rw [List.getElem?_append_left (by simpa using hj), List.getElem?_map, hc]
      rfl
    | succ k =>
      simp only [List.getElem?_cons_succ] at hS
      simp only [constraintsBefore, geometryBefore, mergedConstraintsSpec]
      rw [List.getElem?_append_right (by simp; omega)]
      simp only [List.length_map]
      rw [show T.Constraints.length + constraintsBefore rest k + j - T.Constraints.length
        = constraintsBefore rest k + j by omega]
      rw [ih (off + T.Geometry.length) k j S c hS hc, add_assoc]

theorem toInt32_of_range (x : Int) (h1 : -2147483648 ≤ x) (h2 : x ≤ 2147483647) :
    toInt32 x = x := by
  unfold toInt32
  omega

theorem mergedConstraintsSpec_length (ge : GeoEnum) :
    ∀ (sel : List SketchObject) (off : Int),
      (mergedConstraintsSpec ge off sel).length = constraintsBefore sel sel.length := by
  intro sel
  induction sel with
  | nil => intro off; rfl
  | cons S rest ih =>
    intro off
    simp only [mergedConstraintsSpec, List.length_append, List.length_map, List.length_cons,
      constraintsBefore, ih]

theorem geometryBefore_eq_sum :
    ∀ (sel : List SketchObject) (k : Nat),
      geometryBefore sel k = ((sel.take k).map (fun S => (S.Geometry.length : Int))).sum := by
  intro sel
  induction sel with
  | nil => intro k; cases k <;> rfl
  | cons S rest ih =>
    intro k
    cases k with
    | zero => rfl
    | succ k => simp [geometryBefore, ih k]

theorem constraintsBefore_eq_sum :
    ∀ (sel : List SketchObject) (k : Nat),
      constraintsBefore sel k = ((sel.take k).map (fun S => S.Constraints.length)).sum := by
  intro sel
  induction sel with
  | nil => intro k; cases k <;> rfl
  | cons S rest ih =>
    intro k
    cases k with
    | zero => rfl
    | succ k => simp [constraintsBefore, ih k]

/-- C1: provided no shifted reference leaves the range of `int`, the loop of
`CmdSketcherMergeSketches::activated` succeeds (every index
`i+baseConstraints` it reads is inside the constraint vector) and leaves in
the merged sketch the constraints of the sources in selection order: the
`j`-th constraint of the `k`-th source is at position `c_0 + ... + c_{k-1} + j`,
each of its `First`, `Second`, `Third` that is not `GeoUndef`, `HAxis` or
`VAxis` has become the old value plus `n_0 + ... + n_{k-1}` (the geometry
counts of the sources before it), each that is one of the three is unchanged,
and its other fields are unchanged; the constraints of the first source are
unchanged; the loop reads the indices `0, 1, ..., count-1` in this order, each
once, all inside the vector. -/
theorem merge_index_shifting (ge : GeoEnum) (sel : List SketchObject)
    (hrange : ∀ (k : Nat) (S : SketchObject) (c : Constraint),
      sel[k]? = some S → c ∈ S.Constraints →
      ∀ r ∈ [c.First, c.Second, c.Third], r ≠ ge.GeoUndef → r ≠ ge.HAxis → r ≠ ge.VAxis →
        -2147483648 ≤ r + geometryBefore sel k ∧ r + geometryBefore sel k ≤ 2147483647) :
    ∃ st, mergeSketches ge sel = some st
      ∧ st.mergesketch.Constraints.length
          = (sel.map (fun S => S.Constraints.length)).sum
      ∧ (∀ (k j : Nat) (S : SketchObject) (c : Constraint),
          sel[k]? = some S → S.Constraints[j]? = some c →
          ∃ c1, st.mergesketch.Constraints[
                ((sel.take k).map (fun S => S.Constraints.length)).sum + j]? = some c1
            ∧ c1.rest = c.rest
            ∧ ∀ fld ∈ [Constraint.First, Constraint.Second, Constraint.Third],
                (fld c ≠ ge.GeoUndef → fld c ≠ ge.HAxis → fld c ≠ ge.VAxis →
                  fld c1 = fld c
                    + ((sel.take k).map (fun S => (S.Geometry.length : Int))).sum)
                ∧ (fld c = ge.GeoUndef ∨ fld c = ge.HAxis ∨ fld c = ge.VAxis →
                  fld c1 = fld c))
      ∧ (∀ (j : Nat) (S : SketchObject) (c : Constraint),
          sel[0]? = some S → S.Constraints[j]? = some c →
          st.mergesketch.Constraints[j]? = some c)
      ∧ st.reads = (List.range st.mergesketch.Constraints.length).map Int.ofNat
      ∧ (∀ idx ∈ st.reads, 0 ≤ idx ∧ idx < (st.mergesketch.Constraints.length : Int)) := by
  obtain ⟨st, hrun, hinv, hcs⟩ := mergeLoop_spec ge sel
    { mergesketch := SketchObject.new, baseGeometry := 0, baseConstraints := 0, reads := [] }
    ⟨rfl, rfl, rfl⟩
  have hcs0 : st.mergesketch.Constraints = mergedConstraintsSpec ge 0 sel := by
    simpa [SketchObject.new] using hcs
  have hfld : ∀ (k : Nat) (S : SketchObject) (c : Constraint), sel[k]? = some S →
      c ∈ S.Constraints → ∀ r ∈ [c.First, c.Second, c.Third],
      (r ≠ ge.GeoUndef → r ≠ ge.HAxis → r ≠ ge.VAxis →
        mergeShiftRef ge (geometryBefore sel k) r = r + geometryBefore sel k)
      ∧ (r = ge.GeoUndef ∨ r = ge.HAxis ∨ r = ge.VAxis →
        mergeShiftRef ge (geometryBefore sel k) r = r) := by
    intro k S c hS hc r hr
    constructor
    · intro h1 h2 h3
      obtain ⟨hlo, hhi⟩ := hrange k S c hS hc r hr h1 h2 h3
      unfold mergeShiftRef
      rw [if_pos ⟨h1, h2, h3⟩, toInt32_of_range _ hlo hhi]
    · intro hsp
      unfold mergeShiftRef
      rcases hsp with e | e | e <;> simp [e]
  have hall : ∀ (k : Nat) (S : SketchObject) (c : Constraint), sel[k]? = some S →
      c ∈ S.Constraints → ∀ r ∈ [c.First, c.Second, c.Third],
      (r ≠ ge.GeoUndef → r ≠ ge.HAxis → r ≠ ge.VAxis →
        mergeShiftRef ge (geometryBefore sel k) r = r + geometryBefore sel k)
      ∧ (¬ (r ≠ ge.GeoUndef ∧ r ≠ ge.HAxis ∧ r ≠ ge.VAxis) →
        mergeShiftRef ge (geometryBefore sel k) r = r) := by
    intro k S c hS hc r hr
    refine ⟨(hfld k S c hS hc r hr).1, ?_⟩
    intro hn
    unfold mergeShiftRef
    rw [if_neg hn]
  refine ⟨st, hrun, ?_, ?_, ?_, hinv.2.2, ?_⟩
  · rw [hcs0, mergedConstraintsSpec_length, constraintsBefore_eq_sum, List.take_length]
  · intro k j S c hS hc
    have hmem : c ∈ S.Constraints := List.getElem?_mem hc
    refine ⟨mergeShiftConstraint ge (geometryBefore sel k) c, ?_, rfl, ?_⟩
    · rw [hcs0, ← constraintsBefore_eq_sum]
      simpa using mergedConstraintsSpec_get ge sel 0 k j S c hS hc
    · intro fld hf
      rw [← geometryBefore_eq_sum]
      simp only [List.mem_cons, List.mem_singleton, List.not_mem_nil, or_false] at hf
      rcases hf with rfl | rfl | rfl
      · exact hfld k S c hS hmem c.First (by simp)
      · exact hfld k S c hS hmem c.Second (by simp)
      · exact hfld k S c hS hmem c.Third (by simp)
  · intro j S c hS hc
    have hmem : c ∈ S.Constraints := List.getElem?_mem hc
    have h0 : geometryBefore sel 0 = 0 := by cases sel <;> rfl
    have hc0 : constraintsBefore sel 0 = 0 := by cases sel <;> rfl
    have hget := mergedConstraintsSpec_get ge sel 0 0 j S c hS hc
    rw [hc0, h0] at hget
    have hsame : ∀ r ∈ [c.First, c.Second, c.Third], mergeShiftRef ge 0 r = r := by
      intro r hr
      have hx := hall 0 S c hS hmem r hr
      rw [h0] at hx
      by_cases hsp : r ≠ ge.GeoUndef ∧ r ≠ ge.HAxis ∧ r ≠ ge.VAxis
      · rw [hx.1 hsp.1 hsp.2.1 hsp.2.2]; omega
      · exact hx.2 hsp
    have hcc : mergeShiftConstraint ge 0 c = c := by
      cases c with
      | mk f1 f2 f3 rs =>
        simp only [mergeShiftConstraint]
        rw [hsame f1 (by simp), hsame f2 (by simp), hsame f3 (by simp)]
    rw [hcs0]
    simp only [Nat.zero_add, add_zero, hcc] at hget
    exact hget
  · intro idx hidx
    rw [hinv.2.2] at hidx
    obtain ⟨n, hn, rfl⟩ := List.mem_map.mp hidx
    have := List.mem_range.mp hn
    exact ⟨Int.ofNat_nonneg n, Int.ofNat_lt.mpr this⟩

/-- C1 at the selection `Sketch` (two geometries), `Sketch001` (one geometry):
the constraint of `Sketch001` between its geometry 0 and the horizontal axis
ends at position 1 with `First = 2` and the axis unchanged. -/
theorem merge_index_shifting_witness :
    ∃ st, mergeSketches GeoEnum.values [demoSketchA.sketch, demoSketchB.sketch] = some st
      ∧ st.mergesketch.Constraints
          = [{ First := 0, Second := 1, Third := -2000, rest := 7 },
             { First := 2, Second := -1, Third := -2000, rest := 8 }]
      ∧ st.reads = [0, 1] :=
  (merge_index_shifting GeoEnum.values [demoSketchA.sketch, demoSketchB.sketch]
    (by
      intro k S c hS hc r hr _ _ _
      rcases k with _ | _ | k
      · simp only [List.getElem?_cons_zero, Option.some.injEq] at hS
        subst hS
        have hc1 : c = { First := 0, Second := 1, Third := -2000, rest := 7 } := by
          simpa [demoSketchA, demoObject, demoSketch] using hc
        subst hc1
        simp only [List.mem_cons, List.mem_singleton, List.not_mem_nil, or_false] at hr
        rcases hr with rfl | rfl | rfl <;> decide
      · simp only [List.getElem?_cons_succ, List.getElem?_cons_zero, Option.some.injEq] at hS
        subst hS
        have hc1 : c = { First := 0, Second := -1, Third := -2000, rest := 8 } := by
          simpa [demoSketchB, demoObject, demoSketch] using hc
        subst hc1
        simp only [List.mem_cons, List.mem_singleton, List.not_mem_nil, or_false] at hr
        rcases hr with rfl | rfl | rfl <;> decide
      · simp at hS)).imp
    (fun st hst => ⟨hst.1, by
      have h1 := hst.1
      rw [show mergeSketches GeoEnum.values [demoSketchA.sketch, demoSketchB.sketch] = some
        { mergesketch :=
            { Geometry := [⟨10⟩, ⟨11⟩, ⟨20⟩]
              Constraints := [⟨0, 1, -2000, 7⟩, ⟨2, -1, -2000, 8⟩]
              Placement := Base.Placement.identity }
          baseGeometry := 3, baseConstraints := 2, reads := [0, 1] } from by decide] at h1
      injection h1 with h1
      subst h1
      exact ⟨rfl, rfl⟩⟩)

end SketcherGui

namespace SketcherGui

open Sketcher

/-- What `mirrorOne` computes, spelled out: both slices are inside their
vectors, so it always yields a result. -/
theorem mirrorOne_eq (h : Host) (Obj : SketchObject) (refgeoid : Int) (refposid : PointPos) :
    mirrorOne h Obj refgeoid refposid = some
      { addedGeometries := (Obj.Geometry.length : Int) - 1
        addedConstraints := (Obj.Constraints.length : Int) - 1
        tempgeo := Obj.Geometry ++ (h.addSymmetric
          { Geometry := Obj.Geometry, Constraints := Obj.Constraints,
            Placement := Base.Placement.identity }
          ((List.range Obj.Geometry.length).map Int.ofNat) refgeoid refposid).1
        tempconstr := Obj.Constraints ++ (h.addSymmetric
          { Geometry := Obj.Geometry, Constraints := Obj.Constraints,
            Placement := Base.Placement.identity }
          ((List.range Obj.Geometry.length).map Int.ofNat) refgeoid refposid).2
        mirrorgeo := (h.addSymmetric
          { Geometry := Obj.Geometry, Constraints := Obj.Constraints,
            Placement := Base.Placement.identity }
          ((List.range Obj.Geometry.length).map Int.ofNat) refgeoid refposid).1
        mirrorconstr := (h.addSymmetric
          { Geometry := Obj.Geometry, Constraints := Obj.Constraints,
            Placement := Base.Placement.identity }
          ((List.range Obj.Geometry.length).map Int.ofNat) refgeoid refposid).2.map
            (mirrorShiftConstraint h.geoEnum ((Obj.Geometry.length : Int) - 1))
        mirrorsketch :=
          { Geometry := (h.addSymmetric
              { Geometry := Obj.Geometry, Constraints := Obj.Constraints,
                Placement := Base.Placement.identity }
              ((List.range Obj.Geometry.length).map Int.ofNat) refgeoid refposid).1
            Constraints := (h.addSymmetric
              { Geometry := Obj.Geometry, Constraints := Obj.Constraints,
                Placement := Base.Placement.identity }
              ((List.range Obj.Geometry.length).map Int.ofNat) refgeoid refposid).2.map
                (mirrorShiftConstraint h.geoEnum ((Obj.Geometry.length : Int) - 1))
            Placement := Base.Placement.identity } } := by
  have hg : ((Obj.Geometry.length : Int) - 1 + 1).toNat = Obj.Geometry.length := by omega
  have hc : ((Obj.Constraints.length : Int) - 1 + 1).toNat = Obj.Constraints.length := by omega
  simp only [mirrorOne, SketchObject.new, SketchObject.addGeometry, SketchObject.addConstraints,
    SketchObject.getInternalGeometry, List.nil_append, sliceFrom, hg, hc]
  rw [if_pos ⟨by omega, by simp only [List.length_append, Nat.cast_add]; omega⟩,
    if_pos ⟨by omega, by simp only [List.length_append, Nat.cast_add]; omega⟩]
  simp

/-- C2: for every selected sketch the slices of `CmdSketcherMirrorSketch` are
taken; with `n = addedGeometries + 1` the number of geometries copied from the
source, every constraint of the tail of the temporary constraint list ends in
the mirrored sketch at the same position, and each of its references `r` with
`n <= r < |tempgeo|` has become `r - n`, which is an index of `mirrorgeo` and
names there the geometry `tempgeo[r]`. -/
theorem mirror_rebasing (h : Host) (Obj : SketchObject) (refgeoid : Int) (refposid : PointPos)
    (hge : h.geoEnum.GeoUndef < 0) :
    ∃ res, mirrorOne h Obj refgeoid refposid = some res
      ∧ res.addedGeometries + 1 = (Obj.Geometry.length : Int)
      ∧ res.tempgeo.take Obj.Geometry.length = Obj.Geometry
      ∧ res.mirrorsketch.Geometry = res.mirrorgeo
      ∧ ∀ (j : Nat) (c : Constraint),
          (res.tempconstr.drop (res.addedConstraints + 1).toNat)[j]? = some c →
          ∃ c1, res.mirrorsketch.Constraints[j]? = some c1
            ∧ ∀ sel ∈ [Constraint.First, Constraint.Second, Constraint.Third],
                res.addedGeometries + 1 ≤ sel c → sel c < (res.tempgeo.length : Int) →
                sel c1 = sel c - (res.addedGeometries + 1)
                  ∧ 0 ≤ sel c1 ∧ sel c1 < (res.mirrorgeo.length : Int)
                  ∧ (sel c1).toNat < res.mirrorgeo.length
                  ∧ res.mirrorgeo[(sel c1).toNat]? = res.tempgeo[(sel c).toNat]? := by
  refine ⟨_, mirrorOne_eq h Obj refgeoid refposid, by simp, by simp, rfl, ?_⟩
  dsimp only
  intro j c hc
  have hdrop : ((Obj.Constraints.length : Int) - 1 + 1).toNat = Obj.Constraints.length := by
    omega
  simp only [hdrop, List.drop_left] at hc
  refine ⟨mirrorShiftConstraint h.geoEnum ((Obj.Geometry.length : Int) - 1) c, ?_, ?_⟩
  · simp [List.getElem?_map, hc]
  · have key : ∀ r : Int, (Obj.Geometry.length : Int) - 1 + 1 ≤ r →
        mirrorShiftRef h.geoEnum ((Obj.Geometry.length : Int) - 1) r
          = r - ((Obj.Geometry.length : Int) - 1 + 1) := by
      intro r hr
      unfold mirrorShiftRef
      rw [if_pos (Or.inl (by omega))]
    intro sel hsel r1 r2
    simp only [List.length_append] at r2
    have hsc : sel (mirrorShiftConstraint h.geoEnum ((Obj.Geometry.length : Int) - 1) c)
        = sel c - ((Obj.Geometry.length : Int) - 1 + 1) := by
      simp only [List.mem_cons, List.mem_singleton, List.not_mem_nil, or_false] at hsel
      rcases hsel with rfl | rfl | rfl <;> exact key _ r1
    rw [hsc]
    refine ⟨rfl, by omega, by push_cast at r2; omega, by push_cast at r2; omega, ?_⟩
    rw [List.getElem?_append_right (by omega)]
    congr 1
    omega

/-- C2 at the sketch `Sketch` (two geometries): the constraint `addSymmetric`
appends points at index 2 of the temporary sketch and at index 0 of the
mirrored one. -/
theorem mirror_rebasing_witness :
    demoHost.geoEnum.GeoUndef < 0
      ∧ ∃ res, mirrorOne demoHost demoSketchA.sketch (-1) .none = some res
          ∧ res.tempgeo.length = 3 ∧ res.mirrorgeo.length = 1
          ∧ res.tempconstr.map Constraint.Second = [1, 2]
          ∧ res.mirrorsketch.Constraints.map Constraint.Second = [0] :=
  ⟨by decide,
   (mirror_rebasing demoHost demoSketchA.sketch (-1) .none (by decide)).elim
     (fun res hres => ⟨res, hres.1, by
       have h := hres.1
       rw [show mirrorOne demoHost demoSketchA.sketch (-1) .none = some
         { addedGeometries := 1, addedConstraints := 0,
           tempgeo := [⟨10⟩, ⟨11⟩, ⟨99⟩],
           tempconstr := [⟨0, 1, -2000, 7⟩, ⟨-1, 2, -2000, 9⟩],
           mirrorgeo := [⟨99⟩],
           mirrorconstr := [⟨-3, 0, -2000, 9⟩],
           mirrorsketch := ⟨[⟨99⟩], [⟨-3, 0, -2000, 9⟩], Base.Placement.identity⟩ }
         from by decide] at h
       injection h with h
       subst h
       decide⟩)⟩

/-- C3 (what the code does): the guard of the mirror loop holds for every
reference other than `GeoUndef`, the axes included.  In the run on `Sketch001`
(one geometry, `addedGeometries = 0`) the appended constraint has
`First = HAxis = -1` and leaves the loop with `First = -2`, which is `VAxis`;
in general an axis reference is lowered by `addedGeometries + 1`, whereas the
merge loop leaves it as it is. -/
theorem mirror_shifts_axis_references :
    (mirrorOne demoHost demoSketchB.sketch (-1) .none).map (fun res => res.mirrorconstr)
        = some [{ First := -2, Second := 0, Third := -2000, rest := 9 }]
      ∧ (∀ (ge : GeoEnum) (n : Int), ge.HAxis ≠ ge.GeoUndef →
          mirrorShiftRef ge n ge.HAxis = ge.HAxis - (n + 1))
      ∧ (∀ (ge : GeoEnum) (n : Int), ge.VAxis ≠ ge.GeoUndef →
          mirrorShiftRef ge n ge.VAxis = ge.VAxis - (n + 1))
      ∧ (∀ (ge : GeoEnum) (n : Int), ge.GeoUndef ≠ ge.HAxis → ge.GeoUndef ≠ ge.VAxis →
          mirrorShiftRef ge n ge.GeoUndef = ge.GeoUndef)
      ∧ (∀ (ge : GeoEnum) (n : Int), mergeShiftRef ge n ge.HAxis = ge.HAxis
          ∧ mergeShiftRef ge n ge.VAxis = ge.VAxis) := by
  refine ⟨by decide, ?_, ?_, ?_, ?_⟩
  · intro ge n h; simp [mirrorShiftRef, h]
  · intro ge n h; simp [mirrorShiftRef, h]
  · intro ge n h1 h2; simp [mirrorShiftRef, h1, h2]
  · intro ge n; simp [mergeShiftRef]

end SketcherGui

namespace SketcherGui

open Sketcher

theorem checkCircular_dependent (nd : Bool) (sketch part : App.DocumentObject)
    (s : Gui.SelectionObject) (post : List Gui.SelectionObject)
    (hs : s.getObject = some part) (hdep : sketch.id ∈ part.OutListRecursive) :
    ∀ pre : List Gui.SelectionObject, (∀ x ∈ pre, x.getObject ≠ none) →
      checkCircular nd sketch (pre ++ s :: post)
        = some (.threw (.ExceptionWrongInput circularMsg)) := by
  intro pre
  induction pre with
  | nil => intro _; simp [checkCircular, hs, hdep]
  | cons x pre ih =>
    intro hpre
    have hx : x.getObject ≠ none := hpre x (List.mem_cons_self _ _)
    have ih1 := ih (fun y hy => hpre y (List.mem_cons_of_mem _ hy))
    cases hxo : x.getObject with
    | none => exact absurd hxo hx
    | some o =>
      simp only [List.cons_append, checkCircular, hxo]
      split
      · rfl
      · exact ih1

theorem checkCircular_independent (nd : Bool) (sketch : App.DocumentObject) :
    ∀ sel : List Gui.SelectionObject,
      (∀ x ∈ sel, ∃ o, x.getObject = some o ∧ sketch.id ∉ o.OutListRecursive) →
      checkCircular nd sketch sel = none := by
  intro sel
  induction sel with
  | nil => intro _; rfl
  | cons x sel ih =>
    intro hall
    obtain ⟨o, ho, hno⟩ := hall x (List.mem_cons_self _ _)
    simp only [checkCircular, ho, hno, if_false]
    exact ih (fun y hy => hall y (List.mem_cons_of_mem _ hy))

/-- The run of `mapSketchTry` once a sketch is chosen. -/
theorem mapSketchTry_chosen (h : Host) (so : SuggestOut) (doc : App.Document)
    (sketch : App.DocumentObject) (hdoc : h.activeDocument = some doc)
    (hsk : chosenSketch h doc = some sketch) :
    mapSketchTry h so =
      match checkCircular h.NDEBUG sketch h.selection with
      | some out => { trace := [selectSketchEvent doc], outcome := out }
      | none => mapSketchAttach h so [selectSketchEvent doc] sketch := by
  unfold chosenSketch at hsk
  simp only at hsk
  split at hsk
  · exact Option.noConfusion hsk
  · rename_i hok
    have hne : (doc.getObjectsOfType Base.TypeId.Part2DObject).isEmpty = false := by
      cases hl : doc.getObjectsOfType Base.TypeId.Part2DObject with
      | nil => rw [hl] at hsk; simp [objectAt] at hsk
      | cons a l => rfl
    simp only [mapSketchTry, hdoc, hne, hok, hsk, selectSketchEvent]
    simp

/-- The attachment dialog and what follows show no warning, throw nothing,
and start with the attachment dialog. -/
theorem mapSketchAttach_trace (h : Host) (so : SuggestOut) (pre : List Gui.Event)
    (sketch : App.DocumentObject) :
    ∃ rest,
      (mapSketchAttach h so pre sketch).trace
          = pre ++ Gui.Event.getItem "Sketch attachment"
              (attachmentLabel (curIncompatible so sketch))
              (mapSketchDialog h so sketch).items
              (attachmentCurrent (curIncompatible so sketch) (mapSketchDialog h so sketch))
              :: rest
        ∧ (∀ e ∈ rest, isWarning e = false)
        ∧ ((mapSketchAttach h so pre sketch).outcome = .returned
            ∨ (mapSketchAttach h so pre sketch).outcome = .undefined) := by
  unfold mapSketchAttach
  simp only
  split
  · exact ⟨[], by simp, by simp, Or.inl rfl⟩
  · split
    · exact ⟨_, by simp; rfl, by simp [isWarning], Or.inl rfl⟩
    · split
      · exact ⟨[], by simp, by simp, Or.inr rfl⟩
      · exact ⟨_, by simp; rfl, by simp [isWarning], Or.inl rfl⟩

end SketcherGui

namespace SketcherGui

open Sketcher

/-- C4 as stated fails: `Pad`, whose recursive out-list contains the chosen
sketch, is selected after an entry whose object is null; the loop meets the
null entry first, `Base::ValueError` leaves the handler, no
`ExceptionWrongInput` is raised and no warning is shown. -/
theorem mapSketch_null_entry_first :
    chosenSketch demoHostNullFirst demoDocument = some demoSketchA
      ∧ (∃ s ∈ demoHostNullFirst.selection, ∃ o, s.getObject = some o
          ∧ demoSketchA.id ∈ o.OutListRecursive)
      ∧ CmdSketcherMapSketch.activated demoHostNullFirst =
          { trace := [selectSketchEvent demoDocument]
            outcome := .threw
              (.ValueError "Unexpected null pointer in CmdSketcherMapSketch::activated") }
      ∧ (CmdSketcherMapSketch.activated demoHostNullFirst).trace.any isWarning = false :=
  ⟨by decide, ⟨demoSel demoPad, by decide, demoPad, rfl, by decide⟩, by decide, by decide⟩

/-- C4, amended: once a sketch is chosen in the first dialog, (1) if a selected
object has the sketch in its recursive out-list and no entry before it in the
selection has a null object, `ExceptionWrongInput` is raised with the
circular-dependency message and the whole run is the sketch dialog followed by
the warning `Can't map a sketch to support` with that message: no transaction,
no `MapMode`, no `Support`, no recompute, no attachment dialog; (2) if every
selected object is non-null and none has the sketch in its out-list, no
`ExceptionWrongInput` is raised, no warning is shown, and the attachment dialog
comes right after the sketch dialog. -/
theorem mapSketch_circular_dependency (h : Host) (so : SuggestOut) (doc : App.Document)
    (sketch : App.DocumentObject) (hso : SuggestAutoMapMode h = some so)
    (hdoc : h.activeDocument = some doc) (hsk : chosenSketch h doc = some sketch) :
    (∀ (pre : List Gui.SelectionObject) (s : Gui.SelectionObject)
        (post : List Gui.SelectionObject) (part : App.DocumentObject),
        h.selection = pre ++ s :: post → (∀ x ∈ pre, x.getObject ≠ none) →
        s.getObject = some part → sketch.id ∈ part.OutListRecursive →
        (mapSketchTry h so).outcome = .threw (.ExceptionWrongInput circularMsg)
          ∧ CmdSketcherMapSketch.activated h =
              { trace := [selectSketchEvent doc,
                  Gui.Event.warning "Map sketch"
                    ("Can't map a sketch to support:\n" ++ circularMsg)]
                outcome := .returned })
      ∧ ((∀ x ∈ h.selection, ∃ o, x.getObject = some o ∧ sketch.id ∉ o.OutListRecursive) →
          (∀ m, (mapSketchTry h so).outcome ≠ .threw (.ExceptionWrongInput m))
            ∧ (∀ e ∈ (CmdSketcherMapSketch.activated h).trace, isWarning e = false)
            ∧ ∃ rest, (CmdSketcherMapSketch.activated h).trace
                = selectSketchEvent doc
                  :: Gui.Event.getItem "Sketch attachment"
                      (attachmentLabel (curIncompatible so sketch))
                      (mapSketchDialog h so sketch).items
                      (attachmentCurrent (curIncompatible so sketch) (mapSketchDialog h so sketch))
                  :: rest) := by
  have htry := mapSketchTry_chosen h so doc sketch hdoc hsk
  constructor
  · intro pre s post part hsel hpre hs hdep
    have hcc := checkCircular_dependent h.NDEBUG sketch part s post hs hdep pre hpre
    rw [← hsel] at hcc
    rw [hcc] at htry
    have hlen : (circularMsg.length ≠ 0) = True := by decide
    refine ⟨by rw [htry], ?_⟩
    simp only [CmdSketcherMapSketch.activated, hso, htry, catchWrongInput, hlen, if_true]
    rfl
  · intro hall
    rw [checkCircular_independent h.NDEBUG sketch h.selection hall] at htry
    obtain ⟨rest, htr, hnw, hout⟩ := mapSketchAttach_trace h so [selectSketchEvent doc] sketch
    have hact : CmdSketcherMapSketch.activated h
        = mapSketchAttach h so [selectSketchEvent doc] sketch := by
      simp only [CmdSketcherMapSketch.activated, hso, htry, catchWrongInput]
      rcases hout with ho | ho <;> simp [ho]
    refine ⟨?_, ?_, rest, ?_⟩
    · intro m
      rw [htry]
      rcases hout with ho | ho <;> simp [ho]
    · intro e he
      rw [hact, htr] at he
      simp only [List.singleton_append, List.mem_cons] at he
      rcases he with rfl | rfl | he
      · rfl
      · rfl
      · exact hnw e he
    · rw [hact, htr]; rfl

/-- C4 at a concrete host: `Box` and `Pad` are selected, the user picks
`Sketch`, which `Pad` depends on. -/
theorem mapSketch_circular_dependency_witness :
    SuggestAutoMapMode demoHostPad
        = some { bestFitMode := 0, msg := .srOK, msg_str := "", allmodes := [] }
      ∧ demoHostPad.activeDocument = some demoDocument
      ∧ chosenSketch demoHostPad demoDocument = some demoSketchA
      ∧ CmdSketcherMapSketch.activated demoHostPad =
          { trace := [selectSketchEvent demoDocument,
              Gui.Event.warning "Map sketch"
                ("Can't map a sketch to support:\n" ++ circularMsg)]
            outcome := .returned } :=
  ⟨by decide, rfl, by decide,
   ((mapSketch_circular_dependency demoHostPad
      { bestFitMode := 0, msg := .srOK, msg_str := "", allmodes := [] } demoDocument demoSketchA
      (by decide) rfl (by decide)).1
      [demoSel demoBox] (demoSel demoPad) [] demoPad rfl (by decide) rfl (by decide)).2⟩

end SketcherGui

namespace SketcherGui

open Sketcher

theorem mirrorLoop_run (h : Host) (refgeoid : Int) (refposid : PointPos) :
    ∀ (sel : List Gui.TypedSelectionObject) (n : Nat) (acc : Run), acc.outcome = .returned →
      (mirrorLoop h refgeoid refposid n sel acc).outcome = .returned
        ∧ (mirrorLoop h refgeoid refposid n sel acc).trace = acc.trace ++ mirrorCommands h n sel := by
  intro sel
  induction sel with
  | nil => intro n acc hacc; simp [mirrorLoop, mirrorCommands, hacc]
  | cons it rest ih =>
    intro n acc _
    simp only [mirrorLoop, mirrorOne_eq, mirrorCommands]
    obtain ⟨h1, h2⟩ := ih (n + 1)
      { trace := acc.trace ++ [Gui.Event.doCommand .Doc
            (.addObject (h.getUniqueObjectName "MirroredSketch" n)),
          Gui.Event.doCommand .Doc (.Placement (h.getUniqueObjectName "MirroredSketch" n)
            it.getObject.sketch.Placement.getPosition
            it.getObject.sketch.Placement.getRotation)]
        outcome := .returned
        created := acc.created ++ [(h.getUniqueObjectName "MirroredSketch" n,
          { Geometry := (h.addSymmetric
              { Geometry := it.getObject.sketch.Geometry
                Constraints := it.getObject.sketch.Constraints
                Placement := Base.Placement.identity }
              ((List.range it.getObject.sketch.Geometry.length).map Int.ofNat)
              refgeoid refposid).1
            Constraints := (h.addSymmetric
              { Geometry := it.getObject.sketch.Geometry
                Constraints := it.getObject.sketch.Constraints
                Placement := Base.Placement.identity }
              ((List.range it.getObject.sketch.Geometry.length).map Int.ofNat)
              refgeoid refposid).2.map
                (mirrorShiftConstraint h.geoEnum
                  ((it.getObject.sketch.Geometry.length : Int) - 1))
            Placement := Base.Placement.identity })] } rfl
    exact ⟨h1, by rw [h2]; simp⟩

theorem mirrorCommands_no_warning (h : Host) :
    ∀ (sel : List Gui.TypedSelectionObject) (n : Nat), ∀ e ∈ mirrorCommands h n sel,
      isWarning e = false := by
  intro sel
  induction sel with
  | nil => intro n e he; simp [mirrorCommands] at he
  | cons it rest ih =>
    intro n e he
    simp only [mirrorCommands, List.mem_cons] at he
    rcases he with rfl | rfl | he
    · rfl
    · rfl
    · exact ih (n + 1) e he

/-- The run of `CmdSketcherMirrorSketch` once the dialog is accepted. -/
theorem mirrorSketch_run (h : Host) (doc : App.Document) (hsel : h.sketchSelection ≠ [])
    (hacc : h.mirrorDialog.accepted = true) (hdoc : h.activeDocument = some doc) :
    (CmdSketcherMirrorSketch.activated h).outcome = .returned
      ∧ (CmdSketcherMirrorSketch.activated h).trace
          = [Gui.Event.execSketchMirrorDialog,
              Gui.Event.openCommand "Create a mirrored sketch for each selected sketch"]
            ++ mirrorCommands h 0 h.sketchSelection
            ++ [Gui.Event.doCommand .Gui .recompute] := by
  have hemp : h.sketchSelection.isEmpty = false := by
    cases hl : h.sketchSelection with
    | nil => exact absurd hl hsel
    | cons a l => rfl
  obtain ⟨h1, h2⟩ := mirrorLoop_run h h.mirrorDialog.RefGeoid h.mirrorDialog.RefPosid
    h.sketchSelection 0
    { trace := [Gui.Event.execSketchMirrorDialog,
        Gui.Event.openCommand "Create a mirrored sketch for each selected sketch"]
      outcome := .returned } rfl
  simp only [CmdSketcherMirrorSketch.activated, hemp, hacc, hdoc, h1, h2]
  simp

end SketcherGui

namespace SketcherGui

open Sketcher

theorem mergeSketches_some (ge : GeoEnum) (sel : List SketchObject) :
    ∃ st, mergeSketches ge sel = some st := by
  obtain ⟨st, hrun, _, _⟩ := mergeLoop_spec ge sel
    { mergesketch := SketchObject.new, baseGeometry := 0, baseConstraints := 0, reads := [] }
    ⟨rfl, rfl, rfl⟩
  exact ⟨st, hrun⟩

/-- The run of `CmdSketcherMergeSketches` on two or more sketches. -/
theorem mergeSketches_run (h : Host) (doc : App.Document)
    (front second : Gui.TypedSelectionObject) (rest : List Gui.TypedSelectionObject)
    (hsel : h.sketchSelection = front :: second :: rest) (hdoc : h.activeDocument = some doc) :
    ∃ st, mergeSketches h.geoEnum (h.sketchSelection.map (fun it => it.getObject.sketch)) = some st
      ∧ CmdSketcherMergeSketches.activated h =
          { trace := [Gui.Event.openCommand "Merge sketches",
              Gui.Event.doCommand .Doc (.addObject (h.getUniqueObjectName "Sketch" 0)),
              Gui.Event.doCommand .Doc (.PlacementOf front.FeatName),
              Gui.Event.doCommand .Doc .recompute]
            outcome := .returned
            created := [(h.getUniqueObjectName "Sketch" 0, st.mergesketch)] } := by
  obtain ⟨st, hst⟩ := mergeSketches_some h.geoEnum
    (h.sketchSelection.map (fun it => it.getObject.sketch))
  refine ⟨st, hst, ?_⟩
  unfold CmdSketcherMergeSketches.activated
  simp only [hdoc, hst]
  simp [hsel]

/-- Whatever the host, the run of `CmdSketcherMergeSketches` on two or more
sketches shows no warning. -/
theorem mergeSketches_no_warning (h : Host) (hsel : 2 ≤ h.sketchSelection.length) :
    ∀ e ∈ (CmdSketcherMergeSketches.activated h).trace, isWarning e = false := by
  have hlt : ¬ h.sketchSelection.length < 2 := by omega
  obtain ⟨st, hst⟩ := mergeSketches_some h.geoEnum
    (h.sketchSelection.map (fun it => it.getObject.sketch))
  intro e he
  unfold CmdSketcherMergeSketches.activated at he
  simp only [hlt, if_false, hst] at he
  cases hd : h.activeDocument with
  | none =>
    simp only [hd, List.mem_cons, List.mem_singleton, List.not_mem_nil, or_false] at he
    rcases he with rfl | rfl <;> rfl
  | some doc =>
    cases hl : h.sketchSelection with
    | nil => simp [hl] at hsel
    | cons front rest =>
      simp only [hd, hl, List.cons_append, List.nil_append, List.mem_cons,
        List.not_mem_nil, or_false] at he
      rcases he with rfl | rfl | rfl | rfl <;> rfl

/-- Whatever the host, the run of `CmdSketcherMirrorSketch` on a non-empty
selection shows no warning. -/
theorem mirrorSketch_no_warning (h : Host) (hsel : h.sketchSelection ≠ []) :
    ∀ e ∈ (CmdSketcherMirrorSketch.activated h).trace, isWarning e = false := by
  have hemp : h.sketchSelection.isEmpty = false := by
    cases hl : h.sketchSelection with
    | nil => exact absurd hl hsel
    | cons a l => rfl
  intro e he
  cases hacc : h.mirrorDialog.accepted with
  | false =>
    simp only [CmdSketcherMirrorSketch.activated, hemp, hacc, List.mem_singleton] at he
    simp at he
    subst he; rfl
  | true =>
    cases hd : h.activeDocument with
    | none =>
      simp only [CmdSketcherMirrorSketch.activated, hemp, hacc, hd] at he
      simp at he
      rcases he with rfl | rfl | rfl <;> rfl
    | some doc =>
      rw [(mirrorSketch_run h doc hsel hacc hd).2] at he
      simp only [List.cons_append, List.nil_append, List.mem_cons, List.mem_append,
        List.mem_singleton, List.not_mem_nil, or_false] at he
      rcases he with rfl | rfl | he | rfl
      · rfl
      · rfl
      · exact mirrorCommands_no_warning h _ _ e he
      · rfl

/-- When the document has a sketch, the `try` block of `CmdSketcherMapSketch`
shows no warning. -/
theorem mapSketchTry_no_warning (h : Host) (so : SuggestOut) (doc : App.Document)
    (hdoc : h.activeDocument = some doc)
    (hne : doc.getObjectsOfType Base.TypeId.Part2DObject ≠ []) :
    ∀ e ∈ (mapSketchTry h so).trace, isWarning e = false := by
  have hemp : (doc.getObjectsOfType Base.TypeId.Part2DObject).isEmpty = false := by
    cases hl : doc.getObjectsOfType Base.TypeId.Part2DObject with
    | nil => exact absurd hl hne
    | cons a l => rfl
  intro e he
  unfold mapSketchTry at he
  simp only [hdoc, hemp, Bool.false_eq_true, if_false] at he
  split at he
  · simp at he; subst he; rfl
  · split at he
    · simp at he; subst he; rfl
    · rename_i sketch _
      split at he
      · simp at he; subst he; rfl
      · obtain ⟨rest, htr, hnw, _⟩ := mapSketchAttach_trace h so
          [Gui.Event.getItem "Select sketch" "Select a sketch from the list"
            ((doc.getObjectsOfType Base.TypeId.Part2DObject).map (fun o => o.Label)) 0] sketch
        rw [htr] at he
        simp only [List.singleton_append, List.mem_cons] at he
        rcases he with rfl | rfl | he
        · rfl
        · rfl
        · exact hnw e he

end SketcherGui

namespace SketcherGui

open Sketcher

/-- C5: with a number of selected sketches other than 1 `CmdSketcherValidateSketch`,
with none `CmdSketcherMirrorSketch`, with fewer than 2 `CmdSketcherMergeSketches`,
and in a document without a `Part2DObject` `CmdSketcherMapSketch`, make one call,
the warning box, and return: no document command, no transaction, no object
created.  With a count that meets the requirement that warning is not shown. -/
theorem wrong_selection_count_rejected (h : Host) :
    (h.sketchSelection.length ≠ 1 →
        CmdSketcherValidateSketch.activated h =
          { trace := [Gui.Event.warning "Wrong selection" "Select only one sketch."]
            outcome := .returned, created := [] })
      ∧ (h.sketchSelection.length = 1 →
          ∀ e ∈ (CmdSketcherValidateSketch.activated h).trace, isWarning e = false)
      ∧ (h.sketchSelection.length = 0 →
          CmdSketcherMirrorSketch.activated h =
            { trace := [Gui.Event.warning "Wrong selection" "Select one or more sketches."]
              outcome := .returned, created := [] })
      ∧ (0 < h.sketchSelection.length →
          ∀ e ∈ (CmdSketcherMirrorSketch.activated h).trace, isWarning e = false)
      ∧ (h.sketchSelection.length < 2 →
          CmdSketcherMergeSketches.activated h =
            { trace := [Gui.Event.warning "Wrong selection" "Select at least two sketches."]
              outcome := .returned, created := [] })
      ∧ (2 ≤ h.sketchSelection.length →
          ∀ e ∈ (CmdSketcherMergeSketches.activated h).trace, isWarning e = false)
      ∧ (∀ (so : SuggestOut) (doc : App.Document),
          SuggestAutoMapMode h = some so → h.activeDocument = some doc →
          (doc.getObjectsOfType Base.TypeId.Part2DObject = [] →
            CmdSketcherMapSketch.activated h =
              { trace := [Gui.Event.warning "No sketch found"
                  "The document doesn't have a sketch"]
                outcome := .returned, created := [] })
          ∧ (doc.getObjectsOfType Base.TypeId.Part2DObject ≠ [] →
            ∀ e ∈ (CmdSketcherMapSketch.activated h).trace,
              ∀ text, e ≠ Gui.Event.warning "No sketch found" text)) := by
  refine ⟨?_, ?_, ?_, ?_, ?_, ?_, ?_⟩
  · intro hlen
    simp [CmdSketcherValidateSketch.activated, hlen]
  · intro hlen e he
    unfold CmdSketcherValidateSketch.activated at he
    cases hl : h.sketchSelection with
    | nil => simp [hl] at hlen
    | cons s0 rest =>
      simp only [hl, hlen] at he
      simp [hl] at hlen
      simp [hlen] at he
      subst he; rfl
  · intro hlen
    have hnil : h.sketchSelection = [] := List.length_eq_zero.mp hlen
    simp [CmdSketcherMirrorSketch.activated, hnil]
  · intro hlen
    exact mirrorSketch_no_warning h (by intro hnil; simp [hnil] at hlen)
  · intro hlen
    simp [CmdSketcherMergeSketches.activated, hlen]
  · intro hlen
    exact mergeSketches_no_warning h hlen
  · intro so doc hso hdoc
    constructor
    · intro hnil
      simp [CmdSketcherMapSketch.activated, hso, mapSketchTry, hdoc, hnil, catchWrongInput]
    · intro hne e he text heq
      have hnw := mapSketchTry_no_warning h so doc hdoc hne
      simp only [CmdSketcherMapSketch.activated, hso, catchWrongInput] at he
      split at he
      · simp only [List.mem_append, List.mem_singleton] at he
        rcases he with he | he
        · have := hnw e he
          rw [heq] at this
          exact Bool.noConfusion this
        · rw [heq] at he
          injection he with h1 _
          exact absurd h1 (by decide)
      · have := hnw e he
        rw [heq] at this
        exact Bool.noConfusion this

/-- C5 at the host with nothing selected and an empty document: each of the
four handlers only shows its warning. -/
theorem wrong_selection_count_rejected_witness :
    CmdSketcherValidateSketch.activated demoHost =
        { trace := [Gui.Event.warning "Wrong selection" "Select only one sketch."]
          outcome := .returned, created := [] }
      ∧ CmdSketcherMirrorSketch.activated demoHost =
        { trace := [Gui.Event.warning "Wrong selection" "Select one or more sketches."]
          outcome := .returned, created := [] }
      ∧ CmdSketcherMergeSketches.activated demoHost =
        { trace := [Gui.Event.warning "Wrong selection" "Select at least two sketches."]
          outcome := .returned, created := [] }
      ∧ CmdSketcherMapSketch.activated demoHost =
        { trace := [Gui.Event.warning "No sketch found" "The document doesn't have a sketch"]
          outcome := .returned, created := [] } :=
  ⟨(wrong_selection_count_rejected demoHost).1 (by decide),
   (wrong_selection_count_rejected demoHost).2.2.1 (by decide),
   (wrong_selection_count_rejected demoHost).2.2.2.2.1 (by decide),
   ((wrong_selection_count_rejected demoHost).2.2.2.2.2.2
      { bestFitMode := 0, msg := .srOK, msg_str := "", allmodes := [] } { objects := [] }
      (by decide) rfl).1 (by decide)⟩

end SketcherGui

namespace SketcherGui

open Sketcher

/-- Apart from the message text, `SuggestAutoMapMode` hands on what the engine
answered. -/
theorem SuggestAutoMapMode_fields (h : Host) (so : SuggestOut)
    (hso : SuggestAutoMapMode h = some so) :
    so.msg = h.sugr.message ∧ so.allmodes = h.sugr.allApplicableModes
      ∧ so.bestFitMode = h.sugr.bestFitMode := by
  unfold SuggestAutoMapMode at hso
  simp only at hso
  split at hso
  · injection hso with hso; subst hso; exact ⟨rfl, rfl, rfl⟩
  · injection hso with hso; subst hso; exact ⟨rfl, rfl, rfl⟩
  · injection hso with hso; subst hso; exact ⟨rfl, rfl, rfl⟩
  · injection hso with hso; subst hso; exact ⟨rfl, rfl, rfl⟩
  · split at hso
    · exact Option.noConfusion hso
    · split at hso <;> (injection hso with hso; subst hso; exact ⟨rfl, rfl, rfl⟩)

/-- With a sub-element in the support list `SuggestAutoMapMode` returns, and
its message is the one of the switch of lines 110-131. -/
theorem SuggestAutoMapMode_some (h : Host) (hsub : h.support.getSubValues ≠ []) :
    ∃ so, SuggestAutoMapMode h = some so
      ∧ (h.sugr.message = .srOK → so.msg_str = "")
      ∧ (h.sugr.message = .srNoModesFit →
          so.msg_str = "There are no modes that accept the selected set of subelements")
      ∧ (h.sugr.message = .srLinkBroken → so.msg_str = "Broken link to support subelements")
      ∧ (h.sugr.message = .srUnexpectedError → so.msg_str = "Unexpected error")
      ∧ (h.sugr.message = .srIncompatibleGeometry →
          so.msg_str = "Face is non-planar"
            ∨ so.msg_str =
              "Selected shapes are of wrong form (e.g., a curved edge where a straight one is needed)") := by
  unfold SuggestAutoMapMode
  simp only
  cases hm : h.sugr.message with
  | srOK => exact ⟨_, rfl, by simp⟩
  | srNoModesFit => exact ⟨_, rfl, by simp⟩
  | srLinkBroken => exact ⟨_, rfl, by simp⟩
  | srUnexpectedError => exact ⟨_, rfl, by simp⟩
  | srIncompatibleGeometry =>
    cases hs : h.support.getSubValues with
    | nil => exact absurd hs hsub
    | cons sub0 rest =>
      simp only
      split
      · exact ⟨_, rfl, by simp⟩
      · exact ⟨_, rfl, by simp⟩

theorem attachedPath_no_warning (h : Host) (m : Attacher.eMapMode) :
    ∀ e ∈ attachedPath h m, isWarning e = false ∧ isDialog e = false := by
  intro e he
  unfold attachedPath at he
  simp only [List.mem_append, List.mem_cons, List.mem_singleton, List.not_mem_nil,
    or_false] at he
  rcases he with ((he | he) | he) | he
  · rcases he with rfl | rfl <;> exact ⟨rfl, rfl⟩
  · split at he
    · simp only [List.mem_singleton] at he; subst he; exact ⟨rfl, rfl⟩
    · simp at he
  · rcases he with rfl | rfl | rfl <;> exact ⟨rfl, rfl⟩
  · cases hv : h.support.getValue with
    | none => simp [hv] at he
    | some part =>
      cases hg : part.Group with
      | none => simp [hv, hg] at he
      | some grp =>
        simp only [hv, hg, List.mem_singleton] at he
        subst he
        exact ⟨rfl, rfl⟩

theorem newSketchCreate_no_warning (h : Host) (pre : List Gui.Event) (b : Bool)
    (m : Attacher.eMapMode) (hpre : ∀ e ∈ pre, isWarning e = false) :
    ∀ e ∈ (newSketchCreate h pre b m).trace, isWarning e = false := by
  intro e he
  unfold newSketchCreate at he
  split at he
  · split at he
    · simp only [List.mem_append] at he
      rcases he with he | he
      · exact hpre e he
      · exact (attachedPath_no_warning h m e he).1
    · simp only [List.mem_append, List.mem_cons, List.mem_singleton, List.not_mem_nil,
        or_false] at he
      rcases he with he | rfl | rfl
      · exact hpre e he
      · rfl
      · rfl
  · split at he
    · simp only [List.mem_append, List.mem_singleton] at he
      rcases he with he | rfl
      · exact hpre e he
      · rfl
    · simp only [orientationPath, List.mem_append, List.mem_cons, List.mem_singleton,
        List.not_mem_nil, or_false] at he
      rcases he with he | rfl | rfl | rfl | rfl | rfl | rfl
      · exact hpre e he
      all_goals rfl

/-- C6: when something is selected (and the support list then has a
sub-element) and the engine answers `srLinkBroken`, `srUnexpectedError` or
`srIncompatibleGeometry`, `SuggestAutoMapMode` returns its message for that
result and the whole run of `CmdSketcherNewSketch` is the warning
`Can't map the sketch to selected object` with that message: no other dialog,
no sketch, no transaction.  For `srOK` and `srNoModesFit` no warning is shown. -/
theorem newSketch_mapping_failure (h : Host) (hsel : h.hasSelection = true)
    (hsub : h.support.getSubValues ≠ []) :
    (h.sugr.message ≠ .srOK → h.sugr.message ≠ .srNoModesFit →
        ∃ so, SuggestAutoMapMode h = some so
          ∧ (h.sugr.message = .srLinkBroken →
              so.msg_str = "Broken link to support subelements")
          ∧ (h.sugr.message = .srUnexpectedError → so.msg_str = "Unexpected error")
          ∧ (h.sugr.message = .srIncompatibleGeometry →
              so.msg_str = "Face is non-planar"
                ∨ so.msg_str =
                  "Selected shapes are of wrong form (e.g., a curved edge where a straight one is needed)")
          ∧ CmdSketcherNewSketch.activated h =
              { trace := [Gui.Event.warning "Sketch mapping"
                  ("Can't map the sketch to selected object. " ++ so.msg_str ++ ".")]
                outcome := .returned, created := [] })
      ∧ (h.sugr.message = .srOK ∨ h.sugr.message = .srNoModesFit →
          ∀ e ∈ (CmdSketcherNewSketch.activated h).trace, isWarning e = false) := by
  obtain ⟨so, hso, _, _, h3, h4, h5⟩ := SuggestAutoMapMode_some h hsub
  obtain ⟨hmsg, _, _⟩ := SuggestAutoMapMode_fields h so hso
  constructor
  · intro h1 h2
    refine ⟨so, hso, h3, h4, h5, ?_⟩
    simp [CmdSketcherNewSketch.activated, hsel, hso, hmsg, h1, h2]
  · intro hok e he
    have hcond : ¬ (so.msg ≠ .srOK ∧ so.msg ≠ .srNoModesFit) := by
      rw [hmsg]; rcases hok with h1 | h1 <;> simp [h1]
    simp only [CmdSketcherNewSketch.activated, hsel, hso, if_true, hcond, if_false] at he
    split at he
    · split at he
      · simp only [List.mem_singleton] at he; subst he; rfl
      · split at he
        · exact newSketchCreate_no_warning h _ _ _
            (by intro x hx; simp only [List.mem_singleton] at hx; subst hx; rfl) e he
        · split at he
          · simp only [List.mem_singleton] at he; subst he; rfl
          · exact newSketchCreate_no_warning h _ _ _
              (by intro x hx; simp only [List.mem_singleton] at hx; subst hx; rfl) e he
    · exact newSketchCreate_no_warning h _ _ _ (by intro x hx; simp at hx) e he

end SketcherGui

namespace SketcherGui

open Sketcher

/-- C6 at a host where a face is selected and the engine answers
`srIncompatibleGeometry`. -/
theorem newSketch_mapping_failure_witness :
    demoHostFace.hasSelection = true ∧ demoHostFace.support.getSubValues ≠ []
      ∧ ∃ so, SuggestAutoMapMode demoHostFace = some so
          ∧ CmdSketcherNewSketch.activated demoHostFace =
              { trace := [Gui.Event.warning "Sketch mapping"
                  ("Can't map the sketch to selected object. " ++ so.msg_str ++ ".")]
                outcome := .returned, created := [] }
          ∧ CmdSketcherNewSketch.activated demoHostFace =
              { trace := [Gui.Event.warning "Sketch mapping"
                  "Can't map the sketch to selected object. Face is non-planar."]
                outcome := .returned, created := [] } :=
  ⟨by decide, by decide,
   ((newSketch_mapping_failure demoHostFace (by decide) (by decide)).1
      (by decide) (by decide)).imp
     (fun _ hso => ⟨hso.1, hso.2.2.2.2, by decide⟩)⟩

theorem attachedPath_any (h : Host) (m : Attacher.eMapMode) (pre : List Gui.Event) :
    (pre ++ attachedPath h m).any isSupport = true
      ∧ (pre ++ attachedPath h m).any isAddObject = true := by
  unfold attachedPath
  simp only [List.any_append, List.any_cons, List.any_nil]
  constructor
  · have : isSupport (Gui.Event.doCommand .Gui
        (.Support (h.getUniqueObjectName "Sketch" 0) h.support.getPyReprString)) = true := rfl
    simp [this]
  · have : isAddObject (Gui.Event.doCommand .Doc
        (.addObject (h.getUniqueObjectName "Sketch" 0))) = true := rfl
    simp [this]

theorem orientationPath_any (h : Host) :
    (orientationPath h).any isSupport = false ∧ (orientationPath h).any isAddObject = true := by
  constructor <;> rfl

theorem newSketchCreate_attached (h : Host) (pre : List Gui.Event) (m : Attacher.eMapMode)
    (hret : (newSketchCreate h pre true m).outcome = .returned) :
    (newSketchCreate h pre true m).trace = pre ++ attachedPath h m := by
  unfold newSketchCreate at hret ⊢
  simp only [if_true] at hret ⊢
  split
  · rfl
  · rename_i hc
    rw [if_neg hc] at hret
    exact Outcome.noConfusion hret

theorem newSketchCreate_unattached (h : Host) (pre : List Gui.Event) (m : Attacher.eMapMode)
    (hpre : pre.any isAddObject = false)
    (hnew : (newSketchCreate h pre false m).trace.any isAddObject = true) :
    (newSketchCreate h pre false m).trace = pre ++ orientationPath h := by
  unfold newSketchCreate at hnew ⊢
  simp only [Bool.false_eq_true, if_false] at hnew ⊢
  split
  · rename_i hc
    rw [if_pos hc] at hnew
    simp only [List.any_append, hpre, Bool.false_or] at hnew
    exact Bool.noConfusion hnew
  · rfl

end SketcherGui

namespace SketcherGui

open Sketcher

/-- A run of `CmdSketcherNewSketch` that returns having created a sketch took
the attached path exactly when the condition of the claim holds, and the
orientation path otherwise. -/
theorem newSketch_classify (h : Host)
    (hret : (CmdSketcherNewSketch.activated h).outcome = .returned)
    (hnew : (CmdSketcherNewSketch.activated h).trace.any isAddObject = true) :
    (attachCondition h ∧ ∃ pre m,
        (pre = [] ∨ pre = [newSketchDialogEvent h h.sugr.bestFitMode h.sugr.allApplicableModes])
          ∧ (h.sugr.allApplicableModes.length ≤ 1 → pre = [] ∧ m = h.sugr.bestFitMode)
          ∧ (CmdSketcherNewSketch.activated h).trace = pre ++ attachedPath h m)
      ∨ (¬ attachCondition h ∧ ∃ pre,
          (pre = [] ∨ pre = [newSketchDialogEvent h h.sugr.bestFitMode h.sugr.allApplicableModes])
            ∧ (CmdSketcherNewSketch.activated h).trace = pre ++ orientationPath h) := by
  cases hsel : h.hasSelection with
  | false =>
    have hrun : CmdSketcherNewSketch.activated h = newSketchCreate h [] false h.mmDeactivated := by
      simp [CmdSketcherNewSketch.activated, hsel]
    rw [hrun] at hnew ⊢
    refine Or.inr ⟨by simp [attachCondition, hsel], [], Or.inl rfl, ?_⟩
    exact newSketchCreate_unattached h [] _ rfl hnew
  | true =>
    cases hso : SuggestAutoMapMode h with
    | none =>
      simp [CmdSketcherNewSketch.activated, hsel, hso] at hnew
    | some so =>
      obtain ⟨bf, msg, str, am⟩ := so
      obtain ⟨hm, ha, hb⟩ := SuggestAutoMapMode_fields h _ hso
      simp only at hm ha hb
      subst hm ha hb
      by_cases hw : h.sugr.message ≠ .srOK ∧ h.sugr.message ≠ .srNoModesFit
      · simp [CmdSketcherNewSketch.activated, hsel, hso, hw, isAddObject, scriptOf] at hnew
      · by_cases hl : h.sugr.allApplicableModes.length > 1
        · have hev : [newSketchDialogEvent h h.sugr.bestFitMode
              h.sugr.allApplicableModes].any isAddObject = false := rfl
          by_cases hok : (newSketchReply h h.sugr.bestFitMode h.sugr.allApplicableModes).ok
              = false
          · simp [CmdSketcherNewSketch.activated, hsel, hso, hw, hl, hok, hev] at hnew
          · by_cases hidx : Gui.indexOf
                (newSketchDialog h h.sugr.bestFitMode h.sugr.allApplicableModes).1
                (newSketchReply h h.sugr.bestFitMode h.sugr.allApplicableModes).text = 0
            · have hrun : CmdSketcherNewSketch.activated h = newSketchCreate h
                  [newSketchDialogEvent h h.sugr.bestFitMode h.sugr.allApplicableModes]
                  false h.mmDeactivated := by
                simp [CmdSketcherNewSketch.activated, hsel, hso, hw, hl, hok, hidx]
              rw [hrun] at hnew ⊢
              refine Or.inr ⟨?_, _, Or.inr rfl, newSketchCreate_unattached h _ _ hev hnew⟩
              intro hc
              rcases hc.2 with hc1 | hc1
              · omega
              · exact hc1.2 hidx
            · cases hmode : modeAt (h.mmDeactivated :: h.sugr.allApplicableModes)
                  (Gui.indexOf
                    (newSketchDialog h h.sugr.bestFitMode h.sugr.allApplicableModes).1
                    (newSketchReply h h.sugr.bestFitMode h.sugr.allApplicableModes).text - 1)
                with
              | none =>
                simp [CmdSketcherNewSketch.activated, hsel, hso, hw, hl, hok, hidx, hmode,
                  hev] at hnew
              | some m =>
                have hrun : CmdSketcherNewSketch.activated h = newSketchCreate h
                    [newSketchDialogEvent h h.sugr.bestFitMode h.sugr.allApplicableModes]
                    true m := by
                  simp [CmdSketcherNewSketch.activated, hsel, hso, hw, hl, hok, hidx, hmode]
                rw [hrun] at hret ⊢
                refine Or.inl ⟨⟨hsel, Or.inr ⟨hl, hidx⟩⟩, _, m, Or.inr rfl, ?_,
                  newSketchCreate_attached h _ m hret⟩
                intro hle
                omega
        · have hrun : CmdSketcherNewSketch.activated h = newSketchCreate h []
              (decide (h.sugr.message = .srOK)) h.sugr.bestFitMode := by
            simp only [CmdSketcherNewSketch.activated, hsel, hso, hw, hl, if_true, if_false]
          rw [hrun] at hret hnew ⊢
          by_cases hmsg : h.sugr.message = .srOK
          · simp only [hmsg, decide_True] at hret hnew ⊢
            exact Or.inl ⟨⟨hsel, Or.inl ⟨by omega, hmsg⟩⟩, [], _, Or.inl rfl,
              fun _ => ⟨rfl, rfl⟩, newSketchCreate_attached h _ _ hret⟩
          · simp only [hmsg, decide_False] at hret hnew ⊢
            refine Or.inr ⟨?_, [], Or.inl rfl, newSketchCreate_unattached h [] _ rfl hnew⟩
            intro hc
            rcases hc.2 with hc1 | hc1
            · exact hmsg hc1.2
            · exact hl hc1.1

end SketcherGui

namespace SketcherGui

open Sketcher

end SketcherGui

namespace SketcherGui

open Sketcher

theorem mirrorCommands_filter (h : Host) :
    ∀ (sel : List Gui.TypedSelectionObject) (n : Nat),
      ((mirrorCommands h n sel).filter isAddObject).length = sel.length
        ∧ (mirrorCommands h n sel).filter isRecompute = []
        ∧ (mirrorCommands h n sel).length = 2 * sel.length := by
  intro sel
  induction sel with
  | nil => intro n; simp [mirrorCommands]
  | cons it rest ih =>
    intro n
    obtain ⟨h1, h2, h3⟩ := ih (n + 1)
    have ha : isAddObject (Gui.Event.doCommand .Doc
        (.addObject (h.getUniqueObjectName "MirroredSketch" n))) = true := rfl
    have hp : isAddObject (Gui.Event.doCommand .Doc
        (.Placement (h.getUniqueObjectName "MirroredSketch" n)
          it.getObject.sketch.Placement.getPosition
          it.getObject.sketch.Placement.getRotation)) = false := rfl
    have ha2 : isRecompute (Gui.Event.doCommand .Doc
        (.addObject (h.getUniqueObjectName "MirroredSketch" n))) = false := rfl
    have hp2 : isRecompute (Gui.Event.doCommand .Doc
        (.Placement (h.getUniqueObjectName "MirroredSketch" n)
          it.getObject.sketch.Placement.getPosition
          it.getObject.sketch.Placement.getRotation)) = false := rfl
    refine ⟨?_, ?_, ?_⟩
    · simp [mirrorCommands, List.filter_cons, ha, hp, h1]
    · simp [mirrorCommands, List.filter_cons, ha2, hp2, h2]
    · simp only [mirrorCommands, List.length_cons, h3]
      omega

theorem mirrorCommands_get (h : Host) :
    ∀ (sel : List Gui.TypedSelectionObject) (n i : Nat) (it : Gui.TypedSelectionObject),
      sel[i]? = some it →
      (mirrorCommands h n sel)[2 * i]? = some (Gui.Event.doCommand .Doc
          (.addObject (h.getUniqueObjectName "MirroredSketch" (n + i))))
        ∧ (mirrorCommands h n sel)[2 * i + 1]? = some (Gui.Event.doCommand .Doc
          (.Placement (h.getUniqueObjectName "MirroredSketch" (n + i))
            it.getObject.sketch.Placement.getPosition
            it.getObject.sketch.Placement.getRotation)) := by
  intro sel
  induction sel with
  | nil => intro n i it hi; simp at hi
  | cons x rest ih =>
    intro n i it hi
    cases i with
    | zero =>
      simp only [List.getElem?_cons_zero, Option.some.injEq] at hi
      subst hi
      simp [mirrorCommands]
    | succ i =>
      simp only [List.getElem?_cons_succ] at hi
      obtain ⟨h1, h2⟩ := ih (n + 1) i it hi
      have e1 : 2 * (i + 1) = (2 * i) + 1 + 1 := by omega
      have e3 : n + (i + 1) = n + 1 + i := by omega
      rw [e1, e3]
      simp only [mirrorCommands, List.getElem?_cons_succ]
      exact ⟨h1, h2⟩

/-- C8: on a non-empty selection of sketches, with the mirror dialog accepted,
`CmdSketcherMirrorSketch` returns; its calls are the dialog, the transaction,
then for each selected sketch in selection order an `addObject` immediately
followed by a `Placement` of the new object with the position and rotation of
that sketch, then one recompute.  So there are exactly as many `addObject`
commands as selected sketches and a single recompute, the last call. -/
theorem mirrorSketch_one_per_selected (h : Host) (doc : App.Document)
    (hsel : h.sketchSelection ≠ []) (hacc : h.mirrorDialog.accepted = true)
    (hdoc : h.activeDocument = some doc) :
    (CmdSketcherMirrorSketch.activated h).outcome = .returned
      ∧ (CmdSketcherMirrorSketch.activated h).trace
          = [Gui.Event.execSketchMirrorDialog,
              Gui.Event.openCommand "Create a mirrored sketch for each selected sketch"]
            ++ mirrorCommands h 0 h.sketchSelection
            ++ [Gui.Event.doCommand .Gui .recompute]
      ∧ ((CmdSketcherMirrorSketch.activated h).trace.filter isAddObject).length
          = h.sketchSelection.length
      ∧ (∀ (i : Nat) (it : Gui.TypedSelectionObject), h.sketchSelection[i]? = some it →
          (CmdSketcherMirrorSketch.activated h).trace[2 + 2 * i]?
              = some (Gui.Event.doCommand .Doc
                  (.addObject (h.getUniqueObjectName "MirroredSketch" i)))
            ∧ (CmdSketcherMirrorSketch.activated h).trace[2 + 2 * i + 1]?
              = some (Gui.Event.doCommand .Doc
                  (.Placement (h.getUniqueObjectName "MirroredSketch" i)
                    it.getObject.sketch.Placement.getPosition
                    it.getObject.sketch.Placement.getRotation)))
      ∧ (CmdSketcherMirrorSketch.activated h).trace.filter isRecompute
          = [Gui.Event.doCommand .Gui .recompute]
      ∧ (CmdSketcherMirrorSketch.activated h).trace.getLast?
          = some (Gui.Event.doCommand .Gui .recompute) := by
  obtain ⟨hout, htr⟩ := mirrorSketch_run h doc hsel hacc hdoc
  obtain ⟨hf1, hf2, hlen⟩ := mirrorCommands_filter h h.sketchSelection 0
  refine ⟨hout, htr, ?_, ?_, ?_, ?_⟩
  · rw [htr]
    simp [List.filter_append, hf1, isAddObject, scriptOf]
  · intro i it hi
    obtain ⟨h1, h2⟩ := mirrorCommands_get h h.sketchSelection 0 i it hi
    have hlt : i < h.sketchSelection.length := by
      by_contra hcon
      rw [List.getElem?_eq_none (by omega)] at hi
      exact Option.noConfusion hi
    rw [htr, List.append_assoc]
    have e1 : 2 + 2 * i = (2 * i) + 1 + 1 := by omega
    rw [e1]
    simp only [List.cons_append, List.nil_append, List.getElem?_cons_succ]
    rw [List.getElem?_append_left (by omega), List.getElem?_append_left (by omega)]
    rw [Nat.zero_add] at h1 h2
    exact ⟨h1, h2⟩
  · rw [htr]
    simp [List.filter_append, hf2, isRecompute, scriptOf]
  · rw [htr, List.getLast?_append]
    rfl

/-- C8 at a host where `Sketch`, `Box` and `Sketch001` are selected: two new
sketches, each placed as its source, and one recompute. -/
theorem mirrorSketch_one_per_selected_witness :
    demoHostTwoSketches.sketchSelection.length = 2
      ∧ (CmdSketcherMirrorSketch.activated demoHostTwoSketches).outcome = .returned
      ∧ ((CmdSketcherMirrorSketch.activated demoHostTwoSketches).trace.filter
          isAddObject).length = 2
      ∧ (CmdSketcherMirrorSketch.activated demoHostTwoSketches).trace.length = 7 :=
  ⟨by decide,
   (mirrorSketch_one_per_selected demoHostTwoSketches demoDocument (by decide) rfl rfl).1,
   (mirrorSketch_one_per_selected demoHostTwoSketches demoDocument (by decide) rfl rfl).2.2.1,
   by decide⟩

end SketcherGui

namespace SketcherGui

open Sketcher

/-- C9: on two or more selected sketches (and an active document)
`CmdSketcherMergeSketches` returns after four calls: the transaction, one
`addObject`, the `Placement` command that copies the placement of the first
selected sketch, and one recompute; the one created sketch is the merged
sketch of the loop. -/
theorem mergeSketches_first_placement (h : Host) (doc : App.Document)
    (hsel : 2 ≤ h.sketchSelection.length) (hdoc : h.activeDocument = some doc) :
    ∃ front st, h.sketchSelection.head? = some front
      ∧ mergeSketches h.geoEnum (h.sketchSelection.map (fun it => it.getObject.sketch)) = some st
      ∧ CmdSketcherMergeSketches.activated h =
          { trace := [Gui.Event.openCommand "Merge sketches",
              Gui.Event.doCommand .Doc (.addObject (h.getUniqueObjectName "Sketch" 0)),
              Gui.Event.doCommand .Doc (.PlacementOf front.FeatName),
              Gui.Event.doCommand .Doc .recompute]
            outcome := .returned
            created := [(h.getUniqueObjectName "Sketch" 0, st.mergesketch)] }
      ∧ (CmdSketcherMergeSketches.activated h).trace.filter isAddObject
          = [Gui.Event.doCommand .Doc (.addObject (h.getUniqueObjectName "Sketch" 0))]
      ∧ (CmdSketcherMergeSketches.activated h).trace.filter isPlacement
          = [Gui.Event.doCommand .Doc (.PlacementOf front.FeatName)]
      ∧ (CmdSketcherMergeSketches.activated h).trace.filter isRecompute
          = [Gui.Event.doCommand .Doc .recompute] := by
  cases hl : h.sketchSelection with
  | nil => simp [hl] at hsel
  | cons front rest =>
    cases rest with
    | nil => simp [hl] at hsel
    | cons second rest =>
      obtain ⟨st, hst, hrun⟩ := mergeSketches_run h doc front second rest hl hdoc
      rw [hl] at hst
      refine ⟨front, st, rfl, hst, hrun, ?_, ?_, ?_⟩ <;> (rw [hrun]; rfl)

/-- C9 at a host where `Sketch`, `Box` and `Sketch001` are selected: the new
sketch takes the placement of `Sketch`. -/
theorem mergeSketches_first_placement_witness :
    2 ≤ demoHostTwoSketches.sketchSelection.length
      ∧ demoHostTwoSketches.activeDocument = some demoDocument
      ∧ ∃ front, demoHostTwoSketches.sketchSelection.head? = some front
          ∧ front.FeatName = "Sketch"
          ∧ (CmdSketcherMergeSketches.activated demoHostTwoSketches).trace.filter isPlacement
              = [Gui.Event.doCommand .Doc (.PlacementOf front.FeatName)] :=
  ⟨by decide, rfl,
   (mergeSketches_first_placement demoHostTwoSketches demoDocument (by decide) rfl).elim
     (fun front hf => hf.elim (fun _ hst =>
       ⟨front, hst.1, by
          have h1 := hst.1
          rw [show demoHostTwoSketches.sketchSelection.head?
            = some { FeatName := "Sketch", getObject := demoSketchA } from by decide] at h1
          injection h1 with h1
          rw [← h1], hst.2.2.2.2.1⟩))⟩

theorem recomputeFollows_quiet :
    ∀ l : List Gui.Event, (∀ e ∈ l, isMutation e = false ∧ isRecompute e = false) →
      recomputeFollows l = true ∧ l.any isRecompute = false ∧ l.any isSupport = false := by
  intro l
  induction l with
  | nil => intro _; exact ⟨rfl, rfl, rfl⟩
  | cons x l ih =>
    intro hq
    obtain ⟨h1, h2, h3⟩ := ih (fun e he => hq e (List.mem_cons_of_mem _ he))
    obtain ⟨hx1, hx2⟩ := hq x (List.mem_cons_self _ _)
    have hx3 : isSupport x = false := by
      simp only [isMutation, Bool.or_eq_false_iff] at hx1
      exact hx1.2
    simp [recomputeFollows, hx1, hx2, hx3, h1, h2, h3]

theorem recomputeFollows_append_recompute (e : Gui.Event) (he : isRecompute e = true)
    (hm : isMutation e = false) :
    ∀ l : List Gui.Event, recomputeFollows (l ++ [e]) = true := by
  intro l
  induction l with
  | nil => simp [recomputeFollows, hm]
  | cons x l ih =>
    have hany : (l ++ [e]).any isRecompute = true := by simp [he]
    show ((!isMutation x || (l ++ [e]).any isRecompute) && recomputeFollows (l ++ [e])) = true
    rw [hany, ih]
    simp

theorem recomputeFollows_append_quiet (pre : List Gui.Event)
    (hq : ∀ e ∈ pre, isMutation e = false ∧ isRecompute e = false) :
    ∀ l : List Gui.Event, recomputeFollows (pre ++ l) = recomputeFollows l := by
  induction pre with
  | nil => intro l; rfl
  | cons x pre ih =>
    intro l
    have hx := (hq x (List.mem_cons_self _ _)).1
    simp only [List.cons_append, recomputeFollows, hx, Bool.not_false, Bool.true_or,
      Bool.true_and]
    exact ih (fun e he => hq e (List.mem_cons_of_mem _ he)) l

theorem recomputeFollows_append_mutation (e : Gui.Event) (hm : isMutation e = true) :
    ∀ l : List Gui.Event, recomputeFollows (l ++ [e]) = false := by
  intro l
  induction l with
  | nil => simp [recomputeFollows, hm]
  | cons x l ih =>
    show ((!isMutation x || (l ++ [e]).any isRecompute) && recomputeFollows (l ++ [e])) = false
    rw [ih]
    simp

theorem any_isMutation_quiet (l : List Gui.Event)
    (hq : ∀ e ∈ l, isMutation e = false ∧ isRecompute e = false) :
    l.any isMutation = false := by
  cases hany : l.any isMutation with
  | false => rfl
  | true =>
    obtain ⟨e, he, hm⟩ := List.any_eq_true.mp hany
    rw [(hq e he).1] at hm
    exact Bool.noConfusion hm

theorem any_isSupport_isMutation (l : List Gui.Event) (hs : l.any isSupport = true) :
    l.any isMutation = true := by
  obtain ⟨e, he, hm⟩ := List.any_eq_true.mp hs
  exact List.any_eq_true.mpr ⟨e, he, by simp [isMutation, hm]⟩

/-- Lines 212-219 of the attached path: each mutation command is followed by
the recompute of line 218. -/
theorem attachedPath_core_recompute (h : Host) (m : Attacher.eMapMode) :
    recomputeFollows
      ([Gui.Event.openCommand "Create a new sketch on a face",
        Gui.Event.doCommand .Doc (.addObject (h.getUniqueObjectName "Sketch" 0))]
      ++ (if m < h.mmDummy_NumberOfModes then
            [Gui.Event.doCommand .Gui
              (.MapMode (h.getUniqueObjectName "Sketch" 0) (h.getModeName m))]
          else [])
      ++ [Gui.Event.doCommand .Gui
            (.Support (h.getUniqueObjectName "Sketch" 0) h.support.getPyReprString),
          Gui.Event.doCommand .Gui .recompute,
          Gui.Event.doCommand .Gui (.setEdit (h.getUniqueObjectName "Sketch" 0))]) = true := by
  by_cases hlt : m < h.mmDummy_NumberOfModes
  · simp only [hlt, if_true]; rfl
  · simp only [hlt, if_false]; rfl

/-- The attached path when the support object has no group. -/
theorem attachedPath_no_group (h : Host) (m : Attacher.eMapMode)
    (hng : ∀ part grp, h.support.getValue = some part → part.Group ≠ some grp) :
    attachedPath h m =
      [Gui.Event.openCommand "Create a new sketch on a face",
        Gui.Event.doCommand .Doc (.addObject (h.getUniqueObjectName "Sketch" 0))]
      ++ (if m < h.mmDummy_NumberOfModes then
            [Gui.Event.doCommand .Gui
              (.MapMode (h.getUniqueObjectName "Sketch" 0) (h.getModeName m))]
          else [])
      ++ [Gui.Event.doCommand .Gui
            (.Support (h.getUniqueObjectName "Sketch" 0) h.support.getPyReprString),
          Gui.Event.doCommand .Gui .recompute,
          Gui.Event.doCommand .Gui (.setEdit (h.getUniqueObjectName "Sketch" 0))] := by
  unfold attachedPath
  cases hv : h.support.getValue with
  | none => simp only [List.append_nil]
  | some part =>
    cases hg : part.Group with
    | none => simp only [hg, List.append_nil]
    | some grp => exact absurd hg (hng part grp hv)

/-- The attached path when the support object belongs to the group `grp`. -/
theorem attachedPath_grouped (h : Host) (m : Attacher.eMapMode) (part : App.DocumentObject)
    (grp : String) (hv : h.support.getValue = some part) (hg : part.Group = some grp) :
    attachedPath h m =
      ([Gui.Event.openCommand "Create a new sketch on a face",
        Gui.Event.doCommand .Doc (.addObject (h.getUniqueObjectName "Sketch" 0))]
      ++ (if m < h.mmDummy_NumberOfModes then
            [Gui.Event.doCommand .Gui
              (.MapMode (h.getUniqueObjectName "Sketch" 0) (h.getModeName m))]
          else [])
      ++ [Gui.Event.doCommand .Gui
            (.Support (h.getUniqueObjectName "Sketch" 0) h.support.getPyReprString),
          Gui.Event.doCommand .Gui .recompute,
          Gui.Event.doCommand .Gui (.setEdit (h.getUniqueObjectName "Sketch" 0))])
      ++ [Gui.Event.doCommand .Doc (.groupAddObject grp (h.getUniqueObjectName "Sketch" 0))] := by
  unfold attachedPath
  simp only [hv, hg]

end SketcherGui

namespace SketcherGui

open Sketcher

/-- The four shapes a run of `newSketchCreate` has. -/
theorem newSketchCreate_shape (h : Host) (pre : List Gui.Event) (b : Bool)
    (m : Attacher.eMapMode)
    (hq : ∀ e ∈ pre, isMutation e = false ∧ isRecompute e = false) :
    (∀ e ∈ (newSketchCreate h pre b m).trace, isMutation e = false ∧ isRecompute e = false)
      ∨ ((newSketchCreate h pre b m).trace = pre ++ attachedPath h m)
      ∨ ((newSketchCreate h pre b m).trace = pre ++ orientationPath h)
      ∨ ((newSketchCreate h pre b m).outcome = .aborted
          ∧ (newSketchCreate h pre b m).trace.any isRecompute = false) := by
  unfold newSketchCreate
  split
  · split
    · exact Or.inr (Or.inl rfl)
    · refine Or.inr (Or.inr (Or.inr ⟨rfl, ?_⟩))
      simp only [List.any_append, (recomputeFollows_quiet pre hq).2.1, Bool.false_or]
      rfl
  · split
    · left
      intro e he
      simp only [List.mem_append, List.mem_singleton] at he
      rcases he with he | rfl
      · exact hq e he
      · exact ⟨rfl, rfl⟩
    · exact Or.inr (Or.inr (Or.inl rfl))

/-- The four shapes a run of `CmdSketcherNewSketch` has. -/
theorem newSketch_shape (h : Host) :
    (∀ e ∈ (CmdSketcherNewSketch.activated h).trace,
        isMutation e = false ∧ isRecompute e = false)
      ∨ (∃ pre m, (∀ e ∈ pre, isMutation e = false ∧ isRecompute e = false)
          ∧ (CmdSketcherNewSketch.activated h).trace = pre ++ attachedPath h m)
      ∨ (∃ pre, (∀ e ∈ pre, isMutation e = false ∧ isRecompute e = false)
          ∧ (CmdSketcherNewSketch.activated h).trace = pre ++ orientationPath h)
      ∨ ((CmdSketcherNewSketch.activated h).outcome = .aborted
          ∧ (CmdSketcherNewSketch.activated h).trace.any isRecompute = false) := by
  have lift : ∀ (pre : List Gui.Event) (b : Bool) (m : Attacher.eMapMode),
      (∀ e ∈ pre, isMutation e = false ∧ isRecompute e = false) →
      CmdSketcherNewSketch.activated h = newSketchCreate h pre b m →
      (∀ e ∈ (CmdSketcherNewSketch.activated h).trace,
          isMutation e = false ∧ isRecompute e = false)
        ∨ (∃ pre m, (∀ e ∈ pre, isMutation e = false ∧ isRecompute e = false)
            ∧ (CmdSketcherNewSketch.activated h).trace = pre ++ attachedPath h m)
        ∨ (∃ pre, (∀ e ∈ pre, isMutation e = false ∧ isRecompute e = false)
            ∧ (CmdSketcherNewSketch.activated h).trace = pre ++ orientationPath h)
        ∨ ((CmdSketcherNewSketch.activated h).outcome = .aborted
            ∧ (CmdSketcherNewSketch.activated h).trace.any isRecompute = false) := by
    intro pre b m hq hrun
    rw [hrun]
    rcases newSketchCreate_shape h pre b m hq with h1 | h1 | h1 | h1
    · exact Or.inl h1
    · exact Or.inr (Or.inl ⟨pre, m, hq, h1⟩)
    · exact Or.inr (Or.inr (Or.inl ⟨pre, hq, h1⟩))
    · exact Or.inr (Or.inr (Or.inr h1))
  have quiet1 : ∀ x : Gui.Event, isMutation x = false → isRecompute x = false →
      ∀ e ∈ [x], isMutation e = false ∧ isRecompute e = false := by
    intro x h1 h2 e he
    simp only [List.mem_singleton] at he
    subst he
    exact ⟨h1, h2⟩
  have hevq := quiet1 (newSketchDialogEvent h h.sugr.bestFitMode h.sugr.allApplicableModes)
    rfl rfl
  cases hsel : h.hasSelection with
  | false =>
    exact lift [] false h.mmDeactivated (by intro e he; simp at he)
      (by simp [CmdSketcherNewSketch.activated, hsel])
  | true =>
    cases hso : SuggestAutoMapMode h with
    | none =>
      left
      simp [CmdSketcherNewSketch.activated, hsel, hso]
    | some so =>
      obtain ⟨bf, msg, str, am⟩ := so
      obtain ⟨hm, ha, hb⟩ := SuggestAutoMapMode_fields h _ hso
      simp only at hm ha hb
      subst hm ha hb
      by_cases hw : h.sugr.message ≠ .srOK ∧ h.sugr.message ≠ .srNoModesFit
      · left
        have hrun : CmdSketcherNewSketch.activated h =
            { trace := [Gui.Event.warning "Sketch mapping"
                ("Can't map the sketch to selected object. " ++ str ++ ".")],
              outcome := .returned } := by
          simp [CmdSketcherNewSketch.activated, hsel, hso, hw]
        rw [hrun]
        exact quiet1 (Gui.Event.warning "Sketch mapping"
          ("Can't map the sketch to selected object. " ++ str ++ ".")) rfl rfl
      · by_cases hl : h.sugr.allApplicableModes.length > 1
        · by_cases hok : (newSketchReply h h.sugr.bestFitMode h.sugr.allApplicableModes).ok
              = false
          · left
            simp only [CmdSketcherNewSketch.activated, hsel, hso, hw, hl, hok, if_true,
              if_false]
            exact hevq
          · by_cases hidx : Gui.indexOf
                (newSketchDialog h h.sugr.bestFitMode h.sugr.allApplicableModes).1
                (newSketchReply h h.sugr.bestFitMode h.sugr.allApplicableModes).text = 0
            · exact lift _ false h.mmDeactivated hevq
                (by simp [CmdSketcherNewSketch.activated, hsel, hso, hw, hl, hok, hidx])
            · cases hmode : modeAt (h.mmDeactivated :: h.sugr.allApplicableModes)
                  (Gui.indexOf
                    (newSketchDialog h h.sugr.bestFitMode h.sugr.allApplicableModes).1
                    (newSketchReply h h.sugr.bestFitMode h.sugr.allApplicableModes).text - 1)
                with
              | none =>
                left
                have hrun : CmdSketcherNewSketch.activated h =
                    { trace := [newSketchDialogEvent h h.sugr.bestFitMode
                        h.sugr.allApplicableModes], outcome := .undefined } := by
                  simp [CmdSketcherNewSketch.activated, hsel, hso, hw, hl, hok, hidx, hmode]
                rw [hrun]
                exact hevq
              | some m =>
                exact lift _ true m hevq
                  (by simp [CmdSketcherNewSketch.activated, hsel, hso, hw, hl, hok, hidx,
                    hmode])
        · exact lift [] (decide (h.sugr.message = .srOK)) h.sugr.bestFitMode
            (by intro e he; simp at he)
            (by simp only [CmdSketcherNewSketch.activated, hsel, hso, hw, hl, if_true,
              if_false])

end SketcherGui

namespace SketcherGui

open Sketcher

theorem append_six_last (pre : List Gui.Event) (a b c d e f : Gui.Event) :
    pre ++ [a, b, c, d, e, f] = (pre ++ [a, b, c, d, e]) ++ [f] := by
  simp

theorem mapSketchAttach_shape (h : Host) (so : SuggestOut) (pre : List Gui.Event)
    (sketch : App.DocumentObject)
    (hq : ∀ e ∈ pre, isMutation e = false ∧ isRecompute e = false) :
    (∀ e ∈ (mapSketchAttach h so pre sketch).trace, isMutation e = false ∧ isRecompute e = false)
      ∨ ((mapSketchAttach h so pre sketch).outcome = .returned
          ∧ ∃ l, (mapSketchAttach h so pre sketch).trace
              = l ++ [Gui.Event.doCommand .Gui .recompute]) := by
  have hquiet : ∀ x : Gui.Event, isMutation x = false → isRecompute x = false →
      ∀ e ∈ pre ++ [x], isMutation e = false ∧ isRecompute e = false := by
    intro x h1 h2 e he
    simp only [List.mem_append, List.mem_singleton] at he
    rcases he with he | rfl
    · exact hq e he
    · exact ⟨h1, h2⟩
  unfold mapSketchAttach
  simp only
  split
  · exact Or.inl (hquiet _ rfl rfl)
  · split
    · exact Or.inr ⟨rfl, _, append_six_last pre _ _ _ _ _ _⟩
    · split
      · exact Or.inl (hquiet _ rfl rfl)
      · exact Or.inr ⟨rfl, _, append_six_last pre _ _ _ _ _ _⟩

theorem mapSketchTry_shape (h : Host) (so : SuggestOut) :
    (∀ e ∈ (mapSketchTry h so).trace, isMutation e = false ∧ isRecompute e = false)
      ∨ ((mapSketchTry h so).outcome = .returned
          ∧ ∃ l, (mapSketchTry h so).trace = l ++ [Gui.Event.doCommand .Gui .recompute]) := by
  have quiet1 : ∀ x : Gui.Event, isMutation x = false → isRecompute x = false →
      ∀ e ∈ [x], isMutation e = false ∧ isRecompute e = false := by
    intro x h1 h2 e he
    simp only [List.mem_singleton] at he
    subst he
    exact ⟨h1, h2⟩
  unfold mapSketchTry
  split
  · left; intro e he; simp at he
  · simp only
    split
    · exact Or.inl (quiet1 _ rfl rfl)
    · split
      · exact Or.inl (quiet1 _ rfl rfl)
      · split
        · exact Or.inl (quiet1 _ rfl rfl)
        · split
          · exact Or.inl (quiet1 _ rfl rfl)
          · exact mapSketchAttach_shape h so _ _ (quiet1 _ rfl rfl)

theorem mapSketch_recompute (h : Host) :
    recomputeFollows (CmdSketcherMapSketch.activated h).trace = true := by
  unfold CmdSketcherMapSketch.activated
  split
  · rfl
  · rename_i so _
    rcases mapSketchTry_shape h so with hq | ⟨hout, l, hl⟩
    · unfold catchWrongInput
      split
      · refine (recomputeFollows_quiet _ ?_).1
        intro e he
        simp only [List.mem_append, List.mem_singleton] at he
        rcases he with he | rfl
        · exact hq e he
        · exact ⟨rfl, rfl⟩
      · exact (recomputeFollows_quiet _ hq).1
    · unfold catchWrongInput
      rw [hout]
      simp only
      rw [hl]
      exact recomputeFollows_append_recompute (Gui.Event.doCommand .Gui .recompute) rfl rfl l

theorem mirrorSketch_recompute (h : Host)
    (hret : (CmdSketcherMirrorSketch.activated h).outcome = .returned) :
    recomputeFollows (CmdSketcherMirrorSketch.activated h).trace = true := by
  cases hl : h.sketchSelection with
  | nil => simp [CmdSketcherMirrorSketch.activated, hl]; rfl
  | cons a rest =>
    have hne : h.sketchSelection ≠ [] := by rw [hl]; exact List.cons_ne_nil _ _
    cases hacc : h.mirrorDialog.accepted with
    | false => simp [CmdSketcherMirrorSketch.activated, hl, hacc]; rfl
    | true =>
      cases hd : h.activeDocument with
      | none =>
        simp [CmdSketcherMirrorSketch.activated, hl, hacc, hd] at hret
      | some doc =>
        rw [(mirrorSketch_run h doc hne hacc hd).2]
        exact recomputeFollows_append_recompute (Gui.Event.doCommand .Gui .recompute) rfl rfl _

theorem mergeSketches_recompute (h : Host)
    (hret : (CmdSketcherMergeSketches.activated h).outcome = .returned) :
    recomputeFollows (CmdSketcherMergeSketches.activated h).trace = true := by
  by_cases hlt : h.sketchSelection.length < 2
  · simp [CmdSketcherMergeSketches.activated, hlt]; rfl
  · cases hd : h.activeDocument with
    | none => simp [CmdSketcherMergeSketches.activated, hlt, hd] at hret
    | some doc =>
      cases hl : h.sketchSelection with
      | nil => simp [hl] at hlt
      | cons front rest =>
        cases rest with
        | nil => simp [hl] at hlt
        | cons second rest =>
          obtain ⟨st, _, hrun⟩ := mergeSketches_run h doc front second rest hl hd
          rw [hrun]
          rfl

theorem reorientSketch_no_recompute (h : Host) :
    (CmdSketcherReorientSketch.activated h).trace.any isRecompute = false := by
  have hplace : ∀ (pre : List Gui.Event) (sketch : App.DocumentObject),
      pre.any isRecompute = false → (reorientPlace h pre sketch).trace.any isRecompute = false := by
    intro pre sketch hpre
    unfold reorientPlace
    simp only
    split
    · simp only [List.any_append, hpre, Bool.false_or]; rfl
    · simp only [List.any_append, hpre, Bool.false_or]; rfl
  unfold CmdSketcherReorientSketch.activated
  split
  · rfl
  · simp only
    split
    · split
      · rfl
      · exact hplace _ _ rfl
    · exact hplace _ _ rfl

end SketcherGui

namespace SketcherGui

open Sketcher

/-- A run of `CmdSketcherNewSketch` that returns having emitted a mutation
command has emitted the `addObject` of the new sketch. -/
theorem newSketch_mutation_addObject (h : Host)
    (hret : (CmdSketcherNewSketch.activated h).outcome = .returned)
    (hmut : (CmdSketcherNewSketch.activated h).trace.any isMutation = true) :
    (CmdSketcherNewSketch.activated h).trace.any isAddObject = true := by
  rcases newSketch_shape h with hq | ⟨pre, m, _, htr⟩ | ⟨pre, _, htr⟩ | ⟨hab, _⟩
  · rw [any_isMutation_quiet _ hq] at hmut
    exact Bool.noConfusion hmut
  · rw [htr]
    exact (attachedPath_any h m pre).2
  · rw [htr, List.any_append, (orientationPath_any h).2]
    simp
  · rw [hab] at hret
    exact Outcome.noConfusion hret

/-- A run of `CmdSketcherReorientSketch` that emits a mutation command is,
after the support question and the detachment if the sketch had a support,
the orientation dialog, the transaction, the `Placement` and `setEdit`. -/
theorem reorientSketch_shape (h : Host)
    (hmut : (CmdSketcherReorientSketch.activated h).trace.any isMutation = true) :
    ∃ front pre, h.sketchSelection.head? = some front
      ∧ (pre = [] ∨
          pre = [Gui.Event.question "Sketch has support"
              "Sketch with a support face cannot be reoriented.\nDo you want to detach it from the support?",
            Gui.Event.SupportSetNull front.getObject.id])
      ∧ (CmdSketcherReorientSketch.activated h).trace = pre ++
          [Gui.Event.execSketchOrientationDialog,
            Gui.Event.openCommand "Reorient sketch",
            Gui.Event.cmdAppObjectArgs (.Placement front.getObject.NameInDocument
              h.orientationDialog.Pos.getPosition h.orientationDialog.Pos.getRotation),
            Gui.Event.doCommand .Gui (.setEdit front.getObject.NameInDocument)]
      ∧ (CmdSketcherReorientSketch.activated h).outcome = .returned := by
  have hplace : ∀ (pre : List Gui.Event) (sketch : App.DocumentObject),
      pre.any isMutation = false →
      (reorientPlace h pre sketch).trace.any isMutation = true →
      (reorientPlace h pre sketch).trace = pre ++
          [Gui.Event.execSketchOrientationDialog,
            Gui.Event.openCommand "Reorient sketch",
            Gui.Event.cmdAppObjectArgs (.Placement sketch.NameInDocument
              h.orientationDialog.Pos.getPosition h.orientationDialog.Pos.getRotation),
            Gui.Event.doCommand .Gui (.setEdit sketch.NameInDocument)]
        ∧ (reorientPlace h pre sketch).outcome = .returned := by
    intro pre sketch hpre hm
    unfold reorientPlace at hm ⊢
    simp only at hm ⊢
    split
    · rename_i hacc
      rw [if_pos hacc] at hm
      simp only [List.any_append, hpre, Bool.false_or] at hm
      exact Bool.noConfusion hm
    · exact ⟨rfl, rfl⟩
  cases hsel : h.sketchSelection with
  | nil =>
    simp [CmdSketcherReorientSketch.activated, hsel] at hmut
  | cons front rest =>
    refine ⟨front, ?_⟩
    simp only [CmdSketcherReorientSketch.activated, hsel] at hmut ⊢
    by_cases hsup : front.getObject.Support = true
    · rw [if_pos hsup] at hmut ⊢
      by_cases hq : h.question = .No
      · rw [if_pos hq] at hmut
        exact Bool.noConfusion hmut
      · rw [if_neg hq] at hmut ⊢
        obtain ⟨h1, h2⟩ := hplace
          [Gui.Event.question "Sketch has support"
              "Sketch with a support face cannot be reoriented.\nDo you want to detach it from the support?",
            Gui.Event.SupportSetNull front.getObject.id] front.getObject rfl hmut
        exact ⟨_, rfl, Or.inr rfl, h1, h2⟩
    · rw [if_neg hsup] at hmut ⊢
      obtain ⟨h1, h2⟩ := hplace [] front.getObject rfl hmut
      exact ⟨[], rfl, Or.inl rfl, h1, h2⟩

end SketcherGui

namespace SketcherGui

open Sketcher

/-- C10 as stated fails on three paths.  With nothing selected and the
orientation dialog accepted `CmdSketcherNewSketch` emits `addObject`,
`Placement` and `MapMode` and then `setEdit`, with no recompute.
`CmdSketcherReorientSketch` on a selected sketch emits `Placement` and then
`setEdit`, with no recompute.  With a face of a solid selected that belongs to
a group, `CmdSketcherNewSketch` emits the recompute and then `setEdit` and the
`addObject` on the group, so its last mutation command has no recompute after
it. -/
theorem mutations_not_followed_by_recompute :
    (CmdSketcherNewSketch.activated demoHostOrient).outcome = .returned
      ∧ (CmdSketcherNewSketch.activated demoHostOrient).trace =
          [Gui.Event.execSketchOrientationDialog,
            Gui.Event.openCommand "Create a new sketch",
            Gui.Event.doCommand .Doc (.addObject "Sketch"),
            Gui.Event.doCommand .Doc (.Placement "Sketch"
              Base.Placement.identity.getPosition Base.Placement.identity.getRotation),
            Gui.Event.doCommand .Doc (.MapMode "Sketch" "Deactivated"),
            Gui.Event.doCommand .Gui (.setEdit "Sketch")]
      ∧ (CmdSketcherNewSketch.activated demoHostOrient).trace.any isMutation = true
      ∧ (CmdSketcherNewSketch.activated demoHostOrient).trace.any isRecompute = false
      ∧ recomputeFollows (CmdSketcherNewSketch.activated demoHostOrient).trace = false
      ∧ (CmdSketcherReorientSketch.activated demoHostReorient).outcome = .returned
      ∧ (CmdSketcherReorientSketch.activated demoHostReorient).trace =
          [Gui.Event.execSketchOrientationDialog,
            Gui.Event.openCommand "Reorient sketch",
            Gui.Event.cmdAppObjectArgs (.Placement "Sketch"
              Base.Placement.identity.getPosition Base.Placement.identity.getRotation),
            Gui.Event.doCommand .Gui (.setEdit "Sketch")]
      ∧ (CmdSketcherReorientSketch.activated demoHostReorient).trace.any isMutation = true
      ∧ (CmdSketcherReorientSketch.activated demoHostReorient).trace.any isRecompute = false
      ∧ recomputeFollows (CmdSketcherReorientSketch.activated demoHostReorient).trace = false
      ∧ (CmdSketcherNewSketch.activated demoHostGrouped).outcome = .returned
      ∧ (CmdSketcherNewSketch.activated demoHostGrouped).trace =
          [Gui.Event.openCommand "Create a new sketch on a face",
            Gui.Event.doCommand .Doc (.addObject "Sketch"),
            Gui.Event.doCommand .Gui (.MapMode "Sketch" "FlatFace"),
            Gui.Event.doCommand .Gui
              (.Support "Sketch" "[(App.getDocument('D').getObject('Box'),['Face1'])]"),
            Gui.Event.doCommand .Gui .recompute,
            Gui.Event.doCommand .Gui (.setEdit "Sketch"),
            Gui.Event.doCommand .Doc (.groupAddObject "Group" "Sketch")]
      ∧ recomputeFollows (CmdSketcherNewSketch.activated demoHostGrouped).trace = false := by
  decide

/-- C10, amended.  The mutation commands are `addObject` (on the document or
on a group), `Placement`, `MapMode` and `Support`.  In every run of
`CmdSketcherMapSketch`, and in every run of `CmdSketcherMirrorSketch` and of
`CmdSketcherMergeSketches` that returns, each mutation command has a recompute
command after it.  A run of `CmdSketcherNewSketch` that returns having
assigned a `Support` is, after the attachment dialog if it was shown, the
transaction, `addObject`, `MapMode` (when in range), `Support`, recompute and
`setEdit`, where each mutation command has the recompute after it, followed by
the `addObject` on the group of the support object when it has one: without a
group a recompute follows the last mutation command, with a group the
`addObject` on the group is the last command and no recompute follows it.  A
run of `CmdSketcherNewSketch` that returns having emitted a mutation command
and no `Support` is, after the attachment dialog if it was shown, the
orientation dialog, the transaction, `addObject`, `Placement`, `MapMode` of
`mmDeactivated` and `setEdit`, with no recompute.  A run of
`CmdSketcherReorientSketch` that emits a mutation command is, after the
support question and the detachment if the sketch had a support, the
orientation dialog, the transaction, `Placement` and `setEdit`; no run of it
emits a recompute. -/
theorem recompute_after_mutations (h : Host) :
    recomputeFollows (CmdSketcherMapSketch.activated h).trace = true
      ∧ ((CmdSketcherMirrorSketch.activated h).outcome = .returned →
          recomputeFollows (CmdSketcherMirrorSketch.activated h).trace = true)
      ∧ ((CmdSketcherMergeSketches.activated h).outcome = .returned →
          recomputeFollows (CmdSketcherMergeSketches.activated h).trace = true)
      ∧ ((CmdSketcherNewSketch.activated h).outcome = .returned →
          (CmdSketcherNewSketch.activated h).trace.any isSupport = true →
          ∃ pre m core,
            (pre = [] ∨
                pre = [newSketchDialogEvent h h.sugr.bestFitMode h.sugr.allApplicableModes])
            ∧ core =
                [Gui.Event.openCommand "Create a new sketch on a face",
                  Gui.Event.doCommand .Doc (.addObject (h.getUniqueObjectName "Sketch" 0))]
                ++ (if m < h.mmDummy_NumberOfModes then
                      [Gui.Event.doCommand .Gui
                        (.MapMode (h.getUniqueObjectName "Sketch" 0) (h.getModeName m))]
                    else [])
                ++ [Gui.Event.doCommand .Gui
                      (.Support (h.getUniqueObjectName "Sketch" 0) h.support.getPyReprString),
                    Gui.Event.doCommand .Gui .recompute,
                    Gui.Event.doCommand .Gui (.setEdit (h.getUniqueObjectName "Sketch" 0))]
            ∧ recomputeFollows (pre ++ core) = true
            ∧ ((∀ part grp, h.support.getValue = some part → part.Group ≠ some grp) →
                (CmdSketcherNewSketch.activated h).trace = pre ++ core
                  ∧ recomputeFollows (CmdSketcherNewSketch.activated h).trace = true)
            ∧ (∀ part grp, h.support.getValue = some part → part.Group = some grp →
                (CmdSketcherNewSketch.activated h).trace = pre ++ core ++
                    [Gui.Event.doCommand .Doc
                      (.groupAddObject grp (h.getUniqueObjectName "Sketch" 0))]
                  ∧ recomputeFollows (CmdSketcherNewSketch.activated h).trace = false))
      ∧ ((CmdSketcherNewSketch.activated h).outcome = .returned →
          (CmdSketcherNewSketch.activated h).trace.any isMutation = true →
          (CmdSketcherNewSketch.activated h).trace.any isSupport = false →
          ∃ pre,
            (pre = [] ∨
                pre = [newSketchDialogEvent h h.sugr.bestFitMode h.sugr.allApplicableModes])
            ∧ (CmdSketcherNewSketch.activated h).trace = pre ++
                [Gui.Event.execSketchOrientationDialog,
                  Gui.Event.openCommand "Create a new sketch",
                  Gui.Event.doCommand .Doc (.addObject (h.getUniqueObjectName "Sketch" 0)),
                  Gui.Event.doCommand .Doc (.Placement (h.getUniqueObjectName "Sketch" 0)
                    h.orientationDialog.Pos.getPosition h.orientationDialog.Pos.getRotation),
                  Gui.Event.doCommand .Doc (.MapMode (h.getUniqueObjectName "Sketch" 0)
                    (h.getModeName h.mmDeactivated)),
                  Gui.Event.doCommand .Gui (.setEdit (h.getUniqueObjectName "Sketch" 0))]
            ∧ (CmdSketcherNewSketch.activated h).trace.any isRecompute = false
            ∧ recomputeFollows (CmdSketcherNewSketch.activated h).trace = false)
      ∧ ((CmdSketcherReorientSketch.activated h).trace.any isMutation = true →
          ∃ front pre, h.sketchSelection.head? = some front
            ∧ (pre = [] ∨
                pre = [Gui.Event.question "Sketch has support"
                    "Sketch with a support face cannot be reoriented.\nDo you want to detach it from the support?",
                  Gui.Event.SupportSetNull front.getObject.id])
            ∧ (CmdSketcherReorientSketch.activated h).trace = pre ++
                [Gui.Event.execSketchOrientationDialog,
                  Gui.Event.openCommand "Reorient sketch",
                  Gui.Event.cmdAppObjectArgs (.Placement front.getObject.NameInDocument
                    h.orientationDialog.Pos.getPosition h.orientationDialog.Pos.getRotation),
                  Gui.Event.doCommand .Gui (.setEdit front.getObject.NameInDocument)]
            ∧ (CmdSketcherReorientSketch.activated h).outcome = .returned
            ∧ recomputeFollows (CmdSketcherReorientSketch.activated h).trace = false)
      ∧ (CmdSketcherReorientSketch.activated h).trace.any isRecompute = false := by
  have hpreq : ∀ pre : List Gui.Event,
      (pre = [] ∨
        pre = [newSketchDialogEvent h h.sugr.bestFitMode h.sugr.allApplicableModes]) →
      ∀ e ∈ pre, isMutation e = false ∧ isRecompute e = false := by
    intro pre hpre e he
    rcases hpre with rfl | rfl
    · simp at he
    · simp only [List.mem_singleton] at he
      subst he
      exact ⟨rfl, rfl⟩
  refine ⟨mapSketch_recompute h, mirrorSketch_recompute h, mergeSketches_recompute h, ?_, ?_,
    ?_, reorientSketch_no_recompute h⟩
  · intro hret hsup
    have hnew := newSketch_mutation_addObject h hret (any_isSupport_isMutation _ hsup)
    rcases newSketch_classify h hret hnew with ⟨_, pre, m, hpre, _, htr⟩ | ⟨_, pre, hpre, htr⟩
    · have hq := hpreq pre hpre
      refine ⟨pre, m, _, hpre, rfl, ?_, ?_, ?_⟩
      · rw [recomputeFollows_append_quiet pre hq]
        exact attachedPath_core_recompute h m
      · intro hng
        rw [htr, attachedPath_no_group h m hng]
        refine ⟨rfl, ?_⟩
        rw [recomputeFollows_append_quiet pre hq]
        exact attachedPath_core_recompute h m
      · intro part grp hv hg
        rw [htr, attachedPath_grouped h m part grp hv hg, ← List.append_assoc]
        exact ⟨rfl, recomputeFollows_append_mutation
          (Gui.Event.doCommand .Doc (.groupAddObject grp (h.getUniqueObjectName "Sketch" 0)))
          rfl _⟩
    · rw [htr, List.any_append, (recomputeFollows_quiet _ (hpreq pre hpre)).2.2,
        (orientationPath_any h).1] at hsup
      exact Bool.noConfusion hsup
  · intro hret hmut hsup
    have hnew := newSketch_mutation_addObject h hret hmut
    rcases newSketch_classify h hret hnew with ⟨_, pre, m, _, _, htr⟩ | ⟨_, pre, hpre, htr⟩
    · rw [htr, (attachedPath_any h m pre).1] at hsup
      exact Bool.noConfusion hsup
    · have hq := hpreq pre hpre
      refine ⟨pre, hpre, htr, ?_, ?_⟩
      · rw [htr, List.any_append, (recomputeFollows_quiet _ hq).2.1]
        rfl
      · rw [htr, recomputeFollows_append_quiet pre hq]
        rfl
  · intro hmut
    obtain ⟨front, pre, hf, hpre, htr, hret⟩ := reorientSketch_shape h hmut
    refine ⟨front, pre, hf, hpre, htr, hret, ?_⟩
    rw [htr]
    have hq : ∀ e ∈ pre, isMutation e = false ∧ isRecompute e = false := by
      intro e he
      rcases hpre with rfl | rfl
      · simp at he
      · simp only [List.mem_cons, List.mem_singleton, List.not_mem_nil, or_false] at he
        rcases he with rfl | rfl <;> exact ⟨rfl, rfl⟩
    rw [recomputeFollows_append_quiet pre hq]
    rfl

end SketcherGui

namespace SketcherGui

open Sketcher

/-- C17: with `addGeometry` and `addConstraints` returning count - 1 (so at
least -1) and `addSymmetric` only appending, the offsets `addedGeometries + 1`
and `addedConstraints + 1` of lines 810-811 are the numbers of geometries and
constraints of the source, lie between 0 and the size of the temporary vector
(0 for a source without geometry or without constraints), and the two slices
are exactly what `addSymmetric` appended; `mirrorgeo` is that geometry and
`mirrorconstr`, after the loop of lines 813-830, those constraints shifted. -/
theorem mirror_slice_offsets (h : Host) (Obj : SketchObject) (refgeoid : Int)
    (refposid : PointPos) :
    ∃ res, mirrorOne h Obj refgeoid refposid = some res
      ∧ -1 ≤ res.addedGeometries ∧ -1 ≤ res.addedConstraints
      ∧ res.addedGeometries + 1 = (Obj.Geometry.length : Int)
      ∧ res.addedConstraints + 1 = (Obj.Constraints.length : Int)
      ∧ 0 ≤ res.addedGeometries + 1 ∧ res.addedGeometries + 1 ≤ (res.tempgeo.length : Int)
      ∧ 0 ≤ res.addedConstraints + 1 ∧ res.addedConstraints + 1 ≤ (res.tempconstr.length : Int)
      ∧ (Obj.Geometry = [] → res.addedGeometries = -1)
      ∧ (Obj.Constraints = [] → res.addedConstraints = -1)
      ∧ res.tempgeo = Obj.Geometry ++ (mirrorAppended h Obj refgeoid refposid).1
      ∧ res.tempconstr = Obj.Constraints ++ (mirrorAppended h Obj refgeoid refposid).2
      ∧ sliceFrom res.tempgeo (res.addedGeometries + 1)
          = some (mirrorAppended h Obj refgeoid refposid).1
      ∧ sliceFrom res.tempconstr (res.addedConstraints + 1)
          = some (mirrorAppended h Obj refgeoid refposid).2
      ∧ res.mirrorgeo = (mirrorAppended h Obj refgeoid refposid).1
      ∧ res.mirrorconstr = (mirrorAppended h Obj refgeoid refposid).2.map
          (mirrorShiftConstraint h.geoEnum res.addedGeometries) := by
  have hg : ((Obj.Geometry.length : Int) - 1 + 1).toNat = Obj.Geometry.length := by omega
  have hc : ((Obj.Constraints.length : Int) - 1 + 1).toNat = Obj.Constraints.length := by omega
  refine ⟨_, mirrorOne_eq h Obj refgeoid refposid, ?_⟩
  dsimp only
  refine ⟨by omega, by omega, by omega, by omega, by omega, ?_, by omega, ?_, ?_, ?_, rfl, rfl,
    ?_, ?_, rfl, rfl⟩
  · simp only [List.length_append, Nat.cast_add]; omega
  · simp only [List.length_append, Nat.cast_add]; omega
  · intro hnil; simp [hnil]
  · intro hnil; simp [hnil]
  · unfold sliceFrom
    rw [if_pos ⟨by omega, by simp only [List.length_append, Nat.cast_add]; omega⟩, hg]
    simp [mirrorAppended]
  · unfold sliceFrom
    rw [if_pos ⟨by omega, by simp only [List.length_append, Nat.cast_add]; omega⟩, hc]
    simp [mirrorAppended]

end SketcherGui

namespace SketcherGui

/-- C13: with a sketch view in edit, one activation of `CmdSketcherGrid`
returns, replaces `ShowGrid` by its negation and leaves `GridSnap`, `GridAuto`
and `GridSize` as they were; the icon is the active one exactly when the new
`ShowGrid` is true; a second activation restores the view. -/
theorem grid_toggle (g : GridGui) (v : ViewProviderSketch) (hv : g.sketchView = some v) :
    (CmdSketcherGrid.activated g).1 = .returned
      ∧ (CmdSketcherGrid.activated g).2.sketchView = some { v with ShowGrid := !v.ShowGrid }
      ∧ (∃ v1, (CmdSketcherGrid.activated g).2.sketchView = some v1
          ∧ v1.ShowGrid = !v.ShowGrid ∧ v1.GridSnap = v.GridSnap ∧ v1.GridAuto = v.GridAuto
          ∧ v1.GridSize = v.GridSize
          ∧ ((CmdSketcherGrid.activated g).2.icon = .Sketcher_GridToggle ↔ v1.ShowGrid = true))
      ∧ (CmdSketcherGrid.activated (CmdSketcherGrid.activated g).2).1 = .returned
      ∧ (CmdSketcherGrid.activated (CmdSketcherGrid.activated g).2).2.sketchView = some v := by
  unfold GridGui.sketchView at hv
  cases hd : g.getActiveGuiDocument with
  | none => simp [hd] at hv
  | some doc =>
    simp only [hd] at hv
    have hact : CmdSketcherGrid.activated g = (.returned, CmdSketcherGrid.updateIcon (!v.ShowGrid)
        ⟨g.NDEBUG, some ⟨some ⟨!v.ShowGrid, v.GridSnap, v.GridAuto, v.GridSize⟩⟩, g.icon⟩) := by
      simp [CmdSketcherGrid.activated, hd, hv]
    rw [hact]
    refine ⟨rfl, rfl, ⟨_, rfl, rfl, rfl, rfl, rfl, ?_⟩, rfl, ?_⟩
    · cases v.ShowGrid <;> simp [CmdSketcherGrid.updateIcon]
    · simp [CmdSketcherGrid.activated, CmdSketcherGrid.updateIcon, GridGui.sketchView]

/-- C13 at a state with a hidden grid: the grid is shown, the icon is the
active one, a second activation hides it again. -/
theorem grid_toggle_witness :
    demoGridGui.sketchView = some ⟨false, true, false, ⟨10⟩⟩
      ∧ (CmdSketcherGrid.activated demoGridGui).2.sketchView = some ⟨true, true, false, ⟨10⟩⟩
      ∧ (CmdSketcherGrid.activated demoGridGui).2.icon = .Sketcher_GridToggle
      ∧ (CmdSketcherGrid.activated (CmdSketcherGrid.activated demoGridGui).2).2.sketchView
          = some ⟨false, true, false, ⟨10⟩⟩ :=
  ⟨rfl, (grid_toggle demoGridGui ⟨false, true, false, ⟨10⟩⟩ rfl).2.1, by decide,
   (grid_toggle demoGridGui ⟨false, true, false, ⟨10⟩⟩ rfl).2.2.2.2⟩

end SketcherGui

namespace SketcherGui

theorem newSketchItems_spec (name : Attacher.eMapMode → String) (mm : Attacher.eMapMode) :
    ∀ (modes : List Attacher.eMapMode) (items : List String) (iSugg : Int),
      (newSketchItems name mm modes (items, iSugg)).1 = items ++ modes.map name
        ∧ (mm ∉ modes → (newSketchItems name mm modes (items, iSugg)).2 = iSugg)
        ∧ (mm ∈ modes → ∃ i : Nat, modes[i]? = some mm
            ∧ (newSketchItems name mm modes (items, iSugg)).2 = ((items.length + i : Nat) : Int)) := by
  intro modes
  induction modes with
  | nil => intro items iSugg; simp [newSketchItems]
  | cons m rest ih =>
    intro items iSugg
    obtain ⟨h1, h2, h3⟩ := ih (items ++ [name m])
      (if m = mm then ((items ++ [name m]).length : Int) - 1 else iSugg)
    simp only [newSketchItems]
    refine ⟨by rw [h1]; simp, ?_, ?_⟩
    · intro hnot
      have hm : ¬ m = mm := fun e => hnot (by rw [e]; exact List.mem_cons_self _ _)
      have hr : mm ∉ rest := fun e => hnot (List.mem_cons_of_mem _ e)
      rw [h2 hr, if_neg hm]
    · intro hmem
      by_cases hr : mm ∈ rest
      · obtain ⟨i, hi, hval⟩ := h3 hr
        refine ⟨i + 1, by simpa using hi, ?_⟩
        rw [hval]
        simp only [List.length_append, List.length_singleton]
        push_cast
        omega
      · have hm : m = mm := by
          rcases List.mem_cons.mp hmem with e | e
          · exact e.symm
          · exact absurd e hr
        refine ⟨0, by simp [hm], ?_⟩
        rw [h2 hr, if_pos hm]
        simp only [List.length_append, List.length_singleton]
        push_cast
        omega

/-- C14: in the attachment dialog of `CmdSketcherNewSketch`, with `validModes`
the modes of the engine after `mmDeactivated` is put in front, the items are
`Don't attach` followed by the names of `validModes` in order, one more than
`validModes`; for every index `k` from 1 to `|validModes|` the lookup
`validModes[k-1]` succeeds and item `k` shows the name of that mode; `iSugg`
is 0 when the suggested mode is not in `validModes` and otherwise the index of
an item that shows the name of the suggested mode.  In the handler, once the
dialog is accepted, picking item 0 continues unattached with `mmDeactivated`
and picking another item continues attached with `validModes[index-1]`. -/
theorem newSketch_mode_list (h : Host) (mapmode : Attacher.eMapMode)
    (allmodes : List Attacher.eMapMode) :
    (newSketchDialog h mapmode allmodes).1
        = "Don't attach" :: (h.mmDeactivated :: allmodes).map h.getModeName
      ∧ (newSketchDialog h mapmode allmodes).1.length = (h.mmDeactivated :: allmodes).length + 1
      ∧ (∀ k : Int, 1 ≤ k → k ≤ ((h.mmDeactivated :: allmodes).length : Int) →
          ∃ m, modeAt (h.mmDeactivated :: allmodes) (k - 1) = some m
            ∧ (h.mmDeactivated :: allmodes)[(k - 1).toNat]? = some m
            ∧ (newSketchDialog h mapmode allmodes).1[k.toNat]? = some (h.getModeName m))
      ∧ (mapmode ∈ h.mmDeactivated :: allmodes →
          1 ≤ (newSketchDialog h mapmode allmodes).2
            ∧ (newSketchDialog h mapmode allmodes).2 ≤ ((h.mmDeactivated :: allmodes).length : Int)
            ∧ (newSketchDialog h mapmode allmodes).1[(newSketchDialog h mapmode allmodes).2.toNat]?
                = some (h.getModeName mapmode))
      ∧ (mapmode ∉ h.mmDeactivated :: allmodes → (newSketchDialog h mapmode allmodes).2 = 0)
      ∧ (∀ so : SuggestOut, h.hasSelection = true → SuggestAutoMapMode h = some so →
          ¬ (so.msg ≠ .srOK ∧ so.msg ≠ .srNoModesFit) → 1 < so.allmodes.length →
          (newSketchReply h so.bestFitMode so.allmodes).ok = true →
          (Gui.indexOf (newSketchDialog h so.bestFitMode so.allmodes).1
              (newSketchReply h so.bestFitMode so.allmodes).text = 0 →
            CmdSketcherNewSketch.activated h = newSketchCreate h
              [newSketchDialogEvent h so.bestFitMode so.allmodes] false h.mmDeactivated)
          ∧ (∀ m, Gui.indexOf (newSketchDialog h so.bestFitMode so.allmodes).1
                (newSketchReply h so.bestFitMode so.allmodes).text ≠ 0 →
              modeAt (h.mmDeactivated :: so.allmodes)
                (Gui.indexOf (newSketchDialog h so.bestFitMode so.allmodes).1
                  (newSketchReply h so.bestFitMode so.allmodes).text - 1) = some m →
              CmdSketcherNewSketch.activated h = newSketchCreate h
                [newSketchDialogEvent h so.bestFitMode so.allmodes] true m)) := by
  obtain ⟨h1, h2, h3⟩ := newSketchItems_spec h.getModeName mapmode (h.mmDeactivated :: allmodes)
    ["Don't attach"] 0
  have hitems : (newSketchDialog h mapmode allmodes).1
      = "Don't attach" :: (h.mmDeactivated :: allmodes).map h.getModeName := by
    unfold newSketchDialog
    rw [h1]
    rfl
  refine ⟨hitems, by rw [hitems]; simp, ?_, ?_, ?_, ?_⟩
  · intro k hk1 hk2
    have hlt : (k - 1).toNat < (h.mmDeactivated :: allmodes).length := by omega
    refine ⟨(h.mmDeactivated :: allmodes)[(k - 1).toNat], ?_, ?_, ?_⟩
    · unfold modeAt
      rw [if_pos (by omega), List.get?_eq_getElem?, List.getElem?_eq_getElem hlt]
    · rw [List.getElem?_eq_getElem hlt]
    · rw [hitems]
      have hk : k.toNat = (k - 1).toNat + 1 := by omega
      rw [hk, List.getElem?_cons_succ, List.getElem?_map, List.getElem?_eq_getElem hlt]
      rfl
  · intro hmem
    obtain ⟨i, hi, hval⟩ := h3 hmem
    have hlt : i < (h.mmDeactivated :: allmodes).length := by
      by_contra hcon
      rw [List.getElem?_eq_none (by omega)] at hi
      exact Option.noConfusion hi
    have hval2 : (newSketchDialog h mapmode allmodes).2 = ((1 + i : Nat) : Int) := by
      unfold newSketchDialog
      rw [hval]
      rfl
    rw [hval2, hitems]
    refine ⟨by push_cast; omega, by push_cast; omega, ?_⟩
    have hk : ((1 + i : Nat) : Int).toNat = i + 1 := by omega
    rw [hk, List.getElem?_cons_succ, List.getElem?_map, hi]
    rfl
  · intro hnot
    unfold newSketchDialog
    exact h2 hnot
  · intro so hsel hso hw hl hok
    constructor
    · intro hidx
      simp [CmdSketcherNewSketch.activated, hsel, hso, hw, hl, hok, hidx]
    · intro m hidx hmode
      simp [CmdSketcherNewSketch.activated, hsel, hso, hw, hl, hok, hidx, hmode]

end SketcherGui

namespace SketcherGui

theorem appendBack_snoc (s x : String) :
    ∀ xs : List String, appendBack (xs ++ [x]) s = xs ++ [x ++ s] := by
  intro xs
  induction xs with
  | nil => rfl
  | cons y ys ih =>
    cases ys with
    | nil => rfl
    | cons z zs =>
      exact congrArg (List.cons y) ih

/-- One iteration of the loop of lines 584-601. -/
theorem mapSketchItems_cons (name : Attacher.eMapMode → String) (cur sugg : Attacher.eMapMode)
    (b : Bool) (m : Attacher.eMapMode) (rest : List Attacher.eMapMode) (st : MapItems) :
    mapSketchItems name cur sugg b (m :: rest) st
      = mapSketchItems name cur sugg b rest
          { items := st.items ++ [mapItemText name cur sugg b st.items.length m]
            iSugg := if m = sugg then (if st.items.length = 1 then 0 else (st.items.length : Int))
              else st.iSugg
            iCurr := if m = cur then (st.items.length : Int) else st.iCurr } := by
  have hlen : ((st.items ++ [name m]).length : Int) - 1 = (st.items.length : Int) := by
    simp only [List.length_append, List.length_singleton]; push_cast; omega
  have hlen2 : ∀ x : String, ((st.items ++ [x]).length : Int) - 1 = 1 ↔ st.items.length = 1 := by
    intro x
    simp only [List.length_append, List.length_singleton]; push_cast; omega
  simp only [mapSketchItems, mapItemText, curSuffix]
  congr 1
  by_cases hc : m = cur <;> by_cases hs : m = sugg <;> by_cases hp : st.items.length = 1 <;>
    (try subst hc) <;> (try subst hs) <;>
    simp [*, appendBack_snoc]

end SketcherGui

namespace SketcherGui

theorem mapItemTexts_get (name : Attacher.eMapMode → String) (cur sugg : Attacher.eMapMode)
    (b : Bool) :
    ∀ (modes : List Attacher.eMapMode) (pos i : Nat) (m : Attacher.eMapMode),
      modes[i]? = some m →
      (mapItemTexts name cur sugg b pos modes)[i]?
        = some (mapItemText name cur sugg b (pos + i) m) := by
  intro modes
  induction modes with
  | nil => intro pos i m hi; simp at hi
  | cons x rest ih =>
    intro pos i m hi
    cases i with
    | zero =>
      simp only [List.getElem?_cons_zero, Option.some.injEq] at hi
      subst hi
      simp [mapItemTexts]
    | succ i =>
      simp only [List.getElem?_cons_succ] at hi
      simp only [mapItemTexts, List.getElem?_cons_succ]
      rw [ih (pos + 1) i m hi]
      congr 2
      omega

/-- The state after the loop of lines 584-601: the items pushed, `iCurr` and
`iSugg`. -/
theorem mapSketchItems_spec (name : Attacher.eMapMode → String) (cur sugg : Attacher.eMapMode)
    (b : Bool) :
    ∀ (modes : List Attacher.eMapMode) (st : MapItems),
      (mapSketchItems name cur sugg b modes st).items
          = st.items ++ mapItemTexts name cur sugg b st.items.length modes
        ∧ (cur ∉ modes → (mapSketchItems name cur sugg b modes st).iCurr = st.iCurr)
        ∧ (cur ∈ modes → ∃ i : Nat, modes[i]? = some cur
            ∧ (mapSketchItems name cur sugg b modes st).iCurr = ((st.items.length + i : Nat) : Int))
        ∧ (sugg ∉ modes → (mapSketchItems name cur sugg b modes st).iSugg = st.iSugg)
        ∧ (sugg ∈ modes → ∃ i : Nat, modes[i]? = some sugg
            ∧ (mapSketchItems name cur sugg b modes st).iSugg
                = if st.items.length + i = 1 then 0 else ((st.items.length + i : Nat) : Int)) := by
  intro modes
  induction modes with
  | nil => intro st; simp [mapSketchItems, mapItemTexts]
  | cons m rest ih =>
    intro st
    rw [mapSketchItems_cons]
    obtain ⟨h1, h2, h3, h4, h5⟩ := ih
      { items := st.items ++ [mapItemText name cur sugg b st.items.length m]
        iSugg := if m = sugg then (if st.items.length = 1 then 0 else (st.items.length : Int))
          else st.iSugg
        iCurr := if m = cur then (st.items.length : Int) else st.iCurr }
    simp only [List.length_append, List.length_singleton] at h1 h3 h5
    refine ⟨by rw [h1]; simp [mapItemTexts], ?_, ?_, ?_, ?_⟩
    · intro hnot
      have hm : ¬ m = cur := fun e => hnot (by rw [e]; exact List.mem_cons_self _ _)
      rw [h2 (fun e => hnot (List.mem_cons_of_mem _ e))]
      simp [hm]
    · intro hmem
      by_cases hr : cur ∈ rest
      · obtain ⟨i, hi, hval⟩ := h3 hr
        refine ⟨i + 1, by simpa using hi, ?_⟩
        rw [hval]
        push_cast
        omega
      · have hm : m = cur := by
          rcases List.mem_cons.mp hmem with e | e
          · exact e.symm
          · exact absurd e hr
        refine ⟨0, by simp [hm], ?_⟩
        rw [h2 hr]
        simp [hm]
    · intro hnot
      have hm : ¬ m = sugg := fun e => hnot (by rw [e]; exact List.mem_cons_self _ _)
      rw [h4 (fun e => hnot (List.mem_cons_of_mem _ e))]
      simp [hm]
    · intro hmem
      by_cases hr : sugg ∈ rest
      · obtain ⟨i, hi, hval⟩ := h5 hr
        refine ⟨i + 1, by simpa using hi, ?_⟩
        rw [hval]
        have e : st.items.length + 1 + i = st.items.length + (i + 1) := by omega
        rw [e]
      · have hm : m = sugg := by
          rcases List.mem_cons.mp hmem with e | e
          · exact e.symm
          · exact absurd e hr
        refine ⟨0, by simp [hm], ?_⟩
        rw [h4 hr]
        simp [hm]

end SketcherGui

namespace SketcherGui

/-- The current mode occurs in `validModes` as built by lines 575-577. -/
theorem cur_mem_mapSketchModes (h : Host) (so : SuggestOut) (sketch : App.DocumentObject) :
    sketch.MapMode ∈ mapSketchModes h so sketch := by
  unfold mapSketchModes curIncompatible
  by_cases hc : sketch.MapMode ∈ so.allmodes
  · simp [hc]
  · simp [hc]

/-- C15: in `CmdSketcherMapSketch`, `bCurIncompatible` holds exactly when the
current map mode of the sketch is not among the modes the engine reported;
the current mode occurs in `validModes` as built; `iCurr` lies between 1 and
`|validModes|`, `validModes[iCurr-1]` is the current mode, and item `iCurr` is
the name of that mode followed by ` (current)` when compatible and by
` (incompatible with selection)` when not (and then by ` (suggested)` if the
loop also marks it as suggested); the dialog preselects `iCurr` when the
current mode is compatible and `iSugg` when it is not, and its prompt is the
one that mentions the incompatibility exactly when `bCurIncompatible`. -/
theorem mapSketch_preselection (h : Host) (so : SuggestOut) (sketch : App.DocumentObject) :
    (curIncompatible so sketch = true ↔ sketch.MapMode ∉ so.allmodes)
      ∧ sketch.MapMode ∈ mapSketchModes h so sketch
      ∧ 1 ≤ (mapSketchDialog h so sketch).iCurr
      ∧ (mapSketchDialog h so sketch).iCurr ≤ ((mapSketchModes h so sketch).length : Int)
      ∧ modeAt (mapSketchModes h so sketch) ((mapSketchDialog h so sketch).iCurr - 1)
          = some sketch.MapMode
      ∧ (∃ s, (mapSketchDialog h so sketch).items[(mapSketchDialog h so sketch).iCurr.toNat]?
            = some s
          ∧ (s = h.getModeName sketch.MapMode ++ curSuffix (curIncompatible so sketch)
              ∨ s = h.getModeName sketch.MapMode ++ curSuffix (curIncompatible so sketch)
                  ++ " (suggested)"))
      ∧ curSuffix false = " (current)"
      ∧ curSuffix true = " (incompatible with selection)"
      ∧ (curIncompatible so sketch = false →
          attachmentCurrent (curIncompatible so sketch) (mapSketchDialog h so sketch)
              = (mapSketchDialog h so sketch).iCurr
            ∧ attachmentLabel (curIncompatible so sketch)
              = "Select the method to attach this sketch to selected objects.")
      ∧ (curIncompatible so sketch = true →
          attachmentCurrent (curIncompatible so sketch) (mapSketchDialog h so sketch)
              = (mapSketchDialog h so sketch).iSugg
            ∧ attachmentLabel (curIncompatible so sketch)
              = "Current attachment mode is incompatible with the new selection.\nSelect the method to attach this sketch to selected objects.")
      ∧ (∀ pre : List Gui.Event, ∃ rest, (mapSketchAttach h so pre sketch).trace
          = pre ++ Gui.Event.getItem "Sketch attachment"
              (attachmentLabel (curIncompatible so sketch))
              (mapSketchDialog h so sketch).items
              (attachmentCurrent (curIncompatible so sketch) (mapSketchDialog h so sketch))
              :: rest) := by
  have hmem := cur_mem_mapSketchModes h so sketch
  obtain ⟨hitems, _, hcurr, _, _⟩ := mapSketchItems_spec h.getModeName sketch.MapMode
    so.bestFitMode (curIncompatible so sketch) (mapSketchModes h so sketch)
    { items := ["Don't attach"], iSugg := 0, iCurr := 0 }
  obtain ⟨i, hi, hval⟩ := hcurr hmem
  have hlt : i < (mapSketchModes h so sketch).length := by
    by_contra hcon
    rw [List.getElem?_eq_none (by omega)] at hi
    exact Option.noConfusion hi
  have hic : (mapSketchDialog h so sketch).iCurr = ((1 + i : Nat) : Int) := hval
  have hit : (mapSketchDialog h so sketch).items
      = "Don't attach" :: mapItemTexts h.getModeName sketch.MapMode so.bestFitMode
          (curIncompatible so sketch) 1 (mapSketchModes h so sketch) := hitems
  refine ⟨?_, hmem, by rw [hic]; push_cast; omega, by rw [hic]; push_cast; omega, ?_, ?_, rfl,
    rfl, ?_, ?_, ?_⟩
  · unfold curIncompatible
    by_cases hc : sketch.MapMode ∈ so.allmodes <;> simp [hc]
  · unfold modeAt
    rw [hic, if_pos (by push_cast; omega), List.get?_eq_getElem?]
    have e : (((1 + i : Nat) : Int) - 1).toNat = i := by omega
    rw [e, hi]
  · have e : ((1 + i : Nat) : Int).toNat = i + 1 := by omega
    rw [hic, hit, e, List.getElem?_cons_succ,
      mapItemTexts_get h.getModeName sketch.MapMode so.bestFitMode (curIncompatible so sketch)
        (mapSketchModes h so sketch) 1 i sketch.MapMode hi]
    refine ⟨_, rfl, ?_⟩
    unfold mapItemText
    simp only [if_true]
    split
    · exact Or.inr rfl
    · exact Or.inl rfl
  · intro hb
    rw [hb]
    exact ⟨rfl, rfl⟩
  · intro hb
    rw [hb]
    exact ⟨rfl, rfl⟩
  · intro pre
    obtain ⟨rest, htr, _, _⟩ := mapSketchAttach_trace h so pre sketch
    exact ⟨rest, htr⟩

end SketcherGui

namespace SketcherGui

/-- When the suggested mode is another mode than `mmDeactivated` and occurs in
`validModes`, `iSugg` is the index of an item that shows this mode and ends in
` (suggested)`. -/
theorem mapSketch_suggested_marked (h : Host) (so : SuggestOut) (sketch : App.DocumentObject)
    (hne : so.bestFitMode ≠ h.mmDeactivated)
    (hmem : so.bestFitMode ∈ mapSketchModes h so sketch) :
    2 ≤ (mapSketchDialog h so sketch).iSugg
      ∧ (mapSketchDialog h so sketch).iSugg ≤ ((mapSketchModes h so sketch).length : Int)
      ∧ modeAt (mapSketchModes h so sketch) ((mapSketchDialog h so sketch).iSugg - 1)
          = some so.bestFitMode
      ∧ ∃ s1, (mapSketchDialog h so sketch).items[(mapSketchDialog h so sketch).iSugg.toNat]?
            = some (s1 ++ " (suggested)")
          ∧ (s1 = h.getModeName so.bestFitMode
              ∨ s1 = h.getModeName so.bestFitMode ++ curSuffix (curIncompatible so sketch)) := by
  obtain ⟨hitems, _, _, _, hsugg⟩ := mapSketchItems_spec h.getModeName sketch.MapMode
    so.bestFitMode (curIncompatible so sketch) (mapSketchModes h so sketch)
    { items := ["Don't attach"], iSugg := 0, iCurr := 0 }
  obtain ⟨i, hi, hval⟩ := hsugg hmem
  have hlt : i < (mapSketchModes h so sketch).length := by
    by_contra hcon
    rw [List.getElem?_eq_none (by omega)] at hi
    exact Option.noConfusion hi
  have hi0 : i ≠ 0 := by
    intro e
    rw [e] at hi
    have : (mapSketchModes h so sketch)[0]? = some h.mmDeactivated := by
      simp [mapSketchModes]
    rw [this] at hi
    injection hi with hi
    exact hne hi.symm
  have his : (mapSketchDialog h so sketch).iSugg = ((1 + i : Nat) : Int) := by
    have : (mapSketchDialog h so sketch).iSugg
        = if 1 + i = 1 then 0 else ((1 + i : Nat) : Int) := hval
    rw [this, if_neg (by omega)]
  have hit : (mapSketchDialog h so sketch).items
      = "Don't attach" :: mapItemTexts h.getModeName sketch.MapMode so.bestFitMode
          (curIncompatible so sketch) 1 (mapSketchModes h so sketch) := hitems
  refine ⟨by rw [his]; push_cast; omega, by rw [his]; push_cast; omega, ?_, ?_⟩
  · unfold modeAt
    rw [his, if_pos (by push_cast; omega), List.get?_eq_getElem?]
    have e : (((1 + i : Nat) : Int) - 1).toNat = i := by omega
    rw [e, hi]
  · have e : ((1 + i : Nat) : Int).toNat = i + 1 := by omega
    rw [his, hit, e, List.getElem?_cons_succ,
      mapItemTexts_get h.getModeName sketch.MapMode so.bestFitMode (curIncompatible so sketch)
        (mapSketchModes h so sketch) 1 i so.bestFitMode hi]
    unfold mapItemText
    have hpos : (so.bestFitMode = so.bestFitMode ∧ 1 + i ≠ 1) := ⟨rfl, by omega⟩
    rw [if_pos hpos]
    refine ⟨_, rfl, ?_⟩
    split
    · exact Or.inr rfl
    · exact Or.inl rfl

/-- When the suggested mode is `mmDeactivated`, the engine did not report
`mmDeactivated` and the current mode of the sketch is another mode, `iSugg` is
0 and no item gets ` (suggested)`. -/
theorem mapSketch_deactivated_redirected (h : Host) (so : SuggestOut)
    (sketch : App.DocumentObject) (hs : so.bestFitMode = h.mmDeactivated)
    (hall : h.mmDeactivated ∉ so.allmodes) (hcur : sketch.MapMode ≠ h.mmDeactivated) :
    (mapSketchDialog h so sketch).iSugg = 0
      ∧ ∀ (i : Nat) (m : Attacher.eMapMode), (mapSketchModes h so sketch)[i]? = some m →
          (mapSketchDialog h so sketch).items[i + 1]?
            = some (if m = sketch.MapMode then
                h.getModeName m ++ curSuffix (curIncompatible so sketch)
              else h.getModeName m) := by
  have hrest : h.mmDeactivated ∉ so.allmodes
      ++ (if curIncompatible so sketch then [sketch.MapMode] else []) := by
    intro hm
    rcases List.mem_append.mp hm with hm | hm
    · exact hall hm
    · split at hm
      · simp only [List.mem_singleton] at hm
        exact hcur hm.symm
      · simp at hm
  have hmodes : mapSketchModes h so sketch = h.mmDeactivated :: (so.allmodes
      ++ (if curIncompatible so sketch then [sketch.MapMode] else [])) := rfl
  obtain ⟨hitems, _, _, _, _⟩ := mapSketchItems_spec h.getModeName sketch.MapMode
    so.bestFitMode (curIncompatible so sketch) (mapSketchModes h so sketch)
    { items := ["Don't attach"], iSugg := 0, iCurr := 0 }
  have hit : (mapSketchDialog h so sketch).items
      = "Don't attach" :: mapItemTexts h.getModeName sketch.MapMode so.bestFitMode
          (curIncompatible so sketch) 1 (mapSketchModes h so sketch) := hitems
  constructor
  · unfold mapSketchDialog
    rw [hmodes, mapSketchItems_cons]
    exact ((mapSketchItems_spec _ _ _ _ _ _).2.2.2.1 (by rw [hs]; exact hrest)).trans
      (by simp)
  · intro i m hi
    rw [hit, List.getElem?_cons_succ,
      mapItemTexts_get h.getModeName sketch.MapMode so.bestFitMode (curIncompatible so sketch)
        (mapSketchModes h so sketch) 1 i m hi]
    unfold mapItemText
    have hno : ¬ (m = so.bestFitMode ∧ 1 + i ≠ 1) := by
      rintro ⟨hm, hp⟩
      rw [hmodes] at hi
      cases i with
      | zero => exact hp rfl
      | succ j =>
        rw [List.getElem?_cons_succ] at hi
        have hmem : m ∈ so.allmodes
            ++ (if curIncompatible so sketch then [sketch.MapMode] else []) :=
          List.getElem?_mem hi
        rw [hm, hs] at hmem
        exact hrest hmem
    simp only [if_neg hno]

end SketcherGui

namespace SketcherGui

/-- C16 (what the code does): the test `iSugg == 1` of line 595 redirects the
suggestion to `Don't attach` only for the `mmDeactivated` put in front of
`validModes`.  For an unattached sketch (current mode `mmDeactivated`) and a
selection no mode fits (no applicable mode, suggestion `mmDeactivated`), line
577 appends `mmDeactivated` once more; the loop then sets `iSugg` to 2, marks
that item ` (suggested)`, and the dialog preselects it.  The redirection does
hold when `mmDeactivated` occurs in `validModes` only in front, and a
suggested mode other than `mmDeactivated` is marked as the claim says. -/
theorem mapSketch_deactivated_not_redirected :
    SuggestAutoMapMode demoHostNoFit
        = some { bestFitMode := 0, msg := .srNoModesFit,
                 msg_str := "There are no modes that accept the selected set of subelements",
                 allmodes := [] }
      ∧ demoHostNoFit.mmDeactivated = 0
      ∧ chosenSketch demoHostNoFit demoDocument = some demoSketchA
      ∧ demoSketchA.MapMode = 0
      ∧ mapSketchDialog demoHostNoFit
          { bestFitMode := 0, msg := .srNoModesFit,
            msg_str := "There are no modes that accept the selected set of subelements",
            allmodes := [] } demoSketchA
          = { items := ["Don't attach", "Deactivated (incompatible with selection)",
                "Deactivated (incompatible with selection) (suggested)"]
              iSugg := 2, iCurr := 2 }
      ∧ CmdSketcherMapSketch.activated demoHostNoFit =
          { trace := [selectSketchEvent demoDocument,
              Gui.Event.getItem "Sketch attachment" (attachmentLabel true)
                ["Don't attach", "Deactivated (incompatible with selection)",
                  "Deactivated (incompatible with selection) (suggested)"] 2]
            outcome := .returned }
      ∧ (∀ (h : Host) (so : SuggestOut) (sketch : App.DocumentObject),
          so.bestFitMode = h.mmDeactivated → h.mmDeactivated ∉ so.allmodes →
          sketch.MapMode ≠ h.mmDeactivated →
          (mapSketchDialog h so sketch).iSugg = 0
            ∧ ∀ (i : Nat) (m : Attacher.eMapMode), (mapSketchModes h so sketch)[i]? = some m →
                (mapSketchDialog h so sketch).items[i + 1]?
                  = some (if m = sketch.MapMode then
                      h.getModeName m ++ curSuffix (curIncompatible so sketch)
                    else h.getModeName m))
      ∧ (∀ (h : Host) (so : SuggestOut) (sketch : App.DocumentObject),
          so.bestFitMode ≠ h.mmDeactivated → so.bestFitMode ∈ mapSketchModes h so sketch →
          2 ≤ (mapSketchDialog h so sketch).iSugg
            ∧ (mapSketchDialog h so sketch).iSugg ≤ ((mapSketchModes h so sketch).length : Int)
            ∧ modeAt (mapSketchModes h so sketch) ((mapSketchDialog h so sketch).iSugg - 1)
                = some so.bestFitMode
            ∧ ∃ s1, (mapSketchDialog h so sketch).items[(mapSketchDialog h so sketch).iSugg.toNat]?
                  = some (s1 ++ " (suggested)")
                ∧ (s1 = h.getModeName so.bestFitMode
                    ∨ s1 = h.getModeName so.bestFitMode
                        ++ curSuffix (curIncompatible so sketch))) :=
  ⟨by decide, rfl, by decide, rfl, by decide, by decide,
   fun h so sketch hs hall hcur => mapSketch_deactivated_redirected h so sketch hs hall hcur,
   fun h so sketch hne hmem => mapSketch_suggested_marked h so sketch hne hmem⟩

end SketcherGui

namespace SketcherGui

open Sketcher

/-- A run of `CmdSketcherNewSketch` either reaches lines 199-251, after no
call or after the attachment dialog, or never shows the orientation dialog. -/
theorem newSketch_form (h : Host) :
    (∃ pre b m,
        (pre = [] ∨ pre = [newSketchDialogEvent h h.sugr.bestFitMode h.sugr.allApplicableModes])
          ∧ CmdSketcherNewSketch.activated h = newSketchCreate h pre b m)
      ∨ Gui.Event.execSketchOrientationDialog ∉ (CmdSketcherNewSketch.activated h).trace := by
  cases hsel : h.hasSelection with
  | false =>
    exact Or.inl ⟨[], false, h.mmDeactivated, Or.inl rfl,
      by simp [CmdSketcherNewSketch.activated, hsel]⟩
  | true =>
    cases hso : SuggestAutoMapMode h with
    | none =>
      right
      simp [CmdSketcherNewSketch.activated, hsel, hso]
    | some so =>
      obtain ⟨bf, msg, str, am⟩ := so
      obtain ⟨hm, ha, hb⟩ := SuggestAutoMapMode_fields h _ hso
      simp only at hm ha hb
      subst hm ha hb
      by_cases hw : h.sugr.message ≠ .srOK ∧ h.sugr.message ≠ .srNoModesFit
      · right
        simp [CmdSketcherNewSketch.activated, hsel, hso, hw]
      · by_cases hl : h.sugr.allApplicableModes.length > 1
        · by_cases hok : (newSketchReply h h.sugr.bestFitMode h.sugr.allApplicableModes).ok
              = false
          · right
            simp [CmdSketcherNewSketch.activated, hsel, hso, hw, hl, hok, newSketchDialogEvent]
          · by_cases hidx : Gui.indexOf
                (newSketchDialog h h.sugr.bestFitMode h.sugr.allApplicableModes).1
                (newSketchReply h h.sugr.bestFitMode h.sugr.allApplicableModes).text = 0
            · exact Or.inl ⟨_, false, h.mmDeactivated, Or.inr rfl,
                by simp [CmdSketcherNewSketch.activated, hsel, hso, hw, hl, hok, hidx]⟩
            · cases hmode : modeAt (h.mmDeactivated :: h.sugr.allApplicableModes)
                  (Gui.indexOf
                    (newSketchDialog h h.sugr.bestFitMode h.sugr.allApplicableModes).1
                    (newSketchReply h h.sugr.bestFitMode h.sugr.allApplicableModes).text - 1)
                with
              | none =>
                right
                simp [CmdSketcherNewSketch.activated, hsel, hso, hw, hl, hok, hidx, hmode,
                  newSketchDialogEvent]
              | some m =>
                exact Or.inl ⟨_, true, m, Or.inr rfl,
                  by simp [CmdSketcherNewSketch.activated, hsel, hso, hw, hl, hok, hidx,
                    hmode]⟩
        · exact Or.inl ⟨[], decide (h.sugr.message = .srOK), h.sugr.bestFitMode, Or.inl rfl,
            by simp only [CmdSketcherNewSketch.activated, hsel, hso, hw, hl, if_true,
              if_false]⟩

/-- When the orientation dialog of `CmdSketcherNewSketch` is shown and not
accepted, the run is the dialogs and nothing else. -/
theorem newSketch_orientation_cancelled (h : Host)
    (hacc : h.orientationDialog.accepted = false)
    (hexec : Gui.Event.execSketchOrientationDialog ∈ (CmdSketcherNewSketch.activated h).trace) :
    ∃ pre, (pre = [] ∨ pre = [newSketchDialogEvent h h.sugr.bestFitMode h.sugr.allApplicableModes])
      ∧ CmdSketcherNewSketch.activated h =
          { trace := pre ++ [Gui.Event.execSketchOrientationDialog]
            outcome := .returned, created := [] } := by
  rcases newSketch_form h with ⟨pre, b, m, hpre, hrun⟩ | hno
  · refine ⟨pre, hpre, ?_⟩
    have hnd : ∀ e ∈ pre, e ≠ Gui.Event.execSketchOrientationDialog := by
      intro e he
      rcases hpre with rfl | rfl
      · simp at he
      · simp only [List.mem_singleton] at he
        subst he
        simp [newSketchDialogEvent]
    cases b with
    | false =>
      rw [hrun]
      simp [newSketchCreate, hacc]
    | true =>
      exfalso
      rw [hrun] at hexec
      unfold newSketchCreate at hexec
      simp only [if_true] at hexec
      split at hexec
      · simp only [List.mem_append] at hexec
        rcases hexec with he | he
        · exact hnd _ he rfl
        · have := (attachedPath_no_warning h m _ he).2
          exact Bool.noConfusion this
      · simp only [List.mem_append, List.mem_cons, List.mem_singleton, List.not_mem_nil,
          or_false] at hexec
        rcases hexec with he | he | he
        · exact hnd _ he rfl
        · exact Gui.Event.noConfusion he
        · exact Gui.Event.noConfusion he
  · exact absurd hexec hno

end SketcherGui

namespace SketcherGui

open Sketcher

/-- C11: when the attachment dialog of `CmdSketcherNewSketch` is not accepted,
when its orientation dialog is shown and not accepted, when the sketch dialog
or the attachment dialog of `CmdSketcherMapSketch` is not accepted, and when
the dialog of `CmdSketcherMirrorSketch` is not accepted, the handler returns
and its calls are the dialogs it showed: no document command, no transaction,
no object created. -/
theorem cancel_dialog_cancels_command (h : Host) :
    (∀ so : SuggestOut, h.hasSelection = true → SuggestAutoMapMode h = some so →
        ¬ (so.msg ≠ .srOK ∧ so.msg ≠ .srNoModesFit) → 1 < so.allmodes.length →
        (newSketchReply h so.bestFitMode so.allmodes).ok = false →
        CmdSketcherNewSketch.activated h =
          { trace := [newSketchDialogEvent h so.bestFitMode so.allmodes]
            outcome := .returned, created := [] })
      ∧ (h.orientationDialog.accepted = false →
          Gui.Event.execSketchOrientationDialog ∈ (CmdSketcherNewSketch.activated h).trace →
          ∃ pre, (pre = [] ∨
                pre = [newSketchDialogEvent h h.sugr.bestFitMode h.sugr.allApplicableModes])
            ∧ CmdSketcherNewSketch.activated h =
                { trace := pre ++ [Gui.Event.execSketchOrientationDialog]
                  outcome := .returned, created := [] })
      ∧ (∀ (so : SuggestOut) (doc : App.Document), SuggestAutoMapMode h = some so →
          h.activeDocument = some doc →
          doc.getObjectsOfType Base.TypeId.Part2DObject ≠ [] →
          (h.getItem "Select sketch" "Select a sketch from the list"
            ((doc.getObjectsOfType Base.TypeId.Part2DObject).map (fun o => o.Label)) 0).ok
            = false →
          CmdSketcherMapSketch.activated h =
            { trace := [selectSketchEvent doc], outcome := .returned, created := [] })
      ∧ (∀ (so : SuggestOut) (doc : App.Document) (sketch : App.DocumentObject),
          SuggestAutoMapMode h = some so → h.activeDocument = some doc →
          chosenSketch h doc = some sketch →
          checkCircular h.NDEBUG sketch h.selection = none →
          (h.getItem "Sketch attachment" (attachmentLabel (curIncompatible so sketch))
            (mapSketchDialog h so sketch).items
            (attachmentCurrent (curIncompatible so sketch) (mapSketchDialog h so sketch))).ok
            = false →
          CmdSketcherMapSketch.activated h =
            { trace := [selectSketchEvent doc,
                Gui.Event.getItem "Sketch attachment"
                  (attachmentLabel (curIncompatible so sketch))
                  (mapSketchDialog h so sketch).items
                  (attachmentCurrent (curIncompatible so sketch) (mapSketchDialog h so sketch))]
              outcome := .returned, created := [] })
      ∧ (h.sketchSelection ≠ [] → h.mirrorDialog.accepted = false →
          CmdSketcherMirrorSketch.activated h =
            { trace := [Gui.Event.execSketchMirrorDialog]
              outcome := .returned, created := [] }) := by
  refine ⟨?_, newSketch_orientation_cancelled h, ?_, ?_, ?_⟩
  · intro so hsel hso hw hl hok
    simp [CmdSketcherNewSketch.activated, hsel, hso, hw, hl, hok]
  · intro so doc hso hdoc hne hok
    have hemp : (doc.getObjectsOfType Base.TypeId.Part2DObject).isEmpty = false := by
      cases hl : doc.getObjectsOfType Base.TypeId.Part2DObject with
      | nil => exact absurd hl hne
      | cons a l => rfl
    simp [CmdSketcherMapSketch.activated, hso, mapSketchTry, hdoc, hemp, hok, catchWrongInput,
      selectSketchEvent]
  · intro so doc sketch hso hdoc hsk hcc hok
    have htry := mapSketchTry_chosen h so doc sketch hdoc hsk
    rw [hcc] at htry
    have hatt : mapSketchAttach h so [selectSketchEvent doc] sketch =
        { trace := [selectSketchEvent doc,
            Gui.Event.getItem "Sketch attachment"
              (attachmentLabel (curIncompatible so sketch))
              (mapSketchDialog h so sketch).items
              (attachmentCurrent (curIncompatible so sketch) (mapSketchDialog h so sketch))]
          outcome := .returned, created := [] } := by
      simp [mapSketchAttach, hok]
    simp only [CmdSketcherMapSketch.activated, hso, htry, hatt, catchWrongInput]
  · intro hsel hacc
    have hemp : h.sketchSelection.isEmpty = false := by
      cases hl : h.sketchSelection with
      | nil => exact absurd hl hsel
      | cons a l => rfl
    simp [CmdSketcherMirrorSketch.activated, hemp, hacc]

/-- C11 at concrete hosts: the orientation dialog cancelled with nothing
selected, the second dialog of `CmdSketcherMapSketch` cancelled, the mirror
dialog cancelled with `Sketch` selected. -/
theorem cancel_dialog_cancels_command_witness :
    CmdSketcherNewSketch.activated demoHost =
        { trace := [Gui.Event.execSketchOrientationDialog]
          outcome := .returned, created := [] }
      ∧ CmdSketcherMapSketch.activated demoHostNoFit =
        { trace := [selectSketchEvent demoDocument,
            Gui.Event.getItem "Sketch attachment" (attachmentLabel true)
              ["Don't attach", "Deactivated (incompatible with selection)",
                "Deactivated (incompatible with selection) (suggested)"] 2]
          outcome := .returned, created := [] }
      ∧ CmdSketcherMirrorSketch.activated demoHostSketchSelected =
        { trace := [Gui.Event.execSketchMirrorDialog]
          outcome := .returned, created := [] } :=
  ⟨((cancel_dialog_cancels_command demoHost).2.1 rfl (by decide)).elim
      (fun pre hp => by
        have h2 := hp.2
        rw [h2]
        have : pre = [] := by
          rcases hp.1 with e | e
          · exact e
          · rw [e] at h2
            exact absurd h2 (by decide)
        rw [this]
        rfl),
   (cancel_dialog_cancels_command demoHostNoFit).2.2.2.1
      { bestFitMode := 0, msg := .srNoModesFit,
        msg_str := "There are no modes that accept the selected set of subelements",
        allmodes := [] } demoDocument demoSketchA (by decide) rfl (by decide) (by decide)
      (by decide),
   (cancel_dialog_cancels_command demoHostSketchSelected).2.2.2.2 (by decide) rfl⟩

end SketcherGui

namespace SketcherGui

open Sketcher

/-- The count of selected objects of a type is the size of the selection of
that type. -/
theorem countObjectsOfType_eq (ty : Base.TypeId) :
    ∀ sel : List Gui.SelectionObject,
      Gui.countObjectsOfType sel ty = (Gui.getSelectionExOfType sel ty).length := by
  intro sel
  induction sel with
  | nil => rfl
  | cons s rest ih =>
    unfold Gui.countObjectsOfType Gui.getSelectionExOfType at ih ⊢
    cases ho : s.getObject with
    | none => simp only [List.filter_cons, List.filterMap_cons, ho]; exact ih
    | some o =>
      cases ht : o.typeId.isDerivedFrom ty with
      | false => simp [List.filter_cons, List.filterMap_cons, ho, ht]; exact ih
      | true => simp [List.filter_cons, List.filterMap_cons, ho, ht]; exact ih

/-- A document with a sketch object has a `Part2DObject`. -/
theorem part2D_of_sketch (doc : App.Document)
    (hpos : doc.countObjectsOfType Base.TypeId.SketchObject > 0) :
    doc.getObjectsOfType Base.TypeId.Part2DObject ≠ [] := by
  unfold App.Document.countObjectsOfType App.Document.getObjectsOfType at hpos
  unfold App.Document.getObjectsOfType
  have hne : doc.objects.filter (fun o => o.typeId.isDerivedFrom Base.TypeId.SketchObject)
      ≠ [] := by
    intro e; rw [e] at hpos; simp at hpos
  obtain ⟨o, ho⟩ := List.exists_mem_of_ne_nil _ hne
  obtain ⟨hmem, hty⟩ := List.mem_filter.mp ho
  have hder : o.typeId.isDerivedFrom Base.TypeId.Part2DObject = true := by
    cases hcase : o.typeId <;> rw [hcase] at hty <;> first | rfl | exact Bool.noConfusion hty
  intro e
  have : o ∈ doc.objects.filter (fun o => o.typeId.isDerivedFrom Base.TypeId.Part2DObject) :=
    List.mem_filter.mpr ⟨hmem, hder⟩
  rw [e] at this
  simp at this

/-- When the document has a `Part2DObject`, `CmdSketcherMapSketch` does not
show the warning `No sketch found`. -/
theorem mapSketch_no_sketch_warning_absent (h : Host) (doc : App.Document)
    (hdoc : h.activeDocument = some doc)
    (hne : doc.getObjectsOfType Base.TypeId.Part2DObject ≠ []) :
    ∀ e ∈ (CmdSketcherMapSketch.activated h).trace,
      ∀ text, e ≠ Gui.Event.warning "No sketch found" text := by
  intro e he text heq
  cases hso : SuggestAutoMapMode h with
  | none => simp [CmdSketcherMapSketch.activated, hso] at he
  | some so =>
    have hnw := mapSketchTry_no_warning h so doc hdoc hne
    simp only [CmdSketcherMapSketch.activated, hso, catchWrongInput] at he
    split at he
    · simp only [List.mem_append, List.mem_singleton] at he
      rcases he with he | he
      · have := hnw e he
        rw [heq] at this
        exact Bool.noConfusion this
      · rw [heq] at he
        injection he with h1 _
        exact absurd h1 (by decide)
    · have := hnw e he
      rw [heq] at this
      exact Bool.noConfusion this

end SketcherGui

namespace SketcherGui

open Sketcher

theorem single_of_count (h : Host)
    (hc : (Gui.countObjectsOfType h.selection Base.TypeId.SketchObject == 1) = true) :
    ∃ s0, h.sketchSelection = [s0] := by
  have hlen : h.sketchSelection.length = 1 := by
    unfold Host.sketchSelection
    rw [← countObjectsOfType_eq]
    exact beq_iff_eq.mp hc
  cases hl : h.sketchSelection with
  | nil => rw [hl] at hlen; simp at hlen
  | cons s0 rest =>
    cases rest with
    | nil => exact ⟨s0, rfl⟩
    | cons s1 rest => rw [hl] at hlen; simp at hlen

theorem reorientSketch_returns (h : Host) (front : Gui.TypedSelectionObject)
    (rest : List Gui.TypedSelectionObject) (hsel : h.sketchSelection = front :: rest) :
    (CmdSketcherReorientSketch.activated h).outcome = .returned := by
  have hplace : ∀ (pre : List Gui.Event) (sketch : App.DocumentObject),
      (reorientPlace h pre sketch).outcome = .returned := by
    intro pre sketch
    unfold reorientPlace
    simp only
    split <;> rfl
  unfold CmdSketcherReorientSketch.activated
  rw [hsel]
  simp only
  split
  · split
    · rfl
    · exact hplace _ _
  · exact hplace _ _

/-- C12: with `countObjectsOfType` the number of selected objects of the type
(subtypes included), whenever `isActive()` of a command holds its
`activated()` does not take its selection-failure path in the same state:
`CmdSketcherValidateSketch` shows its task dialog and not `Select only one
sketch`; `CmdSketcherMirrorSketch` and `CmdSketcherMergeSketches` show no
warning; `CmdSketcherReorientSketch` takes `front()` of a list of one sketch
and returns; the filter `COUNT 1` of `CmdSketcherEditSketch` matches and the
sketch is put in edit; `CmdSketcherMapSketch` does not show `No sketch found`. -/
theorem enabled_implies_selection_ok (h : Host) :
    (∀ activeDialog : Bool, CmdSketcherValidateSketch.isActive activeDialog h = true →
        ∃ s0, h.sketchSelection = [s0]
          ∧ CmdSketcherValidateSketch.activated h =
              { trace := [Gui.Event.showTaskSketcherValidation s0.getObject.id]
                outcome := .returned, created := [] })
      ∧ (CmdSketcherMirrorSketch.isActive h = true →
          h.sketchSelection ≠ []
            ∧ ∀ e ∈ (CmdSketcherMirrorSketch.activated h).trace, isWarning e = false)
      ∧ (CmdSketcherMergeSketches.isActive h = true →
          2 ≤ h.sketchSelection.length
            ∧ ∀ e ∈ (CmdSketcherMergeSketches.activated h).trace, isWarning e = false)
      ∧ (CmdSketcherReorientSketch.isActive h = true →
          (∃ front, h.sketchSelection = [front])
            ∧ (CmdSketcherReorientSketch.activated h).outcome = .returned)
      ∧ (CmdSketcherEditSketch.isActive h = true →
          ∃ Sketch, Gui.selectionFilterCount1 h.selection Base.TypeId.SketchObject
              = some [Sketch]
            ∧ CmdSketcherEditSketch.activated h =
                { trace := [Gui.Event.doCommand .Gui (.setEdit Sketch.getObject.NameInDocument)]
                  outcome := .returned, created := [] })
      ∧ (CmdSketcherMapSketch.isActive h = true →
          (∃ doc, h.activeDocument = some doc
            ∧ doc.getObjectsOfType Base.TypeId.Part2DObject ≠ [])
          ∧ ∀ e ∈ (CmdSketcherMapSketch.activated h).trace,
              ∀ text, e ≠ Gui.Event.warning "No sketch found" text) := by
  refine ⟨?_, ?_, ?_, ?_, ?_, ?_⟩
  · intro ad hact
    unfold CmdSketcherValidateSketch.isActive at hact
    cases ad with
    | true => simp at hact
    | false =>
      simp only [Bool.false_eq_true, if_false] at hact
      obtain ⟨s0, hs0⟩ := single_of_count h hact
      exact ⟨s0, hs0, by simp [CmdSketcherValidateSketch.activated, hs0]⟩
  · intro hact
    have hpos : 0 < h.sketchSelection.length := by
      unfold Host.sketchSelection
      rw [← countObjectsOfType_eq]
      exact of_decide_eq_true hact
    have hne : h.sketchSelection ≠ [] := by
      intro e; rw [e] at hpos; simp at hpos
    exact ⟨hne, mirrorSketch_no_warning h hne⟩
  · intro hact
    have hpos : 2 ≤ h.sketchSelection.length := by
      unfold Host.sketchSelection
      rw [← countObjectsOfType_eq]
      exact of_decide_eq_true hact
    exact ⟨hpos, mergeSketches_no_warning h hpos⟩
  · intro hact
    obtain ⟨s0, hs0⟩ := single_of_count h hact
    exact ⟨⟨s0, hs0⟩, reorientSketch_returns h s0 [] hs0⟩
  · intro hact
    obtain ⟨s0, hs0⟩ := single_of_count h hact
    have hs1 : Gui.getSelectionExOfType h.selection Base.TypeId.SketchObject = [s0] := hs0
    have hf : Gui.selectionFilterCount1 h.selection Base.TypeId.SketchObject = some [s0] := by
      simp [Gui.selectionFilterCount1, hs1]
    exact ⟨s0, hf, by simp [CmdSketcherEditSketch.activated, hf]⟩
  · intro hact
    unfold CmdSketcherMapSketch.isActive at hact
    cases hd : h.activeDocument with
    | none => simp [hd] at hact
    | some doc =>
      simp only [hd] at hact
      have hpos : doc.countObjectsOfType Base.TypeId.SketchObject > 0 := by
        by_contra hcon
        simp [hcon] at hact
      have hne := part2D_of_sketch doc hpos
      exact ⟨⟨doc, rfl, hne⟩, mapSketch_no_sketch_warning_absent h doc hd hne⟩

/-- C12 at concrete hosts: with `Sketch` selected the commands on one sketch
are enabled and `CmdSketcherValidateSketch` shows its task dialog; with two
sketches selected `CmdSketcherMergeSketches` is enabled; with `Box` selected
in the document of the sketches `CmdSketcherMapSketch` is enabled. -/
theorem enabled_implies_selection_ok_witness :
    CmdSketcherValidateSketch.isActive false demoHostSketchSelected = true
      ∧ (∃ s0, demoHostSketchSelected.sketchSelection = [s0]
          ∧ CmdSketcherValidateSketch.activated demoHostSketchSelected =
              { trace := [Gui.Event.showTaskSketcherValidation s0.getObject.id]
                outcome := .returned, created := [] })
      ∧ CmdSketcherMergeSketches.isActive demoHostTwoSketches = true
      ∧ 2 ≤ demoHostTwoSketches.sketchSelection.length
      ∧ CmdSketcherMapSketch.isActive demoHostBox = true
      ∧ (∃ doc, demoHostBox.activeDocument = some doc
          ∧ doc.getObjectsOfType Base.TypeId.Part2DObject ≠ []) :=
  ⟨by decide,
   (enabled_implies_selection_ok demoHostSketchSelected).1 false (by decide),
   by decide,
   ((enabled_implies_selection_ok demoHostTwoSketches).2.2.1 (by decide)).1,
   by decide,
   ((enabled_implies_selection_ok demoHostBox).2.2.2.2.2 (by decide)).1⟩

end SketcherGui

namespace SketcherGui

/-- C14 at a host where the engine offers modes 3 and 2 and suggests 3, and
the user picks `FlatFace`: the items, `iSugg`, and the attached path with
mode 3. -/
theorem newSketch_mode_list_witness :
    (newSketchDialog demoHostPickFlatFace 3 [3, 2]).1
        = ["Don't attach", "Deactivated", "FlatFace", "ObjectXY"]
      ∧ (newSketchDialog demoHostPickFlatFace 3 [3, 2]).2 = 2
      ∧ CmdSketcherNewSketch.activated demoHostPickFlatFace = newSketchCreate demoHostPickFlatFace
          [newSketchDialogEvent demoHostPickFlatFace 3 [3, 2]] true 3 :=
  ⟨(newSketch_mode_list demoHostPickFlatFace 3 [3, 2]).1, by decide,
   ((newSketch_mode_list demoHostPickFlatFace 3 [3, 2]).2.2.2.2.2
      { bestFitMode := 3, msg := .srOK, msg_str := "", allmodes := [3, 2] }
      (by decide) (by decide) (by decide) (by decide) (by decide)).2 3 (by decide) (by decide)⟩

end SketcherGui
